import Mathlib

/-!
# Tournament backend: match finalisation and event registration

A shallow embedding of `controllers/matchController.js` and
`controllers/registrationController.js`.  The relational store is a record of
tables (lists of rows, in table order).  Every controller is a function from the
store before the request to the response and the store after it.  Each call of
`query` is one auto-committed statement: the controllers never open a
transaction, so a statement that throws leaves the earlier statements of the
same request in place.  A statement that throws is chosen by a fault oracle
`fault : Nat → Bool`, indexed by the position of the statement in the handler.
-/

namespace Tournament

/-! ## Values and rows -/

/-- A request-body value used as a score: a JSON number or a JSON string.
Numbers accepted by the route validator are integers, so `num` carries an `Int`. -/
inductive JsValue where
  | num (n : Int)
  | str (s : String)
  deriving DecidableEq, Repr

/-- Value of a non-empty string of decimal digits. -/
def digitsValue (cs : List Char) : Option Nat :=
  if cs.isEmpty || !cs.all Char.isDigit then none
  else some (cs.foldl (fun n c => 10 * n + (c.toNat - 48)) 0)

/-- JavaScript `ToNumber` on the values above; `none` stands for `NaN`.
A string is read as an optionally signed run of decimal digits, the strings the
route validator `isInt` lets through; any other string is taken as `NaN`.  The
value is the exact integer: JavaScript rounds to the nearest double, so the two
agree on digit strings up to 2^53 in size and may differ above. -/
def JsValue.toNumber : JsValue → Option Int
  | .num n => some n
  | .str s =>
    match s.data with
    | '-' :: ds => (digitsValue ds).map (fun n => - (n : Int))
    | '+' :: ds => (digitsValue ds).map (fun n => (n : Int))
    | ds => (digitsValue ds).map (fun n => (n : Int))

/-- JavaScript relational `a > b`: two strings are compared as strings
(character by character), anything else is compared after `ToNumber`, and a
comparison with `NaN` is false. -/
def JsValue.gt (a b : JsValue) : Bool :=
  match a, b with
  | .str x, .str y => decide (y.data < x.data)
  | _, _ =>
    match a.toNumber, b.toNumber with
    | some m, some n => decide (n < m)
    | _, _ => false

/-- Template-literal rendering of a value, as in the game-log description. -/
def JsValue.render : JsValue → String
  | .num n => toString n
  | .str s => s

/-- Row of `matches` (the columns the controllers read or write). -/
structure Match where
  match_id : Int
  event_id : Int
  match_status : String
  winner_id : Option Int
  deriving DecidableEq, Repr

/-- Row of `match_participants`. -/
structure MatchParticipant where
  match_id : Int
  player_id : Option Int
  team_id : Option Int
  score : Option JsValue
  result : Option String
  deriving DecidableEq, Repr

/-- Row of `game_logs`. -/
structure GameLog where
  log_id : Int
  match_id : Int
  event_type : String
  description : String
  deriving DecidableEq, Repr

/-- Row of `events` (the columns the registration controller reads). -/
structure Event where
  event_id : Int
  is_team_based : Bool
  registration_deadline : Int
  current_participants : Nat
  max_participants : Nat
  deriving DecidableEq, Repr

/-- Row of `registrations`.  `payment_status` is written by `updateRegistration`
only; an INSERT leaves it to the database default, here `none`. -/
structure Registration where
  registration_id : Int
  event_id : Int
  player_id : Option Int
  team_id : Option Int
  status : String
  registration_date : Int
  payment_status : Option String := none
  deriving DecidableEq, Repr

/-- The store: the five tables and the auto-increment counters of the tables
the controllers insert into.  Table `matches` is the field `match_rows`. -/
structure Store where
  events : List Event
  registrations : List Registration
  match_rows : List Match
  match_participants : List MatchParticipant
  game_logs : List GameLog
  next_match_id : Int
  next_log_id : Int
  next_registration_id : Int
  deriving DecidableEq, Repr

/-- The JSON envelope sent by a controller, with its HTTP status. -/
structure Response (α : Type) where
  status : Nat
  success : Bool
  message : String
  data : Option α
  deriving DecidableEq, Repr

/-- The oracle under which no statement throws. -/
def noFault : Nat → Bool := fun _ => false

/-! ## matchController.js -/

/-- The participant column selected by `is_team`: `team_id` or `player_id`. -/
def participantKey (is_team : Bool) (r : MatchParticipant) : Option Int :=
  if is_team then r.team_id else r.player_id

/-- `SELECT * FROM matches WHERE match_id = ?` -/
def selectMatch (s : Store) (id : Int) : List Match :=
  s.match_rows.filter (fun m => m.match_id = id)

/-- Effect of `UPDATE match_participants SET score = ?, result = ?
     WHERE match_id = ? AND (team_id | player_id) = ?` on one row. -/
def setScore (is_team : Bool) (score : JsValue) (result : String) (id pid : Int)
    (r : MatchParticipant) : MatchParticipant :=
  if r.match_id = id ∧ participantKey is_team r = some pid
  then { r with score := some score, result := some result } else r

/-- The `UPDATE match_participants` statement on the table. -/
def updateParticipant (is_team : Bool) (score : JsValue) (result : String)
    (id pid : Int) (rows : List MatchParticipant) : List MatchParticipant :=
  rows.map (setScore is_team score result id pid)

/-- `UPDATE matches SET match_status = ?, winner_id = ? WHERE match_id = ?` -/
def updateMatchRow (status : String) (winner : Option Int) (id : Int)
    (rows : List Match) : List Match :=
  rows.map (fun m =>
    if m.match_id = id then { m with match_status := status, winner_id := winner } else m)

/-- The "Determine winner" block of `updateMatchScore`:
`(winnerId, result1, result2)`. -/
def determineWinner (p1 : Int) (s1 : JsValue) (p2 : Int) (s2 : JsValue) :
    Option Int × String × String :=
  if s1.gt s2 then (some p1, "Win", "Loss")
  else if s2.gt s1 then (some p2, "Loss", "Win")
  else (none, "Draw", "Draw")

/-- The description written to the game log. -/
def finalScore (s1 s2 : JsValue) : String :=
  "Final Score: " ++ s1.render ++ " - " ++ s2.render

/-- The 500 envelope of a `catch` block. -/
def serverError {α : Type} (msg : String) : Response α :=
  { status := 500, success := false, message := msg, data := none }

/-- Handler `updateMatchScore` of `PUT /api/matches/:id/score`.  Statements, in
order: 0 select match, 1 update participant 1, 2 update participant 2,
3 update match, 4 insert game log, 5 select match. -/
def updateMatchScore (fault : Nat → Bool) (s : Store) (id : Int)
    (participant1_id : Int) (participant1_score : JsValue)
    (participant2_id : Int) (participant2_score : JsValue) (is_team : Bool) :
    Response Match × Store :=
  if fault 0 then (serverError "Error updating match score", s) else
  if (selectMatch s id).length = 0 then
    ({ status := 404, success := false, message := "Match not found", data := none }, s)
  else
  let w := determineWinner participant1_id participant1_score participant2_id participant2_score
  if fault 1 then (serverError "Error updating match score", s) else
  let s1 : Store := { s with
    match_participants :=
      updateParticipant is_team participant1_score w.2.1 id participant1_id
        s.match_participants }
  if fault 2 then (serverError "Error updating match score", s1) else
  let s2 : Store := { s1 with
    match_participants :=
      updateParticipant is_team participant2_score w.2.2 id participant2_id
        s1.match_participants }
  if fault 3 then (serverError "Error updating match score", s2) else
  let s3 : Store := { s2 with match_rows := updateMatchRow "Completed" w.1 id s2.match_rows }
  if fault 4 then (serverError "Error updating match score", s3) else
  let s4 : Store := { s3 with
    game_logs := s3.game_logs ++
      [{ log_id := s3.next_log_id, match_id := id, event_type := "Match Completed",
         description := finalScore participant1_score participant2_score }],
    next_log_id := s3.next_log_id + 1 }
  if fault 5 then (serverError "Error updating match score", s4) else
  ({ status := 200, success := true, message := "Match score updated successfully",
     data := (selectMatch s4 id).head? }, s4)

/-- One value tuple of `INSERT INTO match_participants (match_id, team_id | player_id)`:
the column not named is NULL, and so are `score` and `result`. -/
def newParticipant (is_team : Bool) (matchId p : Int) : MatchParticipant :=
  if is_team then
    { match_id := matchId, player_id := none, team_id := some p, score := none, result := none }
  else
    { match_id := matchId, player_id := some p, team_id := none, score := none, result := none }

/-- Handler `scheduleMatch` of `POST /api/matches`.  Statements, in order:
0 insert match, 1 insert the two participants, 2 select match. -/
def scheduleMatch (fault : Nat → Bool) (s : Store) (event_id : Int)
    (participant1_id participant2_id : Int) (is_team : Bool) :
    Response Match × Store :=
  if fault 0 then (serverError "Error scheduling match", s) else
  let matchId := s.next_match_id
  let s1 : Store := { s with
    match_rows := s.match_rows ++
      [{ match_id := matchId, event_id := event_id, match_status := "Scheduled",
         winner_id := none }],
    next_match_id := s.next_match_id + 1 }
  if fault 1 then (serverError "Error scheduling match", s1) else
  let s2 : Store := { s1 with
    match_participants := s1.match_participants ++
      [newParticipant is_team matchId participant1_id,
       newParticipant is_team matchId participant2_id] }
  if fault 2 then (serverError "Error scheduling match", s2) else
  ({ status := 201, success := true, message := "Match scheduled successfully",
     data := (selectMatch s2 matchId).head? }, s2)

/-- The store of a freshly created database. -/
def emptyStore : Store :=
  { events := [], registrations := [], match_rows := [], match_participants := [],
    game_logs := [], next_match_id := 1, next_log_id := 1, next_registration_id := 1 }

/-! ## registrationController.js -/

/-- `SELECT * FROM events WHERE event_id = ?` -/
def selectEvent (s : Store) (event_id : Int) : List Event :=
  s.events.filter (fun e => e.event_id = event_id)

/-- `SELECT registration_id FROM registrations
     WHERE event_id = ? AND player_id = ? AND status != 'Cancelled'` -/
def existingPlayer (s : Store) (event_id player_id : Int) : List Registration :=
  s.registrations.filter (fun r =>
    r.event_id = event_id ∧ r.player_id = some player_id ∧ r.status ≠ "Cancelled")

/-- `SELECT registration_id FROM registrations
     WHERE event_id = ? AND team_id = ? AND status != 'Cancelled'` -/
def existingTeam (s : Store) (event_id team_id : Int) : List Registration :=
  s.registrations.filter (fun r =>
    r.event_id = event_id ∧ r.team_id = some team_id ∧ r.status ≠ "Cancelled")

/-- The "Check if event is full" block of both register handlers. -/
def admissionStatus (event : Event) : String :=
  if event.current_participants ≥ event.max_participants then "Waitlisted" else "Confirmed"

/-- `INSERT INTO registrations (event_id, player_id | team_id, status) VALUES (?, ?, ?)`;
`registration_date` takes the time of the request. -/
def insertRegistration (s : Store) (now : Int) (event_id : Int)
    (player_id team_id : Option Int) (status : String) : Store :=
  { s with
    registrations := s.registrations ++
      [{ registration_id := s.next_registration_id, event_id := event_id,
         player_id := player_id, team_id := team_id, status := status,
         registration_date := now }],
    next_registration_id := s.next_registration_id + 1 }

/-- `SELECT * FROM registrations WHERE registration_id = ?` -/
def selectRegistration (s : Store) (id : Int) : List Registration :=
  s.registrations.filter (fun r => r.registration_id = id)

/-- Handler `registerPlayer` of `POST /api/registrations/player`, called at time
`now`.  Statements, in order: 0 select event, 1 select existing registration,
2 insert registration, 3 select the new registration. -/
def registerPlayer (fault : Nat → Bool) (now : Int) (s : Store)
    (event_id player_id : Int) : Response Registration × Store :=
  if fault 0 then (serverError "Error registering player", s) else
  match selectEvent s event_id with
  | [] => ({ status := 404, success := false, message := "Event not found", data := none }, s)
  | event :: _ =>
    if event.is_team_based then
      ({ status := 400, success := false,
         message := "This is a team-based event. Please register as a team.", data := none }, s)
    else if event.registration_deadline < now then
      ({ status := 400, success := false, message := "Registration deadline has passed",
         data := none }, s)
    else if fault 1 then (serverError "Error registering player", s)
    else if (existingPlayer s event_id player_id).length > 0 then
      ({ status := 400, success := false,
         message := "Player already registered for this event", data := none }, s)
    else
      let status := admissionStatus event
      if fault 2 then (serverError "Error registering player", s) else
      let s1 := insertRegistration s now event_id (some player_id) none status
      if fault 3 then (serverError "Error registering player", s1) else
      ({ status := 201, success := true,
         message := if status = "Confirmed" then "Player registered successfully"
                    else "Player added to waitlist",
         data := (selectRegistration s1 s.next_registration_id).head? }, s1)

/-- Handler `registerTeam` of `POST /api/registrations/team`, called at time
`now`, with an integer `team_id`.  Statements as in `registerPlayer`.  The
route mounts no validator; `registerTeamBody` is the handler on a `team_id`
that may be JSON `null`. -/
def registerTeam (fault : Nat → Bool) (now : Int) (s : Store)
    (event_id team_id : Int) : Response Registration × Store :=
  if fault 0 then (serverError "Error registering team", s) else
  match selectEvent s event_id with
  | [] => ({ status := 404, success := false, message := "Event not found", data := none }, s)
  | event :: _ =>
    if !event.is_team_based then
      ({ status := 400, success := false,
         message := "This is not a team-based event. Please register as individual player.",
         data := none }, s)
    else if event.registration_deadline < now then
      ({ status := 400, success := false, message := "Registration deadline has passed",
         data := none }, s)
    else if fault 1 then (serverError "Error registering team", s)
    else if (existingTeam s event_id team_id).length > 0 then
      ({ status := 400, success := false,
         message := "Team already registered for this event", data := none }, s)
    else
      let status := admissionStatus event
      if fault 2 then (serverError "Error registering team", s) else
      let s1 := insertRegistration s now event_id none (some team_id) status
      if fault 3 then (serverError "Error registering team", s1) else
      ({ status := 201, success := true,
         message := if status = "Confirmed" then "Team registered successfully"
                    else "Team added to waitlist",
         data := (selectRegistration s1 s.next_registration_id).head? }, s1)

/-- `UPDATE registrations SET status = ? WHERE registration_id = ?` -/
def setRegistrationStatus (status : String) (id : Int)
    (rows : List Registration) : List Registration :=
  rows.map (fun r => if r.registration_id = id then { r with status := status } else r)

/-- `SELECT registration_id FROM registrations WHERE event_id = ? AND status = 'Waitlisted'
     ORDER BY registration_date ASC LIMIT 1`.  The statement names no second sort
key, so among the waitlisted rows of least `registration_date` the database is
free to return any one; `tie` is that choice (an index into the tied rows). -/
def selectOldestWaitlisted (tie : List Registration → Nat) (rows : List Registration)
    (event_id : Int) : Option Registration :=
  let ws := rows.filter (fun r => r.event_id = event_id ∧ r.status = "Waitlisted")
  let tied := ws.filter (fun r => ws.all (fun x => r.registration_date ≤ x.registration_date))
  tied.get? (tie tied % tied.length)

/-- Handler `cancelRegistration` of `PUT /api/registrations/:id/cancel`.
Statements, in order: 0 select registration, 1 cancel it, 2 select the oldest
waitlisted registration of the event, 3 confirm that one (when there is one). -/
def cancelRegistration (fault : Nat → Bool) (tie : List Registration → Nat) (s : Store)
    (id : Int) : Response Unit × Store :=
  if fault 0 then (serverError "Error cancelling registration", s) else
  match selectRegistration s id with
  | [] =>
    ({ status := 404, success := false, message := "Registration not found", data := none }, s)
  | registration :: _ =>
    if registration.status = "Cancelled" then
      ({ status := 400, success := false, message := "Registration already cancelled",
         data := none }, s)
    else if fault 1 then (serverError "Error cancelling registration", s) else
    let s1 : Store := { s with
      registrations := setRegistrationStatus "Cancelled" id s.registrations }
    if fault 2 then (serverError "Error cancelling registration", s1) else
    match selectOldestWaitlisted tie s1.registrations registration.event_id with
    | none =>
      ({ status := 200, success := true,
         message := "Registration cancelled successfully. Waitlisted participant promoted if available.",
         data := none }, s1)
    | some w =>
      if fault 3 then (serverError "Error cancelling registration", s1) else
      ({ status := 200, success := true,
         message := "Registration cancelled successfully. Waitlisted participant promoted if available.",
         data := none },
       { s1 with
         registrations := setRegistrationStatus "Confirmed" w.registration_id s1.registrations })

/-- Number of registrations of an event whose status is Confirmed. -/
def confirmedCount (s : Store) (event_id : Int) : Nat :=
  (s.registrations.filter (fun r => r.event_id = event_id ∧ r.status = "Confirmed")).length

/-- The database default tie order: the first of the tied rows in table order. -/
def firstTie : List Registration → Nat := fun _ => 0


/-! ## Reachable stores and the properties stated about them -/

/-- Stores reached from the empty database by `scheduleMatch` and
`updateMatchScore` requests in which no statement throws. -/
inductive Reachable : Store → Prop where
  | init : Reachable emptyStore
  | schedule (s : Store) (event_id p1 p2 : Int) (is_team : Bool) :
      Reachable s → Reachable (scheduleMatch noFault s event_id p1 p2 is_team).2
  | score (s : Store) (id p1 : Int) (v1 : JsValue) (p2 : Int) (v2 : JsValue) (is_team : Bool) :
      Reachable s → Reachable (updateMatchScore noFault s id p1 v1 p2 v2 is_team).2

/-- The two ids of a score request are exactly the identities, in the column
selected by `is_team`, of the participant rows recorded for the match. -/
def participantsMatch (s : Store) (id p1 p2 : Int) (is_team : Bool) : Prop :=
  (∀ r ∈ s.match_participants, r.match_id = id →
      participantKey is_team r = some p1 ∨ participantKey is_team r = some p2) ∧
  (∃ r ∈ s.match_participants, r.match_id = id ∧ participantKey is_team r = some p1) ∧
  (∃ r ∈ s.match_participants, r.match_id = id ∧ participantKey is_team r = some p2)

instance (s : Store) (id p1 p2 : Int) (is_team : Bool) :
    Decidable (participantsMatch s id p1 p2 is_team) := by
  unfold participantsMatch; infer_instance

/-- Stores reached as in `Reachable`, with every score request naming exactly
the participants recorded for its match. -/
inductive ReachableMatched : Store → Prop where
  | init : ReachableMatched emptyStore
  | schedule (s : Store) (event_id p1 p2 : Int) (is_team : Bool) :
      ReachableMatched s → ReachableMatched (scheduleMatch noFault s event_id p1 p2 is_team).2
  | score (s : Store) (id p1 : Int) (v1 : JsValue) (p2 : Int) (v2 : JsValue) (is_team : Bool) :
      ReachableMatched s → participantsMatch s id p1 p2 is_team →
      ReachableMatched (updateMatchScore noFault s id p1 v1 p2 v2 is_team).2

/-- Every participant row of a Completed match has a result. -/
def CompletedHasResults (s : Store) : Prop :=
  ∀ m ∈ s.match_rows, m.match_status = "Completed" →
    ∀ r ∈ s.match_participants, r.match_id = m.match_id → r.result ≠ none

/-- A match with a participant row that has a result is Completed. -/
def ResultsImplyCompleted (s : Store) : Prop :=
  ∀ m ∈ s.match_rows, ∀ r ∈ s.match_participants,
    r.match_id = m.match_id → r.result ≠ none → m.match_status = "Completed"

/-- The winner of every match is unset or is the player or team of one of the
participant rows of that match. -/
def WinnerIsParticipant (s : Store) : Prop :=
  ∀ m ∈ s.match_rows, m.winner_id = none ∨
    ∃ r ∈ s.match_participants, r.match_id = m.match_id ∧
      (r.player_id = m.winner_id ∨ r.team_id = m.winner_id)

instance (s : Store) : Decidable (CompletedHasResults s) := by
  unfold CompletedHasResults; infer_instance

instance (s : Store) : Decidable (ResultsImplyCompleted s) := by
  unfold ResultsImplyCompleted; infer_instance

instance (s : Store) : Decidable (WinnerIsParticipant s) := by
  unfold WinnerIsParticipant; infer_instance

/-- Match ids in both match tables are below the auto-increment counter. -/
def MatchIdsBelow (s : Store) : Prop :=
  (∀ m ∈ s.match_rows, m.match_id < s.next_match_id) ∧
  (∀ r ∈ s.match_participants, r.match_id < s.next_match_id)

/-- The invariant carried along the reachable stores. -/
def MatchInv (s : Store) : Prop :=
  MatchIdsBelow s ∧ CompletedHasResults s ∧ ResultsImplyCompleted s

/-- Match 1 between players 10 and 20, as `scheduleMatch` leaves it in a fresh
database. -/
def scheduledStore : Store :=
  (scheduleMatch noFault emptyStore 1 10 20 false).2

/-- The store after match 1 has been scored 3 to 1 for players 10 and 20. -/
def scoredStore : Store :=
  (updateMatchScore noFault scheduledStore 1 10 (.num 3) 20 (.num 1) false).2

/-- Match 1 after a score request that names player 10 and a stranger, 99. -/
def halfScoredStore : Store :=
  (updateMatchScore noFault scheduledStore 1 10 (.num 3) 99 (.num 1) false).2

/-- Match 1 after a score request that names two strangers, 99 and 98. -/
def strangerStore : Store :=
  (updateMatchScore noFault scheduledStore 1 99 (.num 3) 98 (.num 1) false).2

/-- A participant row is addressed by a score request: it belongs to the match
and holds one of the two ids in the column selected by `is_team`. -/
def addressed (id p1 p2 : Int) (is_team : Bool) (r : MatchParticipant) : Prop :=
  r.match_id = id ∧ (participantKey is_team r = some p1 ∨ participantKey is_team r = some p2)

/-- The oracle under which exactly statement `k` throws. -/
def faultAt (k : Nat) : Nat → Bool := fun n => n == k

/-! ## Registration requests and the capacity property -/

/-- Every event has at most `max_participants` Confirmed registrations. -/
def CapacityOk (s : Store) : Prop :=
  ∀ ev ∈ s.events, confirmedCount s ev.event_id ≤ ev.max_participants

instance (s : Store) : Decidable (CapacityOk s) := by
  unfold CapacityOk; infer_instance

/-- One request to the registration controller, with the time of the request
and the behaviour of the database during it. -/
inductive RegCall where
  | player (fault : Nat → Bool) (now event_id player_id : Int)
  | team (fault : Nat → Bool) (now event_id team_id : Int)
  | cancel (fault : Nat → Bool) (tie : List Registration → Nat) (id : Int)

/-- The store after one request. -/
def RegCall.run (s : Store) : RegCall → Store
  | .player fault now event_id player_id => (registerPlayer fault now s event_id player_id).2
  | .team fault now event_id team_id => (registerTeam fault now s event_id team_id).2
  | .cancel fault tie id => (cancelRegistration fault tie s id).2

/-- The store after a finite sequence of requests. -/
def runCalls (s : Store) : List RegCall → Store
  | [] => s
  | c :: cs => runCalls (c.run s) cs

/-- Primary keys: event ids are unique, registration ids are unique and below
the auto-increment counter. -/
def KeysUnique (s : Store) : Prop :=
  (∀ a ∈ s.events, ∀ b ∈ s.events, a.event_id = b.event_id → a = b) ∧
  (s.registrations.map (fun r => r.registration_id)).Nodup ∧
  (∀ r ∈ s.registrations, r.registration_id < s.next_registration_id)

instance (s : Store) : Decidable (KeysUnique s) := by
  unfold KeysUnique; infer_instance

/-- The condition on one request under which the capacity property is carried
over: a register request finds the stored counter `current_participants` of the
event not below its number of Confirmed registrations, and a cancel request
targets a registration that is Confirmed (or already Cancelled, or absent). -/
def RegCall.admissible (s : Store) : RegCall → Prop
  | .player _ _ event_id _ =>
    ∀ ev ∈ s.events, ev.event_id = event_id → confirmedCount s event_id ≤ ev.current_participants
  | .team _ _ event_id _ =>
    ∀ ev ∈ s.events, ev.event_id = event_id → confirmedCount s event_id ≤ ev.current_participants
  | .cancel _ _ id =>
    ∀ r ∈ s.registrations, r.registration_id = id →
      r.status = "Confirmed" ∨ r.status = "Cancelled"

instance (s : Store) : (c : RegCall) → Decidable (c.admissible s)
  | .player _ _ event_id _ =>
    inferInstanceAs (Decidable (∀ ev ∈ s.events, ev.event_id = event_id →
      confirmedCount s event_id ≤ ev.current_participants))
  | .team _ _ event_id _ =>
    inferInstanceAs (Decidable (∀ ev ∈ s.events, ev.event_id = event_id →
      confirmedCount s event_id ≤ ev.current_participants))
  | .cancel _ _ id =>
    inferInstanceAs (Decidable (∀ r ∈ s.registrations, r.registration_id = id →
      r.status = "Confirmed" ∨ r.status = "Cancelled"))

/-- Every request of the sequence is admissible in the store it is run in. -/
def admissibleRun (s : Store) : List RegCall → Prop
  | [] => True
  | c :: cs => c.admissible s ∧ admissibleRun (c.run s) cs

/-- Event 1: for players, deadline 100, capacity 2, stored counter 0. -/
def openEventStore : Store :=
  { emptyStore with
    events := [{ event_id := 1, is_team_based := false, registration_deadline := 100,
                 current_participants := 0, max_participants := 2 }] }

/-- Event 1 after players 1 and 2 have registered at time 5. -/
def twoConfirmedStore : Store :=
  runCalls openEventStore [.player noFault 5 1 1, .player noFault 5 1 2]

/-- Event 1 with stored counter 2 (capacity 2) and no registration yet. -/
def countedEventStore : Store :=
  { emptyStore with
    events := [{ event_id := 1, is_team_based := false, registration_deadline := 100,
                 current_participants := 2, max_participants := 2 }] }

/-- Event 1 with stored counter 2 (capacity 3) and no registration yet. -/
def seededEventStore : Store :=
  { emptyStore with
    events := [{ event_id := 1, is_team_based := false, registration_deadline := 100,
                 current_participants := 2, max_participants := 3 }] }

/-- Team event 2: deadline 100, capacity 4, stored counter 1. -/
def teamEventStore : Store :=
  { emptyStore with
    events := [{ event_id := 2, is_team_based := true, registration_deadline := 100,
                 current_participants := 1, max_participants := 4 }] }

/-! ## Stores used for the register and cancel claims -/

/-- Event 1 after player 1 has registered at time 5. -/
def oneConfirmedStore : Store :=
  runCalls openEventStore [.player noFault 5 1 1]

/-- Event 1 (capacity 1): registration 1 is Confirmed, registrations 2 and 3 are
Waitlisted and were created at the same instant 7. -/
def tiedWaitlistStore : Store :=
  { emptyStore with
    events := [{ event_id := 1, is_team_based := false, registration_deadline := 100,
                 current_participants := 1, max_participants := 1 }],
    registrations :=
      [{ registration_id := 1, event_id := 1, player_id := some 1, team_id := none,
         status := "Confirmed", registration_date := 5 },
       { registration_id := 2, event_id := 1, player_id := some 2, team_id := none,
         status := "Waitlisted", registration_date := 7 },
       { registration_id := 3, event_id := 1, player_id := some 3, team_id := none,
         status := "Waitlisted", registration_date := 7 }],
    next_registration_id := 4 }

/-- Event 1 (capacity 1): registration 1 is Confirmed, registration 2 was
waitlisted at instant 7 and registration 3 at instant 9. -/
def orderedWaitlistStore : Store :=
  { emptyStore with
    events := [{ event_id := 1, is_team_based := false, registration_deadline := 100,
                 current_participants := 1, max_participants := 1 }],
    registrations :=
      [{ registration_id := 1, event_id := 1, player_id := some 1, team_id := none,
         status := "Confirmed", registration_date := 5 },
       { registration_id := 2, event_id := 1, player_id := some 2, team_id := none,
         status := "Waitlisted", registration_date := 7 },
       { registration_id := 3, event_id := 1, player_id := some 3, team_id := none,
         status := "Waitlisted", registration_date := 9 }],
    next_registration_id := 4 }

/-- A tie order the database may as well use: the last of the tied rows. -/
def lastTie : List Registration → Nat := fun tied => tied.length - 1

/-- The rejection of `registerPlayer` on a team-based event. -/
def playerWrongKind : Response Registration :=
  { status := 400, success := false,
    message := "This is a team-based event. Please register as a team.", data := none }

/-- The rejection of `registerTeam` on an event that is not team-based. -/
def teamWrongKind : Response Registration :=
  { status := 400, success := false,
    message := "This is not a team-based event. Please register as individual player.",
    data := none }

/-- The rejection of both register handlers after the deadline. -/
def deadlinePassed : Response Registration :=
  { status := 400, success := false, message := "Registration deadline has passed",
    data := none }

/-- The rejection of `registerPlayer` for a player already registered. -/
def playerDuplicate : Response Registration :=
  { status := 400, success := false, message := "Player already registered for this event",
    data := none }

/-- The rejection of `registerTeam` for a team already registered. -/
def teamDuplicate : Response Registration :=
  { status := 400, success := false, message := "Team already registered for this event",
    data := none }

/-- The answer of both register handlers for an unknown event. -/
def eventNotFound : Response Registration :=
  { status := 404, success := false, message := "Event not found", data := none }

/-- The answer of `cancelRegistration` for an unknown registration. -/
def registrationNotFound : Response Unit :=
  { status := 404, success := false, message := "Registration not found", data := none }

/-- The answer of `cancelRegistration` for a registration that is Cancelled. -/
def alreadyCancelled : Response Unit :=
  { status := 400, success := false, message := "Registration already cancelled",
    data := none }

/-- Event 1 in which registration 1, of player 1, has been cancelled. -/
def cancelledStore : Store :=
  runCalls openEventStore [.player noFault 5 1 1, .cancel noFault firstTie 1]

/-! ## Properties of the registration table over a sequence of requests -/

/-- At most one registration that is not Cancelled per event and participant
(player or team), counted with the handlers' own duplicate queries. -/
def UniqueActive (s : Store) : Prop :=
  ∀ e p : Int, (existingPlayer s e p).length ≤ 1 ∧ (existingTeam s e p).length ≤ 1

/-- What one request may do to a registration row: nothing, promote it from
Waitlisted to Confirmed, or cancel it when it is not yet Cancelled. -/
def StatusStep (r r2 : Registration) : Prop :=
  r2 = r ∨ (r.status = "Waitlisted" ∧ r2 = { r with status := "Confirmed" }) ∨
    (r.status ≠ "Cancelled" ∧ r2 = { r with status := "Cancelled" })

/-- The registrations of `s2` are those of `s`, in place and each changed by at
most one `StatusStep`, followed by rows created as Confirmed or Waitlisted. -/
def Lifecycle (s s2 : Store) : Prop :=
  ∃ kept created : List Registration,
    s2.registrations = kept ++ created ∧
    List.Forall₂ StatusStep s.registrations kept ∧
    ∀ r ∈ created, r.status = "Confirmed" ∨ r.status = "Waitlisted"

/-- Effect of a successful cancellation on one row: the target `id` becomes
Cancelled, the promoted row `promoted` (when there is one) becomes Confirmed,
any other row is kept. -/
def cancelRow (id : Int) (promoted : Option Registration) (r : Registration) : Registration :=
  if r.registration_id = id then { r with status := "Cancelled" }
  else if promoted = some r then { r with status := "Confirmed" }
  else r

/-! ## updateRegistration and deleteRegistration -/

/-- JavaScript truthiness of a request field that is absent or a string: only a
non-empty string is truthy. -/
def truthyField : Option String → Bool
  | some v => v != ""
  | none => false

/-- Effect of `UPDATE registrations SET ... WHERE registration_id = ?` of
`updateRegistration` on one row: `status` and `payment_status` are set when the
field is in `updateFields`. -/
def setFields (status payment_status : Option String) (id : Int) (r : Registration) :
    Registration :=
  if r.registration_id = id then
    { r with
      status := if truthyField status then status.getD r.status else r.status,
      payment_status := if truthyField payment_status then payment_status
                        else r.payment_status }
  else r

/-- Handler `updateRegistration` of `PUT /api/registrations/:id`.  Statements, in
order: 0 select registration, 1 update it, 2 select it again. -/
def updateRegistration (fault : Nat → Bool) (s : Store) (id : Int)
    (status payment_status : Option String) : Response Registration × Store :=
  if fault 0 then (serverError "Error updating registration", s) else
  if (selectRegistration s id).length = 0 then
    ({ status := 404, success := false, message := "Registration not found", data := none }, s)
  else if !truthyField status && !truthyField payment_status then
    ({ status := 400, success := false, message := "No fields to update", data := none }, s)
  else if fault 1 then (serverError "Error updating registration", s) else
  let s1 : Store := { s with
    registrations := s.registrations.map (setFields status payment_status id) }
  if fault 2 then (serverError "Error updating registration", s1) else
  ({ status := 200, success := true, message := "Registration updated successfully",
     data := (selectRegistration s1 id).head? }, s1)

/-- Handler `deleteRegistration` of `DELETE /api/registrations/:id`.  Statements,
in order: 0 select registration, 1 delete it. -/
def deleteRegistration (fault : Nat → Bool) (s : Store) (id : Int) : Response Unit × Store :=
  if fault 0 then (serverError "Error deleting registration", s) else
  if (selectRegistration s id).length = 0 then
    ({ status := 404, success := false, message := "Registration not found", data := none }, s)
  else if fault 1 then (serverError "Error deleting registration", s) else
  ({ status := 200, success := true, message := "Registration deleted successfully",
     data := none },
   { s with registrations := s.registrations.filter (fun r => r.registration_id ≠ id) })

/-- The answer of every successful `cancelRegistration`. -/
def cancelSucceeded : Response Unit :=
  { status := 200, success := true,
    message := "Registration cancelled successfully. Waitlisted participant promoted if available.",
    data := none }

/-! ## middleware/validation.js: the body rule of `registrationValidation.register` -/

/-- JavaScript truthiness of a body field holding an id: an absent (or null)
field, the number 0 and the empty string are falsy. -/
def truthyValue : Option JsValue → Bool
  | none => false
  | some (.num n) => n != 0
  | some (.str v) => v != ""

/-- The `body().custom(...)` rule of `registrationValidation.register`: the
message of the error it throws, or `none` when it returns true. -/
def registerBodyRule (player_id team_id : Option JsValue) : Option String :=
  if !truthyValue player_id && !truthyValue team_id then
    some "Either player_id or team_id is required"
  else if truthyValue player_id && truthyValue team_id then
    some "Cannot provide both player_id and team_id"
  else none

/-! ## Query texts: `getAllRegistrations` and `callProcedure` -/

/-- The SQL text and the parameter list built by `getAllRegistrations` from the
four optional filters of the query string. -/
def getAllRegistrationsQuery (event_id player_id team_id status : Option String) :
    String × List String :=
  let q0 : String × List String := ("SELECT * FROM registrations WHERE 1=1", [])
  let q1 := if truthyField event_id
    then (q0.1 ++ " AND event_id = ?", q0.2 ++ [event_id.getD ""]) else q0
  let q2 := if truthyField player_id
    then (q1.1 ++ " AND player_id = ?", q1.2 ++ [player_id.getD ""]) else q1
  let q3 := if truthyField team_id
    then (q2.1 ++ " AND team_id = ?", q2.2 ++ [team_id.getD ""]) else q2
  let q4 := if truthyField status
    then (q3.1 ++ " AND status = ?", q3.2 ++ [status.getD ""]) else q3
  (q4.1 ++ " ORDER BY registration_date DESC", q4.2)

/-- JavaScript `Array.prototype.join` on strings. -/
def joinWith (sep : String) : List String → String
  | [] => ""
  | [a] => a
  | a :: b :: rest => a ++ sep ++ joinWith sep (b :: rest)

/-- The statement text built by `callProcedure`:
`CALL name(?,...,?)` with one placeholder per parameter. -/
def callProcedureSql {α : Type} (procedureName : String) (params : List α) : String :=
  "CALL " ++ procedureName ++ "(" ++ joinWith "," (params.map (fun _ => "?")) ++ ")"

/-- Number of `?` placeholders in a statement text. -/
def placeholderCount (sql : String) : Nat :=
  sql.data.count '?'

/-- The filters that are present, in the order the handler tests them, each with
its column. -/
def presentFilters (event_id player_id team_id status : Option String) :
    List (String × String) :=
  [("event_id", event_id), ("player_id", player_id), ("team_id", team_id),
   ("status", status)].filterMap
    (fun cv => if truthyField cv.2 then some (cv.1, cv.2.getD "") else none)

/-- The text appended for one present filter. -/
def filterClause (cv : String × String) : String :=
  " AND " ++ cv.1 ++ " = ?"

/-! ## Matches and their two participants -/

/-- Stores reached from the empty database by `scheduleMatch` requests that
succeed (answer 201) and by `updateMatchScore` requests, with or without store
faults. -/
inductive ReachableScheduled : Store → Prop where
  | init : ReachableScheduled emptyStore
  | schedule (fault : Nat → Bool) (s : Store) (event_id p1 p2 : Int) (is_team : Bool) :
      ReachableScheduled s → (scheduleMatch fault s event_id p1 p2 is_team).1.status = 201 →
      ReachableScheduled (scheduleMatch fault s event_id p1 p2 is_team).2
  | score (fault : Nat → Bool) (s : Store) (id p1 : Int) (v1 : JsValue) (p2 : Int)
      (v2 : JsValue) (is_team : Bool) :
      ReachableScheduled s → ReachableScheduled (updateMatchScore fault s id p1 v1 p2 v2 is_team).2

/-- Every match row has exactly two participant rows. -/
def TwoParticipants (s : Store) : Prop :=
  ∀ m ∈ s.match_rows,
    (s.match_participants.filter (fun r => r.match_id = m.match_id)).length = 2

instance (s : Store) : Decidable (TwoParticipants s) := by
  unfold TwoParticipants; infer_instance

/-- The match and the player or team a participant row stands for. -/
def participantIdentity (r : MatchParticipant) : Int × Option Int × Option Int :=
  (r.match_id, r.player_id, r.team_id)

/-! ## Two register requests in flight -/

/-- Where a `registerPlayer` request stands: each constructor but the last is
the point just before the next awaited statement, with the event row the
handler holds in its local variable; `finished` carries the answer sent. -/
inductive RegPhase where
  | start
  | eventRead (event : Event)
  | checked (event : Event)
  | inserted (event : Event) (insertId : Int)
  | finished (answer : Response Registration)
  deriving DecidableEq, Repr

/-- One awaited statement of `registerPlayer`, without store fault, and the code
that follows it up to the next `await` or `return`. -/
def registerPlayerStep (now event_id player_id : Int) (ph : RegPhase) (s : Store) :
    RegPhase × Store :=
  match ph with
  | .start =>
    match selectEvent s event_id with
    | [] => (.finished eventNotFound, s)
    | event :: _ =>
      if event.is_team_based then (.finished playerWrongKind, s)
      else if event.registration_deadline < now then (.finished deadlinePassed, s)
      else (.eventRead event, s)
  | .eventRead event =>
    if (existingPlayer s event_id player_id).length > 0 then (.finished playerDuplicate, s)
    else (.checked event, s)
  | .checked event =>
    (.inserted event s.next_registration_id,
     insertRegistration s now event_id (some player_id) none (admissionStatus event))
  | .inserted event insertId =>
    (.finished
      { status := 201, success := true,
        message := if admissionStatus event = "Confirmed" then "Player registered successfully"
                   else "Player added to waitlist",
        data := (selectRegistration s insertId).head? }, s)
  | .finished answer => (.finished answer, s)

/-- A request run alone for `n` statements. -/
def registerPlayerSteps (now event_id player_id : Int) : Nat → RegPhase × Store → RegPhase × Store
  | 0, c => c
  | n + 1, c =>
    registerPlayerSteps now event_id player_id n (registerPlayerStep now event_id player_id c.1 c.2)

/-- Two `registerPlayer` requests for the same event in flight in one process:
`true` in the schedule lets the first request (player `p`, time `now1`) run its
next statement, `false` the second (player `q`, time `now2`). -/
def interleave (now1 now2 event_id p q : Int) :
    List Bool → RegPhase × RegPhase × Store → RegPhase × RegPhase × Store
  | [], c => c
  | true :: rest, c =>
    interleave now1 now2 event_id p q rest
      ((registerPlayerStep now1 event_id p c.1 c.2.2).1, c.2.1,
       (registerPlayerStep now1 event_id p c.1 c.2.2).2)
  | false :: rest, c =>
    interleave now1 now2 event_id p q rest
      (c.1, (registerPlayerStep now2 event_id q c.2.1 c.2.2).1,
       (registerPlayerStep now2 event_id q c.2.1 c.2.2).2)

/-- The phase is one of a request that went through its checks for `event`. -/
def PhaseOk (event : Event) : RegPhase → Prop
  | .start => True
  | .eventRead ev => ev = event
  | .checked ev => ev = event
  | .inserted ev _ => ev = event
  | .finished answer => answer.status = 201

/-- The request has run its INSERT. -/
def hasInserted : RegPhase → Bool
  | .inserted _ _ => true
  | .finished _ => true
  | _ => false

/-- What holds of two requests in flight, started in store `s`: the events table
is that of `s`; the registrations are those of `s` followed by the rows
inserted so far, all Confirmed rows of the event for `p` or `q`, one for each
request that has run its INSERT. -/
def RaceInv (s : Store) (e p q : Int) (event : Event) (c : RegPhase × RegPhase × Store) :
    Prop :=
  c.2.2.events = s.events ∧
  ∃ ins : List Registration, c.2.2.registrations = s.registrations ++ ins ∧
    (∀ r ∈ ins, r.event_id = e ∧ r.status = "Confirmed" ∧
      (r.player_id = some p ∨ r.player_id = some q)) ∧
    PhaseOk event c.1 ∧ PhaseOk event c.2.1 ∧
    (ins.filter (fun r => r.player_id = some p)).length = (if hasInserted c.1 then 1 else 0) ∧
    (ins.filter (fun r => r.player_id = some q)).length = (if hasInserted c.2.1 then 1 else 0)

/-- Event 1 with capacity 2, stored counter 1 and one Confirmed registration:
exactly one free slot. -/
def oneFreeSlotStore : Store :=
  { emptyStore with
    events := [{ event_id := 1, is_team_based := false, registration_deadline := 100,
                 current_participants := 1, max_participants := 2 }],
    registrations :=
      [{ registration_id := 1, event_id := 1, player_id := some 1, team_id := none,
         status := "Confirmed", registration_date := 5 }],
    next_registration_id := 2 }

/-- Number of statements a request has behind it; a finished request counts 4. -/
def phaseRank : RegPhase → Nat
  | .start => 0
  | .eventRead _ => 1
  | .checked _ => 2
  | .inserted _ _ => 3
  | .finished _ => 4

/-- The two requests taking turns, four statements each. -/
def alternating : List Bool := [true, false, true, false, true, false, true, false]

/-! ## registerTeam on the body of the route without validator -/

/-- SQL `=` on two nullable integers inside a WHERE clause: the row is selected
only when both sides are non-NULL and equal; `x = NULL` selects nothing. -/
def sqlEq : Option Int → Option Int → Bool
  | some a, some b => decide (a = b)
  | _, _ => false

/-- `SELECT registration_id FROM registrations
     WHERE event_id = ? AND team_id = ? AND status != 'Cancelled'`
with the bound `team_id` an integer or NULL. -/
def existingTeamBody (s : Store) (event_id : Int) (team_id : Option Int) :
    List Registration :=
  s.registrations.filter (fun r =>
    r.event_id = event_id ∧ sqlEq r.team_id team_id = true ∧ r.status ≠ "Cancelled")

/-- Handler `registerTeam` on the body as `POST /api/registrations/team` delivers
it: the route mounts no validator, so `team_id` reaches the handler as an
integer id (`some t`) or as JSON `null` (`none`), and is bound as it is in the
duplicate query and in the INSERT.  Statements as in `registerPlayer`. -/
def registerTeamBody (fault : Nat → Bool) (now : Int) (s : Store)
    (event_id : Int) (team_id : Option Int) : Response Registration × Store :=
  if fault 0 then (serverError "Error registering team", s) else
  match selectEvent s event_id with
  | [] => ({ status := 404, success := false, message := "Event not found", data := none }, s)
  | event :: _ =>
    if !event.is_team_based then
      ({ status := 400, success := false,
         message := "This is not a team-based event. Please register as individual player.",
         data := none }, s)
    else if event.registration_deadline < now then
      ({ status := 400, success := false, message := "Registration deadline has passed",
         data := none }, s)
    else if fault 1 then (serverError "Error registering team", s)
    else if (existingTeamBody s event_id team_id).length > 0 then
      ({ status := 400, success := false,
         message := "Team already registered for this event", data := none }, s)
    else
      let status := admissionStatus event
      if fault 2 then (serverError "Error registering team", s) else
      let s1 := insertRegistration s now event_id none team_id status
      if fault 3 then (serverError "Error registering team", s1) else
      ({ status := 201, success := true,
         message := if status = "Confirmed" then "Team registered successfully"
                    else "Team added to waitlist",
         data := (selectRegistration s1 s.next_registration_id).head? }, s1)

end Tournament

namespace Tournament

/-! ## Lemmas on the match tables -/

theorem mem_selectMatch {s : Store} {id : Int} {m : Match} :
    m ∈ selectMatch s id ↔ m ∈ s.match_rows ∧ m.match_id = id := by
  simp [selectMatch]

theorem selectMatch_ne_nil {s : Store} {id : Int} :
    (selectMatch s id).length ≠ 0 ↔ ∃ m ∈ s.match_rows, m.match_id = id := by
  rw [Ne, List.length_eq_zero, List.eq_nil_iff_forall_not_mem]
  simp [mem_selectMatch]

/-- A score request that answers 200 ran every statement: the match exists and
the store afterwards is the store before with the four writes applied. -/
theorem updateMatchScore_ok {fault : Nat → Bool} {s : Store} {id p1 p2 : Int}
    {v1 v2 : JsValue} {t : Bool}
    (h : (updateMatchScore fault s id p1 v1 p2 v2 t).1.status = 200) :
    (∃ m ∈ s.match_rows, m.match_id = id) ∧
    (updateMatchScore fault s id p1 v1 p2 v2 t).2 =
      { s with
        match_participants :=
          updateParticipant t v2 (determineWinner p1 v1 p2 v2).2.2 id p2
            (updateParticipant t v1 (determineWinner p1 v1 p2 v2).2.1 id p1
              s.match_participants),
        match_rows := updateMatchRow "Completed" (determineWinner p1 v1 p2 v2).1 id s.match_rows,
        game_logs := s.game_logs ++
          [{ log_id := s.next_log_id, match_id := id, event_type := "Match Completed",
             description := finalScore v1 v2 }],
        next_log_id := s.next_log_id + 1 } := by
  unfold updateMatchScore at h ⊢
  by_cases h0 : fault 0 = true
  · simp [h0, serverError] at h
  by_cases hm : (selectMatch s id).length = 0
  · simp [h0, hm] at h
  by_cases h1 : fault 1 = true
  · simp [h0, hm, h1, serverError] at h
  by_cases h2 : fault 2 = true
  · simp [h0, hm, h1, h2, serverError] at h
  by_cases h3 : fault 3 = true
  · simp [h0, hm, h1, h2, h3, serverError] at h
  by_cases h4 : fault 4 = true
  · simp [h0, hm, h1, h2, h3, h4, serverError] at h
  by_cases h5 : fault 5 = true
  · simp [h0, hm, h1, h2, h3, h4, h5, serverError] at h
  refine ⟨selectMatch_ne_nil.mp hm, ?_⟩
  simp [h0, hm, h1, h2, h3, h4, h5]

/-- Without faults a score request on an existing match answers 200. -/
theorem updateMatchScore_noFault_status {s : Store} {id : Int} (p1 : Int) (v1 : JsValue)
    (p2 : Int) (v2 : JsValue) (t : Bool) (hm : ∃ m ∈ s.match_rows, m.match_id = id) :
    (updateMatchScore noFault s id p1 v1 p2 v2 t).1.status = 200 := by
  have hm2 := selectMatch_ne_nil.mpr hm
  unfold updateMatchScore
  simp [noFault, hm2]

/-- The answer and store of a score request for a match id that has no row. -/
theorem updateMatchScore_absent {fault : Nat → Bool} {s : Store} {id p1 p2 : Int}
    {v1 v2 : JsValue} {t : Bool}
    (hnone : ∀ m ∈ s.match_rows, m.match_id ≠ id) (h0 : fault 0 = false) :
    updateMatchScore fault s id p1 v1 p2 v2 t =
      ({ status := 404, success := false, message := "Match not found", data := none }, s) := by
  have hm : (selectMatch s id).length = 0 := by
    by_contra hne
    obtain ⟨m, hm, hid⟩ := selectMatch_ne_nil.mp hne
    exact hnone m hm hid
  unfold updateMatchScore
  simp [h0, hm]

theorem filter_updateParticipant (t : Bool) (v : JsValue) (res : String) (id pid k : Int)
    (rows : List MatchParticipant) :
    (updateParticipant t v res id pid rows).filter (fun r => r.match_id = k) =
      updateParticipant t v res id pid (rows.filter (fun r => r.match_id = k)) := by
  unfold updateParticipant
  rw [List.filter_map]
  congr 1
  apply List.filter_congr
  intro r _
  by_cases h : r.match_id = id ∧ participantKey t r = some pid <;> simp [setScore, h]

theorem determineWinner_num (p1 p2 a b : Int) :
    determineWinner p1 (.num a) p2 (.num b) =
      if b < a then (some p1, "Win", "Loss")
      else if a < b then (some p2, "Loss", "Win")
      else (none, "Draw", "Draw") := by
  simp [determineWinner, JsValue.gt, JsValue.toNumber]

theorem participantKey_scored (t : Bool) (r : MatchParticipant) (v : Option JsValue)
    (res : Option String) :
    participantKey t { r with score := v, result := res } = participantKey t r := rfl

theorem updateParticipant_pair (t : Bool) (id A B : Int) (vA vB : JsValue) (resA resB : String)
    (a b : MatchParticipant) (ha : participantKey t a = some A)
    (hb : participantKey t b = some B) (hAB : A ≠ B)
    (hai : a.match_id = id) (hbi : b.match_id = id) :
    updateParticipant t vB resB id B (updateParticipant t vA resA id A [a, b]) =
      [{ a with score := some vA, result := some resA },
       { b with score := some vB, result := some resB }] := by
  have hBA : ¬ B = A := fun h => hAB h.symm
  subst hai
  cases t <;> simp_all [updateParticipant, setScore, participantKey]

/-- After `UPDATE matches ... WHERE match_id = id`, the rows of that id carry the
new status and winner. -/
theorem updateMatchRow_hit (st : String) (w : Option Int) (id : Int) (rows : List Match)
    (m : Match) (hm : m ∈ updateMatchRow st w id rows) (hid : m.match_id = id) :
    m.match_status = st ∧ m.winner_id = w := by
  simp only [updateMatchRow, List.mem_map] at hm
  obtain ⟨m1, _, rfl⟩ := hm
  by_cases h1 : m1.match_id = id
  · simp [h1]
  · simp [h1] at hid

/-- The rows of other matches are the rows that were there before. -/
theorem updateMatchRow_miss (st : String) (w : Option Int) (id : Int) (rows : List Match)
    (m : Match) (hm : m ∈ updateMatchRow st w id rows) (hid : m.match_id ≠ id) :
    m ∈ rows := by
  simp only [updateMatchRow, List.mem_map] at hm
  obtain ⟨m1, hm1, rfl⟩ := hm
  by_cases h1 : m1.match_id = id
  · simp [h1] at hid
  · simpa [h1] using hm1

theorem updateMatchRow_exists (st : String) (w : Option Int) (id : Int) (rows : List Match)
    (h : ∃ m ∈ rows, m.match_id = id) :
    ∃ m ∈ updateMatchRow st w id rows, m.match_id = id := by
  obtain ⟨m0, hm0, hid⟩ := h
  refine ⟨_, List.mem_map.mpr ⟨m0, hm0, rfl⟩, ?_⟩
  simp [hid]

/-! ## Claims on `updateMatchScore` -/

/-- C1. When the match has exactly two participant rows, for distinct
participants A and B of the kind selected by `is_team`, a successful
`updateMatchScore(match, A, sA, B, sB)` with integer scores leaves A's row with
score sA and B's row with score sB; the results and the winner of the match are
(Win, Loss, A) when sA > sB, (Loss, Win, B) when sA < sB and (Draw, Draw, unset)
when sA = sB. -/
theorem updateMatchScore_outcome (fault : Nat → Bool) (s : Store) (id A B sA sB : Int)
    (is_team : Bool) (a b : MatchParticipant)
    (hrows : (s.match_participants.filter (fun r => r.match_id = id)).Perm [a, b])
    (ha : participantKey is_team a = some A) (hb : participantKey is_team b = some B)
    (hAB : A ≠ B)
    (hok : (updateMatchScore fault s id A (.num sA) B (.num sB) is_team).1.status = 200) :
    ∃ (resA resB : String) (win : Option Int),
      (((updateMatchScore fault s id A (.num sA) B (.num sB) is_team).2.match_participants.filter
          (fun r => r.match_id = id)).Perm
        [{ a with score := some (.num sA), result := some resA },
         { b with score := some (.num sB), result := some resB }]) ∧
      (∃ m ∈ (updateMatchScore fault s id A (.num sA) B (.num sB) is_team).2.match_rows,
        m.match_id = id) ∧
      (∀ m ∈ (updateMatchScore fault s id A (.num sA) B (.num sB) is_team).2.match_rows,
        m.match_id = id → m.winner_id = win) ∧
      (sB < sA → resA = "Win" ∧ resB = "Loss" ∧ win = some A) ∧
      (sA < sB → resA = "Loss" ∧ resB = "Win" ∧ win = some B) ∧
      (sA = sB → resA = "Draw" ∧ resB = "Draw" ∧ win = none) := by
  obtain ⟨⟨m0, hm0, hm0id⟩, hs⟩ := updateMatchScore_ok hok
  have hai : a.match_id = id := by
    have : a ∈ s.match_participants.filter (fun r => r.match_id = id) :=
      hrows.mem_iff.mpr (by simp)
    simpa using (List.mem_filter.mp this).2
  have hbi : b.match_id = id := by
    have : b ∈ s.match_participants.filter (fun r => r.match_id = id) :=
      hrows.mem_iff.mpr (by simp)
    simpa using (List.mem_filter.mp this).2
  refine ⟨(determineWinner A (.num sA) B (.num sB)).2.1,
    (determineWinner A (.num sA) B (.num sB)).2.2,
    (determineWinner A (.num sA) B (.num sB)).1, ?_, ?_, ?_, ?_, ?_, ?_⟩
  · rw [hs]
    simp only
    rw [filter_updateParticipant, filter_updateParticipant,
      ← updateParticipant_pair is_team id A B _ _ _ _ a b ha hb hAB hai hbi]
    unfold updateParticipant
    exact (hrows.map _).map _
  · rw [hs]
    exact updateMatchRow_exists _ _ _ _ ⟨m0, hm0, hm0id⟩
  · rw [hs]
    intro m hm hmid
    exact (updateMatchRow_hit _ _ _ _ m hm hmid).2
  · intro h
    simp [determineWinner_num, h]
  · intro h
    have h2 : ¬ sB < sA := by omega
    simp [determineWinner_num, h, h2]
  · intro h
    simp [determineWinner_num, h]

/-- C1 at match 1 between players 10 and 20, scored 3 to 1. -/
theorem updateMatchScore_outcome_witness :
    ∃ (resA resB : String) (win : Option Int),
      (((updateMatchScore noFault scheduledStore 1 10 (.num 3) 20 (.num 1) false).2.match_participants.filter
          (fun r => r.match_id = 1)).Perm
        [{ match_id := 1, player_id := some 10, team_id := none,
           score := some (.num 3), result := some resA },
         { match_id := 1, player_id := some 20, team_id := none,
           score := some (.num 1), result := some resB }]) ∧
      (∃ m ∈ (updateMatchScore noFault scheduledStore 1 10 (.num 3) 20 (.num 1) false).2.match_rows,
        m.match_id = 1) ∧
      (∀ m ∈ (updateMatchScore noFault scheduledStore 1 10 (.num 3) 20 (.num 1) false).2.match_rows,
        m.match_id = 1 → m.winner_id = win) ∧
      ((1 : Int) < 3 → resA = "Win" ∧ resB = "Loss" ∧ win = some 10) ∧
      ((3 : Int) < 1 → resA = "Loss" ∧ resB = "Win" ∧ win = some 20) ∧
      ((3 : Int) = 1 → resA = "Draw" ∧ resB = "Draw" ∧ win = none) :=
  updateMatchScore_outcome noFault scheduledStore 1 10 20 3 1 false
    { match_id := 1, player_id := some 10, team_id := none, score := none, result := none }
    { match_id := 1, player_id := some 20, team_id := none, score := none, result := none }
    (by decide) (by decide) (by decide) (by decide) (by decide)

/-- C6. `updateMatchScore` for a match id with no match row answers 404
"Match not found" and writes nothing: the store is unchanged. -/
theorem updateMatchScore_not_found (fault : Nat → Bool) (s : Store) (id p1 p2 : Int)
    (v1 v2 : JsValue) (is_team : Bool)
    (hnone : ∀ m ∈ s.match_rows, m.match_id ≠ id) (h0 : fault 0 = false) :
    updateMatchScore fault s id p1 v1 p2 v2 is_team =
      ({ status := 404, success := false, message := "Match not found", data := none }, s) :=
  updateMatchScore_absent hnone h0

/-- C6 at match id 7 of a store whose only match is match 1. -/
theorem updateMatchScore_not_found_witness :
    updateMatchScore noFault scheduledStore 7 10 (.num 3) 20 (.num 1) false =
      ({ status := 404, success := false, message := "Match not found", data := none },
       scheduledStore) :=
  updateMatchScore_not_found noFault scheduledStore 7 10 20 (.num 3) (.num 1) false
    (by decide) (by decide)

/-- C7. Every successful `updateMatchScore(match, A, sA, B, sB)` appends exactly
one `game_logs` row, for that match, with event type "Match Completed" and
description "Final Score: sA - sB"; the rows already in `game_logs` are kept as
they were. -/
theorem updateMatchScore_log (fault : Nat → Bool) (s : Store) (id p1 p2 : Int)
    (v1 v2 : JsValue) (is_team : Bool)
    (hok : (updateMatchScore fault s id p1 v1 p2 v2 is_team).1.status = 200) :
    (updateMatchScore fault s id p1 v1 p2 v2 is_team).2.game_logs =
      s.game_logs ++
        [{ log_id := s.next_log_id, match_id := id, event_type := "Match Completed",
           description := "Final Score: " ++ v1.render ++ " - " ++ v2.render }] := by
  rw [(updateMatchScore_ok hok).2]
  rfl

/-- C7 at match 1 scored 3 to 1: the log gains the row "Final Score: 3 - 1". -/
theorem updateMatchScore_log_witness :
    (updateMatchScore noFault scheduledStore 1 10 (.num 3) 20 (.num 1) false).2.game_logs =
      scheduledStore.game_logs ++
        [{ log_id := scheduledStore.next_log_id, match_id := 1, event_type := "Match Completed",
           description := "Final Score: " ++ (JsValue.num 3).render ++ " - " ++
             (JsValue.num 1).render }] :=
  updateMatchScore_log noFault scheduledStore 1 10 20 (.num 3) (.num 1) false (by decide)

theorem setScore_match_id (t : Bool) (v : JsValue) (res : String) (id pid : Int)
    (r : MatchParticipant) : (setScore t v res id pid r).match_id = r.match_id := by
  unfold setScore; split <;> rfl

theorem setScore_key (t t2 : Bool) (v : JsValue) (res : String) (id pid : Int)
    (r : MatchParticipant) :
    participantKey t2 (setScore t v res id pid r) = participantKey t2 r := by
  unfold setScore; split <;> rfl

theorem setScore_miss (t : Bool) (v : JsValue) (res : String) (id pid : Int)
    (r : MatchParticipant) (h : ¬ (r.match_id = id ∧ participantKey t r = some pid)) :
    setScore t v res id pid r = r := by
  simp [setScore, h]

theorem updateParticipant_get?_miss (t : Bool) (v : JsValue) (res : String) (id pid : Int)
    (rows : List MatchParticipant) (i : Nat) (r : MatchParticipant)
    (hr : rows.get? i = some r) (hmiss : ¬ (r.match_id = id ∧ participantKey t r = some pid)) :
    (updateParticipant t v res id pid rows).get? i = some r := by
  simp only [updateParticipant, List.get?_eq_getElem?, List.getElem?_map] at hr ⊢
  rw [hr]
  simp [setScore, hmiss]

/-- After `UPDATE match_participants ... WHERE match_id = id AND key = pid`, the
rows it addresses carry the new score and result. -/
theorem updateParticipant_hit (t : Bool) (v : JsValue) (res : String) (id pid : Int)
    (rows : List MatchParticipant) (r : MatchParticipant)
    (hr : r ∈ updateParticipant t v res id pid rows) (hid : r.match_id = id)
    (hkey : participantKey t r = some pid) :
    r.score = some v ∧ r.result = some res := by
  simp only [updateParticipant, List.mem_map] at hr
  obtain ⟨r0, _, rfl⟩ := hr
  by_cases h : r0.match_id = id ∧ participantKey t r0 = some pid
  · simp [setScore, h]
  · simp only [setScore, h, if_false] at hid hkey
    exact absurd ⟨hid, hkey⟩ h

/-- After the two `UPDATE match_participants` statements of one score request,
for two distinct ids, the rows of the first id carry the first score and
result: the second statement does not address them. -/
theorem updateParticipant_first_kept (t : Bool) (v1 v2 : JsValue) (res1 res2 : String)
    (id p1 p2 : Int) (rows : List MatchParticipant) (r : MatchParticipant)
    (hr : r ∈ updateParticipant t v2 res2 id p2 (updateParticipant t v1 res1 id p1 rows))
    (hid : r.match_id = id) (hkey : participantKey t r = some p1) (hne : p1 ≠ p2) :
    r.score = some v1 ∧ r.result = some res1 := by
  simp only [updateParticipant, List.mem_map] at hr
  obtain ⟨r1, ⟨r0, _, rfl⟩, rfl⟩ := hr
  rw [setScore_key, setScore_key] at hkey
  rw [setScore_match_id, setScore_match_id] at hid
  have hmiss : ¬ ((setScore t v1 res1 id p1 r0).match_id = id ∧
      participantKey t (setScore t v1 res1 id p1 r0) = some p2) := by
    rw [setScore_key, hkey]
    rintro ⟨_, h⟩
    injection h with h
    exact hne h
  rw [setScore_miss _ _ _ _ _ _ hmiss]
  simp [setScore, hid, hkey]

/-- C2 fails on the code: after match 1 was scored 3 to 1 (winner 10), a second
request with scores 0 to 5 is answered 200 and rewrites the match row (winner
20) and adds a second log row. -/
theorem updateMatchScore_replay_counterexample :
    (updateMatchScore noFault scheduledStore 1 10 (.num 3) 20 (.num 1) false).1.status = 200 ∧
    scoredStore.match_rows =
      [{ match_id := 1, event_id := 1, match_status := "Completed", winner_id := some 10 }] ∧
    (updateMatchScore noFault scoredStore 1 10 (.num 0) 20 (.num 5) false).1.status = 200 ∧
    (updateMatchScore noFault scoredStore 1 10 (.num 0) 20 (.num 5) false).2.match_rows =
      [{ match_id := 1, event_id := 1, match_status := "Completed", winner_id := some 20 }] ∧
    (updateMatchScore noFault scoredStore 1 10 (.num 0) 20 (.num 5) false).2.game_logs.length = 2 ∧
    (updateMatchScore noFault scoredStore 1 10 (.num 0) 20 (.num 5) false).2 ≠ scoredStore := by
  decide

/-- C2, amended. The handler has no AlreadyCompleted check: on an existing match
and without store faults, two score requests in a row are both answered 200;
the second is applied like the first, so afterwards the match is Completed with
the winner of the second request, the participant rows named by the second
request carry its scores and results (the rows of its second id the second
score, the rows of its first id the first score when the two ids differ), and
the log holds one more row, for the second score. -/
theorem updateMatchScore_replay (s : Store) (id p1 p2 q1 q2 : Int) (v1 v2 u1 u2 : JsValue)
    (t t2 : Bool) (hm : ∃ m ∈ s.match_rows, m.match_id = id) :
    (updateMatchScore noFault s id p1 v1 p2 v2 t).1.status = 200 ∧
    (updateMatchScore noFault (updateMatchScore noFault s id p1 v1 p2 v2 t).2
        id q1 u1 q2 u2 t2).1.status = 200 ∧
    (∀ m ∈ (updateMatchScore noFault (updateMatchScore noFault s id p1 v1 p2 v2 t).2
        id q1 u1 q2 u2 t2).2.match_rows,
      m.match_id = id →
        m.match_status = "Completed" ∧ m.winner_id = (determineWinner q1 u1 q2 u2).1) ∧
    (∀ r ∈ (updateMatchScore noFault (updateMatchScore noFault s id p1 v1 p2 v2 t).2
        id q1 u1 q2 u2 t2).2.match_participants,
      r.match_id = id → participantKey t2 r = some q1 → q1 ≠ q2 →
        r.score = some u1 ∧ r.result = some (determineWinner q1 u1 q2 u2).2.1) ∧
    (∀ r ∈ (updateMatchScore noFault (updateMatchScore noFault s id p1 v1 p2 v2 t).2
        id q1 u1 q2 u2 t2).2.match_participants,
      r.match_id = id → participantKey t2 r = some q2 →
        r.score = some u2 ∧ r.result = some (determineWinner q1 u1 q2 u2).2.2) ∧
    (updateMatchScore noFault (updateMatchScore noFault s id p1 v1 p2 v2 t).2
        id q1 u1 q2 u2 t2).2.game_logs =
      (updateMatchScore noFault s id p1 v1 p2 v2 t).2.game_logs ++
        [{ log_id := (updateMatchScore noFault s id p1 v1 p2 v2 t).2.next_log_id,
           match_id := id, event_type := "Match Completed",
           description := "Final Score: " ++ u1.render ++ " - " ++ u2.render }] := by
  have hok1 := updateMatchScore_noFault_status p1 v1 p2 v2 t hm
  obtain ⟨_, hs1⟩ := updateMatchScore_ok hok1
  have hm1 : ∃ m ∈ (updateMatchScore noFault s id p1 v1 p2 v2 t).2.match_rows,
      m.match_id = id := by
    rw [hs1]
    exact updateMatchRow_exists _ _ _ _ hm
  have hok2 := updateMatchScore_noFault_status q1 u1 q2 u2 t2 hm1
  obtain ⟨_, hs2⟩ := updateMatchScore_ok hok2
  refine ⟨hok1, hok2, ?_, ?_, ?_, ?_⟩
  · intro m hmem hid
    rw [hs2] at hmem
    exact updateMatchRow_hit _ _ _ _ m hmem hid
  · intro r hmem hid hkey hne
    rw [hs2] at hmem
    exact updateParticipant_first_kept _ _ _ _ _ _ _ _ _ r hmem hid hkey hne
  · intro r hmem hid hkey
    rw [hs2] at hmem
    exact updateParticipant_hit _ _ _ _ _ _ r hmem hid hkey
  · rw [hs2]
    rfl

/-- C2 amended, at match 1 scored 3 to 1 and then 0 to 5. -/
theorem updateMatchScore_replay_witness :
    (updateMatchScore noFault scheduledStore 1 10 (.num 3) 20 (.num 1) false).1.status = 200 ∧
    (updateMatchScore noFault
        (updateMatchScore noFault scheduledStore 1 10 (.num 3) 20 (.num 1) false).2
        1 10 (.num 0) 20 (.num 5) false).1.status = 200 ∧
    (∀ r ∈ (updateMatchScore noFault
        (updateMatchScore noFault scheduledStore 1 10 (.num 3) 20 (.num 1) false).2
        1 10 (.num 0) 20 (.num 5) false).2.match_participants,
      r.match_id = 1 → participantKey false r = some 10 →
        r.score = some (.num 0) ∧
        r.result = some (determineWinner 10 (.num 0) 20 (.num 5)).2.1) ∧
    (∀ r ∈ (updateMatchScore noFault
        (updateMatchScore noFault scheduledStore 1 10 (.num 3) 20 (.num 1) false).2
        1 10 (.num 0) 20 (.num 5) false).2.match_participants,
      r.match_id = 1 → participantKey false r = some 20 →
        r.score = some (.num 5) ∧
        r.result = some (determineWinner 10 (.num 0) 20 (.num 5)).2.2) :=
  ⟨(updateMatchScore_replay scheduledStore 1 10 20 10 20 (.num 3) (.num 1) (.num 0) (.num 5)
      false false (by decide)).1,
   (updateMatchScore_replay scheduledStore 1 10 20 10 20 (.num 3) (.num 1) (.num 0) (.num 5)
      false false (by decide)).2.1,
   fun r hr hid hkey =>
     (updateMatchScore_replay scheduledStore 1 10 20 10 20 (.num 3) (.num 1) (.num 0) (.num 5)
        false false (by decide)).2.2.2.1 r hr hid hkey (by decide),
   (updateMatchScore_replay scheduledStore 1 10 20 10 20 (.num 3) (.num 1) (.num 0) (.num 5)
      false false (by decide)).2.2.2.2.1⟩

/-- C3 fails on the code: match 1 is between players 10 and 20; a score request
naming players 99 and 98 is answered 200, marks the match Completed with winner
99 and writes a log row, while no participant row is touched. -/
theorem updateMatchScore_mismatch_counterexample :
    ¬ participantsMatch scheduledStore 1 99 98 false ∧
    (updateMatchScore noFault scheduledStore 1 99 (.num 3) 98 (.num 1) false).1.status = 200 ∧
    (updateMatchScore noFault scheduledStore 1 99 (.num 3) 98 (.num 1) false).2.match_rows =
      [{ match_id := 1, event_id := 1, match_status := "Completed", winner_id := some 99 }] ∧
    (updateMatchScore noFault scheduledStore 1 99 (.num 3) 98 (.num 1) false).2.game_logs =
      [{ log_id := 1, match_id := 1, event_type := "Match Completed",
         description := "Final Score: 3 - 1" }] ∧
    (updateMatchScore noFault scheduledStore 1 99 (.num 3) 98 (.num 1) false).2.match_participants =
      scheduledStore.match_participants := by
  decide

/-- C3, amended. The handler has no ParticipantMismatch check: on an existing
match and without store faults the request is answered 200 whatever the two ids
are.  No participant row is added or removed, and the rows that the ids do not
address are left as they were (so with two ids that are not recorded for the
match no participant row changes),
but the match row becomes Completed with the winner computed from the ids and
scores passed, and one log row is appended. -/
theorem updateMatchScore_mismatch (s : Store) (id p1 p2 : Int) (v1 v2 : JsValue)
    (is_team : Bool) (hm : ∃ m ∈ s.match_rows, m.match_id = id) :
    (updateMatchScore noFault s id p1 v1 p2 v2 is_team).1.status = 200 ∧
    (updateMatchScore noFault s id p1 v1 p2 v2 is_team).2.match_participants.length =
      s.match_participants.length ∧
    (∀ (i : Nat) (r : MatchParticipant), s.match_participants.get? i = some r →
      ¬ addressed id p1 p2 is_team r →
      (updateMatchScore noFault s id p1 v1 p2 v2 is_team).2.match_participants.get? i = some r) ∧
    (∃ m ∈ (updateMatchScore noFault s id p1 v1 p2 v2 is_team).2.match_rows, m.match_id = id) ∧
    (∀ m ∈ (updateMatchScore noFault s id p1 v1 p2 v2 is_team).2.match_rows, m.match_id = id →
      m.match_status = "Completed" ∧ m.winner_id = (determineWinner p1 v1 p2 v2).1) ∧
    (updateMatchScore noFault s id p1 v1 p2 v2 is_team).2.game_logs =
      s.game_logs ++
        [{ log_id := s.next_log_id, match_id := id, event_type := "Match Completed",
           description := "Final Score: " ++ v1.render ++ " - " ++ v2.render }] := by
  have hok := updateMatchScore_noFault_status p1 v1 p2 v2 is_team hm
  obtain ⟨_, hs⟩ := updateMatchScore_ok hok
  refine ⟨hok, ?_, ?_, ?_, ?_, ?_⟩
  · rw [hs]
    simp [updateParticipant]
  · intro i r hr hna
    rw [hs]
    apply updateParticipant_get?_miss
    · apply updateParticipant_get?_miss _ _ _ _ _ _ _ _ hr
      exact fun h => hna ⟨h.1, Or.inl h.2⟩
    · exact fun h => hna ⟨h.1, Or.inr h.2⟩
  · rw [hs]
    exact updateMatchRow_exists _ _ _ _ hm
  · intro m hmem hid
    rw [hs] at hmem
    exact updateMatchRow_hit _ _ _ _ m hmem hid
  · rw [hs]
    rfl

/-- C3 amended, at match 1 (players 10 and 20) with a request naming 99 and 98. -/
theorem updateMatchScore_mismatch_witness :
    (updateMatchScore noFault scheduledStore 1 99 (.num 3) 98 (.num 1) false).1.status = 200 :=
  (updateMatchScore_mismatch scheduledStore 1 99 98 (.num 3) (.num 1) false (by decide)).1

/-- C8 fails on the code: when the `UPDATE matches` statement throws, the request
is answered 500 and the store differs from the store before it: both
participant rows of match 1 already carry the new score and result, while the
match is still Scheduled. -/
theorem updateMatchScore_fault_counterexample :
    (updateMatchScore (faultAt 3) scheduledStore 1 10 (.num 3) 20 (.num 1) false).1.status = 500 ∧
    (updateMatchScore (faultAt 3) scheduledStore 1 10 (.num 3) 20 (.num 1) false).2.match_participants =
      [{ match_id := 1, player_id := some 10, team_id := none,
         score := some (.num 3), result := some "Win" },
       { match_id := 1, player_id := some 20, team_id := none,
         score := some (.num 1), result := some "Loss" }] ∧
    (updateMatchScore (faultAt 3) scheduledStore 1 10 (.num 3) 20 (.num 1) false).2.match_rows =
      [{ match_id := 1, event_id := 1, match_status := "Scheduled", winner_id := none }] ∧
    (updateMatchScore (faultAt 3) scheduledStore 1 10 (.num 3) 20 (.num 1) false).2 ≠
      scheduledStore := by
  decide

/-- C8, amended. The handler opens no transaction, so nothing is rolled back:
when the `UPDATE matches` statement throws after the two participant updates,
the request is answered 500, the `matches` and `game_logs` tables are as before
(the match keeps its status), and `match_participants` holds the result of the
two participant updates. -/
theorem updateMatchScore_fault (fault : Nat → Bool) (s : Store) (id p1 p2 : Int)
    (v1 v2 : JsValue) (is_team : Bool) (hm : ∃ m ∈ s.match_rows, m.match_id = id)
    (h0 : fault 0 = false) (h1 : fault 1 = false) (h2 : fault 2 = false)
    (h3 : fault 3 = true) :
    (updateMatchScore fault s id p1 v1 p2 v2 is_team).1 =
      serverError "Error updating match score" ∧
    (updateMatchScore fault s id p1 v1 p2 v2 is_team).2.match_rows = s.match_rows ∧
    (updateMatchScore fault s id p1 v1 p2 v2 is_team).2.game_logs = s.game_logs ∧
    (updateMatchScore fault s id p1 v1 p2 v2 is_team).2.match_participants =
      updateParticipant is_team v2 (determineWinner p1 v1 p2 v2).2.2 id p2
        (updateParticipant is_team v1 (determineWinner p1 v1 p2 v2).2.1 id p1
          s.match_participants) := by
  have hm2 := selectMatch_ne_nil.mpr hm
  unfold updateMatchScore
  simp [h0, h1, h2, h3, hm2]

/-- C8 amended, at match 1 with the third write failing. -/
theorem updateMatchScore_fault_witness :
    (updateMatchScore (faultAt 3) scheduledStore 1 10 (.num 3) 20 (.num 1) false).1 =
      serverError "Error updating match score" :=
  (updateMatchScore_fault (faultAt 3) scheduledStore 1 10 20 (.num 3) (.num 1) false
    (by decide) (by decide) (by decide) (by decide) (by decide)).1

/-! ## Invariants of the match tables -/

theorem setScore_player_id (t : Bool) (v : JsValue) (res : String) (id pid : Int)
    (r : MatchParticipant) : (setScore t v res id pid r).player_id = r.player_id := by
  unfold setScore; split <;> rfl

theorem setScore_team_id (t : Bool) (v : JsValue) (res : String) (id pid : Int)
    (r : MatchParticipant) : (setScore t v res id pid r).team_id = r.team_id := by
  unfold setScore; split <;> rfl

theorem setScore_hit (t : Bool) (v : JsValue) (res : String) (id pid : Int)
    (r : MatchParticipant) (h : r.match_id = id ∧ participantKey t r = some pid) :
    (setScore t v res id pid r).result = some res := by
  simp [setScore, h]

theorem setScore_result_some (t : Bool) (v : JsValue) (res : String) (id pid : Int)
    (r : MatchParticipant) (h : r.result ≠ none) :
    (setScore t v res id pid r).result ≠ none := by
  unfold setScore; split
  · simp
  · exact h

/-- The two participant updates of one score request, on one row. -/
theorem setScore_twice_addressed (t : Bool) (v1 v2 : JsValue) (res1 res2 : String)
    (id p1 p2 : Int) (r : MatchParticipant) (h : addressed id p1 p2 t r) :
    (setScore t v2 res2 id p2 (setScore t v1 res1 id p1 r)).result ≠ none := by
  obtain ⟨hid, hk | hk⟩ := h
  · apply setScore_result_some
    rw [setScore_hit _ _ _ _ _ _ ⟨hid, hk⟩]
    simp
  · rw [setScore_hit]
    · simp
    · rw [setScore_match_id, setScore_key]
      exact ⟨hid, hk⟩

theorem setScore_twice_other (t : Bool) (v1 v2 : JsValue) (res1 res2 : String)
    (id p1 p2 : Int) (r : MatchParticipant) (h : r.match_id ≠ id) :
    setScore t v2 res2 id p2 (setScore t v1 res1 id p1 r) = r := by
  rw [setScore_miss _ _ _ _ p1 r (fun hh => h hh.1)]
  exact setScore_miss _ _ _ _ _ _ (fun hh => h hh.1)

theorem updateMatchRow_match_id (st : String) (w : Option Int) (id : Int) (rows : List Match)
    (m : Match) (hm : m ∈ updateMatchRow st w id rows) :
    ∃ m0 ∈ rows, m0.match_id = m.match_id := by
  simp only [updateMatchRow, List.mem_map] at hm
  obtain ⟨m0, hm0, rfl⟩ := hm
  refine ⟨m0, hm0, ?_⟩
  split <;> rfl

/-- The store after a fault-free `scheduleMatch`. -/
theorem scheduleMatch_noFault (s : Store) (event_id p1 p2 : Int) (t : Bool) :
    (scheduleMatch noFault s event_id p1 p2 t).2 =
      { s with
        match_rows := s.match_rows ++
          [{ match_id := s.next_match_id, event_id := event_id, match_status := "Scheduled",
             winner_id := none }],
        next_match_id := s.next_match_id + 1,
        match_participants := s.match_participants ++
          [newParticipant t s.next_match_id p1, newParticipant t s.next_match_id p2] } := by
  simp [scheduleMatch, noFault]

theorem newParticipant_match_id (t : Bool) (k p : Int) : (newParticipant t k p).match_id = k := by
  unfold newParticipant; split <;> rfl

theorem newParticipant_result (t : Bool) (k p : Int) : (newParticipant t k p).result = none := by
  unfold newParticipant; split <;> rfl

/-- The store after a fault-free `updateMatchScore`: unchanged when the match is
absent, and with the four writes applied when it is present. -/
theorem updateMatchScore_noFault (s : Store) (id p1 p2 : Int) (v1 v2 : JsValue) (t : Bool) :
    ((∀ m ∈ s.match_rows, m.match_id ≠ id) ∧
      (updateMatchScore noFault s id p1 v1 p2 v2 t).2 = s) ∨
    ((∃ m ∈ s.match_rows, m.match_id = id) ∧
      (updateMatchScore noFault s id p1 v1 p2 v2 t).2 =
        { s with
          match_participants :=
            updateParticipant t v2 (determineWinner p1 v1 p2 v2).2.2 id p2
              (updateParticipant t v1 (determineWinner p1 v1 p2 v2).2.1 id p1
                s.match_participants),
          match_rows :=
            updateMatchRow "Completed" (determineWinner p1 v1 p2 v2).1 id s.match_rows,
          game_logs := s.game_logs ++
            [{ log_id := s.next_log_id, match_id := id, event_type := "Match Completed",
               description := finalScore v1 v2 }],
          next_log_id := s.next_log_id + 1 }) := by
  by_cases hm : ∃ m ∈ s.match_rows, m.match_id = id
  · right
    exact ⟨hm, (updateMatchScore_ok (updateMatchScore_noFault_status p1 v1 p2 v2 t hm)).2⟩
  · left
    have hnone : ∀ m ∈ s.match_rows, m.match_id ≠ id := fun m hmem hid => hm ⟨m, hmem, hid⟩
    refine ⟨hnone, ?_⟩
    rw [updateMatchScore_absent hnone rfl]

theorem matchInv_empty : MatchInv emptyStore := by
  simp [MatchInv, MatchIdsBelow, CompletedHasResults, ResultsImplyCompleted, emptyStore]

theorem matchInv_schedule (s : Store) (event_id p1 p2 : Int) (t : Bool) (h : MatchInv s) :
    MatchInv (scheduleMatch noFault s event_id p1 p2 t).2 := by
  rw [scheduleMatch_noFault]
  obtain ⟨⟨hb1, hb2⟩, hc, hr⟩ := h
  have hnew : ∀ r : MatchParticipant,
      r = newParticipant t s.next_match_id p1 ∨ r = newParticipant t s.next_match_id p2 →
        r.match_id = s.next_match_id ∧ r.result = none := by
    rintro r (rfl | rfl) <;> exact ⟨newParticipant_match_id _ _ _, newParticipant_result _ _ _⟩
  refine ⟨⟨?_, ?_⟩, ?_, ?_⟩
  · intro m hm
    simp only [List.mem_append, List.mem_singleton] at hm
    rcases hm with hm | rfl
    · have := hb1 m hm
      simp only
      omega
    · simp
  · intro r hr0
    simp only [List.mem_append, List.mem_cons, List.mem_singleton, List.not_mem_nil,
      or_false] at hr0
    rcases hr0 with hr0 | hr0
    · have := hb2 r hr0
      simp only
      omega
    · rw [(hnew r hr0).1]
      simp
  · intro m hm hst r hr0 hid
    simp only [List.mem_append, List.mem_cons, List.mem_singleton, List.not_mem_nil,
      or_false] at hm hr0
    rcases hm with hm | rfl
    · rcases hr0 with hr0 | hr0
      · exact hc m hm hst r hr0 hid
      · have h1 := hb1 m hm
        have h2 := (hnew r hr0).1
        omega
    · simp at hst
  · intro m hm r hr0 hid hres
    simp only [List.mem_append, List.mem_cons, List.mem_singleton, List.not_mem_nil,
      or_false] at hm hr0
    rcases hr0 with hr0 | hr0
    · rcases hm with hm | rfl
      · exact hr m hm r hr0 hid hres
      · have h2 := hb2 r hr0
        simp only at hid
        omega
    · exact absurd (hnew r hr0).2 hres

theorem matchInv_score (s : Store) (id p1 p2 : Int) (v1 v2 : JsValue) (t : Bool)
    (h : MatchInv s) (hpm : participantsMatch s id p1 p2 t) :
    MatchInv (updateMatchScore noFault s id p1 v1 p2 v2 t).2 := by
  rcases updateMatchScore_noFault s id p1 p2 v1 v2 t with ⟨_, hs⟩ | ⟨_, hs⟩
  · rw [hs]; exact h
  rw [hs]
  obtain ⟨⟨hb1, hb2⟩, hc, hr⟩ := h
  refine ⟨⟨?_, ?_⟩, ?_, ?_⟩
  · intro m hm
    obtain ⟨m0, hm0, hid⟩ := updateMatchRow_match_id _ _ _ _ m hm
    have := hb1 m0 hm0
    simp only
    omega
  · intro r hr0
    simp only [updateParticipant, List.mem_map] at hr0
    obtain ⟨r1, ⟨r0, hr0, rfl⟩, rfl⟩ := hr0
    have := hb2 r0 hr0
    simp only [setScore_match_id]
    omega
  · intro m hm hst r hr0 hid
    simp only [updateParticipant, List.mem_map] at hr0
    obtain ⟨r1, ⟨r0, hr0, rfl⟩, rfl⟩ := hr0
    simp only [setScore_match_id] at hid
    by_cases hmid : m.match_id = id
    · exact setScore_twice_addressed _ _ _ _ _ _ _ _ _
        ⟨hid.trans hmid, hpm.1 r0 hr0 (hid.trans hmid)⟩
    · have hrid : r0.match_id ≠ id := fun hh => hmid (hid ▸ hh)
      rw [setScore_twice_other _ _ _ _ _ _ _ _ _ hrid]
      exact hc m (updateMatchRow_miss _ _ _ _ m hm hmid) hst r0 hr0 hid
  · intro m hm r hr0 hid hres
    simp only [updateParticipant, List.mem_map] at hr0
    obtain ⟨r1, ⟨r0, hr0, rfl⟩, rfl⟩ := hr0
    simp only [setScore_match_id] at hid
    by_cases hmid : m.match_id = id
    · exact (updateMatchRow_hit _ _ _ _ m hm hmid).1
    · have hrid : r0.match_id ≠ id := fun hh => hmid (hid ▸ hh)
      rw [setScore_twice_other _ _ _ _ _ _ _ _ _ hrid] at hres
      exact hr m (updateMatchRow_miss _ _ _ _ m hm hmid) r0 hr0 hid hres

theorem matchInv_reachable (s : Store) (h : ReachableMatched s) : MatchInv s := by
  induction h with
  | init => exact matchInv_empty
  | schedule s event_id p1 p2 t _ ih => exact matchInv_schedule s event_id p1 p2 t ih
  | score s id p1 v1 p2 v2 t _ hpm ih => exact matchInv_score s id p1 p2 v1 v2 t ih hpm

theorem determineWinner_fst (p1 p2 : Int) (v1 v2 : JsValue) :
    (determineWinner p1 v1 p2 v2).1 = none ∨ (determineWinner p1 v1 p2 v2).1 = some p1 ∨
      (determineWinner p1 v1 p2 v2).1 = some p2 := by
  unfold determineWinner
  split
  · exact Or.inr (Or.inl rfl)
  · split
    · exact Or.inr (Or.inr rfl)
    · exact Or.inl rfl

/-- A row with a given key in the column selected by `is_team` holds that id as
its player or as its team. -/
theorem participantKey_identity (t : Bool) (r : MatchParticipant) (p : Int)
    (h : participantKey t r = some p) : r.player_id = some p ∨ r.team_id = some p := by
  cases t
  · exact Or.inl (by simpa [participantKey] using h)
  · exact Or.inr (by simpa [participantKey] using h)

/-- Each row of the table is still there, with its identity, after the two
participant updates. -/
theorem scored_row_kept (t : Bool) (v1 v2 : JsValue) (res1 res2 : String) (id p1 p2 : Int)
    (rows : List MatchParticipant) (r0 : MatchParticipant) (h : r0 ∈ rows) :
    ∃ r ∈ updateParticipant t v2 res2 id p2 (updateParticipant t v1 res1 id p1 rows),
      r.match_id = r0.match_id ∧ r.player_id = r0.player_id ∧ r.team_id = r0.team_id := by
  refine ⟨setScore t v2 res2 id p2 (setScore t v1 res1 id p1 r0), ?_, ?_, ?_, ?_⟩
  · exact List.mem_map.mpr ⟨_, List.mem_map.mpr ⟨r0, h, rfl⟩, rfl⟩
  · rw [setScore_match_id, setScore_match_id]
  · rw [setScore_player_id, setScore_player_id]
  · rw [setScore_team_id, setScore_team_id]

theorem winner_schedule (s : Store) (event_id p1 p2 : Int) (t : Bool)
    (h : WinnerIsParticipant s) :
    WinnerIsParticipant (scheduleMatch noFault s event_id p1 p2 t).2 := by
  rw [scheduleMatch_noFault]
  intro m hm
  simp only [List.mem_append, List.mem_singleton] at hm
  rcases hm with hm | rfl
  · rcases h m hm with hw | ⟨r, hr, hid, hw⟩
    · exact Or.inl hw
    · exact Or.inr ⟨r, List.mem_append_left _ hr, hid, hw⟩
  · exact Or.inl rfl

theorem winner_score (s : Store) (id p1 p2 : Int) (v1 v2 : JsValue) (t : Bool)
    (h : WinnerIsParticipant s) (hpm : participantsMatch s id p1 p2 t) :
    WinnerIsParticipant (updateMatchScore noFault s id p1 v1 p2 v2 t).2 := by
  rcases updateMatchScore_noFault s id p1 p2 v1 v2 t with ⟨_, hs⟩ | ⟨_, hs⟩
  · rw [hs]; exact h
  rw [hs]
  intro m hm
  by_cases hmid : m.match_id = id
  · have hw := (updateMatchRow_hit _ _ _ _ m hm hmid).2
    have hrow : ∀ p : Int, m.winner_id = some p →
        (∃ r ∈ s.match_participants, r.match_id = id ∧ participantKey t r = some p) →
        ∃ r ∈ updateParticipant t v2 (determineWinner p1 v1 p2 v2).2.2 id p2
            (updateParticipant t v1 (determineWinner p1 v1 p2 v2).2.1 id p1
              s.match_participants),
          r.match_id = m.match_id ∧ (r.player_id = m.winner_id ∨ r.team_id = m.winner_id) := by
      rintro p hp ⟨r0, hr0, hid0, hk0⟩
      obtain ⟨r, hr, h1, h2, h3⟩ := scored_row_kept t v1 v2 _ _ id p1 p2 _ r0 hr0
      refine ⟨r, hr, by rw [h1, hid0, hmid], ?_⟩
      rw [h2, h3, hp]
      exact participantKey_identity t r0 p hk0
    rcases determineWinner_fst p1 p2 v1 v2 with h0 | h0 | h0
    · exact Or.inl (hw.trans h0)
    · exact Or.inr (hrow p1 (hw.trans h0) hpm.2.1)
    · exact Or.inr (hrow p2 (hw.trans h0) hpm.2.2)
  · rcases h m (updateMatchRow_miss _ _ _ _ m hm hmid) with hw | ⟨r0, hr0, hid0, hw0⟩
    · exact Or.inl hw
    · obtain ⟨r, hr, h1, h2, h3⟩ := scored_row_kept t v1 v2 _ _ id p1 p2 _ r0 hr0
      exact Or.inr ⟨r, hr, by rw [h1, hid0], by rw [h2, h3]; exact hw0⟩

/-! ## Claims on the reachable match stores -/

/-- C4 fails on the code: schedule match 1 between players 10 and 20, then score
it with a request naming player 10 and a stranger, 99.  The store reached has
match 1 Completed while the row of player 20 has no result. -/
theorem completed_results_counterexample :
    Reachable halfScoredStore ∧
    halfScoredStore.match_rows =
      [{ match_id := 1, event_id := 1, match_status := "Completed", winner_id := some 10 }] ∧
    halfScoredStore.match_participants =
      [{ match_id := 1, player_id := some 10, team_id := none,
         score := some (.num 3), result := some "Win" },
       { match_id := 1, player_id := some 20, team_id := none,
         score := none, result := none }] ∧
    ¬ CompletedHasResults halfScoredStore :=
  ⟨Reachable.score _ 1 10 (.num 3) 99 (.num 1) false
      (Reachable.schedule _ 1 10 20 false Reachable.init),
    by decide, by decide, by decide⟩

/-- C4, amended. In every store reached from the empty database by fault-free
`scheduleMatch` requests and fault-free `updateMatchScore` requests whose two ids
are exactly the identities of the participant rows recorded for the match (the
handler does not check this), every participant row of a Completed match has a
result, and a match with a participant row that has a result is Completed. -/
theorem completed_results_invariant (s : Store) (h : ReachableMatched s) :
    CompletedHasResults s ∧ ResultsImplyCompleted s :=
  (matchInv_reachable s h).2

/-- C4 amended, at match 1 scored 3 to 1 for its recorded players 10 and 20. -/
theorem completed_results_invariant_witness :
    CompletedHasResults scoredStore ∧ ResultsImplyCompleted scoredStore :=
  completed_results_invariant scoredStore
    (ReachableMatched.score _ 1 10 (.num 3) 20 (.num 1) false
      (ReachableMatched.schedule _ 1 10 20 false ReachableMatched.init) (by decide))

/-- C5 fails on the code: schedule match 1 between players 10 and 20, then score
it with a request naming two strangers, 99 and 98.  The store reached has
`winner_id` 99 on match 1, which no participant row of the match holds. -/
theorem winner_participant_counterexample :
    Reachable strangerStore ∧
    strangerStore.match_rows =
      [{ match_id := 1, event_id := 1, match_status := "Completed", winner_id := some 99 }] ∧
    strangerStore.match_participants =
      [{ match_id := 1, player_id := some 10, team_id := none, score := none, result := none },
       { match_id := 1, player_id := some 20, team_id := none, score := none, result := none }] ∧
    ¬ WinnerIsParticipant strangerStore :=
  ⟨Reachable.score _ 1 99 (.num 3) 98 (.num 1) false
      (Reachable.schedule _ 1 10 20 false Reachable.init),
    by decide, by decide, by decide⟩

/-- C5, amended. In every store reached from the empty database by fault-free
`scheduleMatch` requests and fault-free `updateMatchScore` requests whose two ids
are exactly the identities of the participant rows recorded for the match (the
handler does not check this), the `winner_id` of a match is unset or is the
player or team held by one of the participant rows of that match. -/
theorem winner_participant_invariant (s : Store) (h : ReachableMatched s) :
    WinnerIsParticipant s := by
  induction h with
  | init => simp [WinnerIsParticipant, emptyStore]
  | schedule s event_id p1 p2 t _ ih => exact winner_schedule s event_id p1 p2 t ih
  | score s id p1 v1 p2 v2 t _ hpm ih => exact winner_score s id p1 p2 v1 v2 t ih hpm

/-- C5 amended, at match 1 scored 3 to 1 for its recorded players 10 and 20. -/
theorem winner_participant_invariant_witness : WinnerIsParticipant scoredStore :=
  winner_participant_invariant scoredStore
    (ReachableMatched.score _ 1 10 (.num 3) 20 (.num 1) false
      (ReachableMatched.schedule _ 1 10 20 false ReachableMatched.init) (by decide))

/-! ## Lemmas on the registration table -/

/-- The store after `registerPlayer`: unchanged, or with one row inserted whose
status is decided from the event row read by the handler. -/
theorem registerPlayer_store (fault : Nat → Bool) (now : Int) (s : Store) (e p : Int) :
    (registerPlayer fault now s e p).2 = s ∨
    ∃ event rest, selectEvent s e = event :: rest ∧
      (registerPlayer fault now s e p).2 =
        insertRegistration s now e (some p) none (admissionStatus event) := by
  unfold registerPlayer
  cases hsel : selectEvent s e with
  | nil => left; split <;> rfl
  | cons event rest =>
    simp only
    split_ifs
    all_goals first
      | (left; rfl)
      | (right; exact ⟨event, rest, rfl, rfl⟩)

theorem registerTeam_store (fault : Nat → Bool) (now : Int) (s : Store) (e p : Int) :
    (registerTeam fault now s e p).2 = s ∨
    ∃ event rest, selectEvent s e = event :: rest ∧
      (registerTeam fault now s e p).2 =
        insertRegistration s now e none (some p) (admissionStatus event) := by
  unfold registerTeam
  cases hsel : selectEvent s e with
  | nil => left; split <;> rfl
  | cons event rest =>
    simp only
    split_ifs
    all_goals first
      | (left; rfl)
      | (right; exact ⟨event, rest, rfl, rfl⟩)

theorem admissionStatus_confirmed (event : Event) :
    admissionStatus event = "Confirmed" ↔ event.current_participants < event.max_participants := by
  unfold admissionStatus
  split
  · constructor
    · intro h; exact absurd h (by decide)
    · intro h; omega
  · constructor
    · intro _; omega
    · intro _; rfl

theorem admissionStatus_eq (event : Event) :
    admissionStatus event =
      if event.current_participants < event.max_participants then "Confirmed"
      else "Waitlisted" := by
  unfold admissionStatus
  by_cases h : event.current_participants < event.max_participants
  · have h2 : ¬ event.current_participants ≥ event.max_participants := by omega
    simp [h, h2]
  · have h2 : event.current_participants ≥ event.max_participants := by omega
    simp [h, h2]

theorem mem_selectEvent {s : Store} {e : Int} {event : Event} {rest : List Event}
    (h : selectEvent s e = event :: rest) : event ∈ s.events ∧ event.event_id = e := by
  have hmem : event ∈ selectEvent s e := by rw [h]; exact List.mem_cons_self _ _
  simpa [selectEvent] using hmem

theorem mem_selectRegistration {s : Store} {id : Int} {reg : Registration}
    {rest : List Registration} (h : selectRegistration s id = reg :: rest) :
    reg ∈ s.registrations ∧ reg.registration_id = id := by
  have hmem : reg ∈ selectRegistration s id := by rw [h]; exact List.mem_cons_self _ _
  simpa [selectRegistration] using hmem

theorem confirmedCount_insert (s : Store) (now e : Int) (pl tm : Option Int) (st : String)
    (e2 : Int) :
    confirmedCount (insertRegistration s now e pl tm st) e2 =
      confirmedCount s e2 + (if e = e2 ∧ st = "Confirmed" then 1 else 0) := by
  unfold confirmedCount insertRegistration
  simp only [List.filter_append, List.length_append]
  congr 1
  by_cases h : e = e2 ∧ st = "Confirmed"
  · simp [List.filter_cons, h]
  · simp [List.filter_cons, h]

theorem setRegistrationStatus_ids (st : String) (id : Int) (rows : List Registration) :
    (setRegistrationStatus st id rows).map (fun r => r.registration_id) =
      rows.map (fun r => r.registration_id) := by
  unfold setRegistrationStatus
  rw [List.map_map]
  apply List.map_congr_left
  intro r _
  simp only [Function.comp]
  split <;> rfl

theorem setRegistrationStatus_absent (st : String) (id : Int) (rows : List Registration)
    (h : ∀ x ∈ rows, x.registration_id ≠ id) : setRegistrationStatus st id rows = rows := by
  unfold setRegistrationStatus
  conv_rhs => rw [← List.map_id rows]
  apply List.map_congr_left
  intro r hr
  simp [h r hr]

theorem setRegistrationStatus_cons (st : String) (id : Int) (a : Registration)
    (rows : List Registration) :
    setRegistrationStatus st id (a :: rows) =
      (if a.registration_id = id then { a with status := st } else a) ::
        setRegistrationStatus st id rows := rfl

/-- Counting the rows that satisfy `p` before and after an `UPDATE ... SET status`
addressed to the row `t`, when registration ids are unique. -/
theorem filter_length_setStatus (p : Registration → Bool) (st : String)
    (rows : List Registration) (t : Registration) (ht : t ∈ rows)
    (hnd : (rows.map (fun r => r.registration_id)).Nodup) :
    ((setRegistrationStatus st t.registration_id rows).filter p).length +
        (if p t then 1 else 0) =
      (rows.filter p).length + (if p { t with status := st } then 1 else 0) := by
  induction rows with
  | nil => simp at ht
  | cons a rows ih =>
    rw [List.map_cons, List.nodup_cons] at hnd
    obtain ⟨hnot, hnd2⟩ := hnd
    rw [setRegistrationStatus_cons]
    rcases List.mem_cons.mp ht with rfl | ht2
    · have habs : ∀ x ∈ rows, x.registration_id ≠ t.registration_id := by
        intro x hx heq
        exact hnot (List.mem_map.mpr ⟨x, hx, heq⟩)
      rw [setRegistrationStatus_absent st t.registration_id rows habs, if_pos rfl,
        List.filter_cons, List.filter_cons]
      by_cases hp : p t = true <;>
        by_cases hq : p { t with status := st } = true <;>
        simp [hp, hq]
    · have hne : a.registration_id ≠ t.registration_id := by
        intro heq
        exact hnot (List.mem_map.mpr ⟨t, ht2, heq.symm⟩)
      have ih2 := ih ht2 hnd2
      rw [if_neg hne, List.filter_cons, List.filter_cons]
      by_cases hp : p a = true
      · simp only [hp, if_true, List.length_cons]
        omega
      · simpa [hp] using ih2

theorem selectOldestWaitlisted_mem (tie : List Registration → Nat) (rows : List Registration)
    (e : Int) (w : Registration) (h : selectOldestWaitlisted tie rows e = some w) :
    w ∈ rows ∧ w.event_id = e ∧ w.status = "Waitlisted" := by
  unfold selectOldestWaitlisted at h
  have hmem := List.get?_mem h
  have hmem2 := (List.mem_filter.mp hmem).1
  simpa using List.mem_filter.mp hmem2

/-- The store after `cancelRegistration`: unchanged; or the target, which was
not Cancelled, is cancelled; or the target is cancelled and the waitlisted row
returned by the select is confirmed. -/
theorem cancelRegistration_store (fault : Nat → Bool) (tie : List Registration → Nat)
    (s : Store) (id : Int) :
    (cancelRegistration fault tie s id).2 = s ∨
    ∃ reg rest, selectRegistration s id = reg :: rest ∧ reg.status ≠ "Cancelled" ∧
      ((cancelRegistration fault tie s id).2 =
          { s with registrations := setRegistrationStatus "Cancelled" id s.registrations } ∨
       ∃ w, selectOldestWaitlisted tie (setRegistrationStatus "Cancelled" id s.registrations)
              reg.event_id = some w ∧
          (cancelRegistration fault tie s id).2 =
            { s with
              registrations :=
                setRegistrationStatus "Confirmed" w.registration_id
                  (setRegistrationStatus "Cancelled" id s.registrations) }) := by
  unfold cancelRegistration
  cases hsel : selectRegistration s id with
  | nil => left; split <;> rfl
  | cons reg rest =>
    simp only
    by_cases h0 : fault 0 = true
    · left; simp [h0]
    by_cases hc : reg.status = "Cancelled"
    · left; simp [h0, hc]
    by_cases h1 : fault 1 = true
    · left; simp [h0, hc, h1]
    right
    refine ⟨reg, rest, rfl, hc, ?_⟩
    by_cases h2 : fault 2 = true
    · left; simp [h0, hc, h1, h2]
    cases hw : selectOldestWaitlisted tie
        (setRegistrationStatus "Cancelled" id s.registrations) reg.event_id with
    | none => left; simp [h0, hc, h1, h2, hw]
    | some w =>
      by_cases h3 : fault 3 = true
      · left; simp [h0, hc, h1, h2, hw, h3]
      · right; exact ⟨w, rfl, by simp [h0, hc, h1, h2, hw, h3]⟩

/-- The lemma `filter_length_setStatus` for the count of Confirmed registrations
of an event. -/
theorem confirmedCount_setStatus (s : Store) (st : String) (t : Registration)
    (ht : t ∈ s.registrations)
    (hnd : (s.registrations.map (fun r => r.registration_id)).Nodup) (e : Int) :
    confirmedCount
        { s with registrations := setRegistrationStatus st t.registration_id s.registrations } e +
        (if t.event_id = e ∧ t.status = "Confirmed" then 1 else 0) =
      confirmedCount s e + (if t.event_id = e ∧ st = "Confirmed" then 1 else 0) := by
  have h := filter_length_setStatus
    (fun r => decide (r.event_id = e ∧ r.status = "Confirmed")) st s.registrations t ht hnd
  simp only [decide_eq_true_eq] at h
  exact h

theorem keysUnique_setStatus (s : Store) (st : String) (id : Int) (hk : KeysUnique s) :
    KeysUnique { s with registrations := setRegistrationStatus st id s.registrations } := by
  obtain ⟨h1, h2, h3⟩ := hk
  refine ⟨h1, ?_, ?_⟩
  · simp only [setRegistrationStatus_ids]
    exact h2
  · intro r hr
    have hmem : r.registration_id ∈
        (setRegistrationStatus st id s.registrations).map (fun r => r.registration_id) :=
      List.mem_map.mpr ⟨r, hr, rfl⟩
    rw [setRegistrationStatus_ids] at hmem
    obtain ⟨r0, hr0, heq⟩ := List.mem_map.mp hmem
    have := h3 r0 hr0
    simp only at heq ⊢
    omega

theorem insert_preserves (s : Store) (now e : Int) (pl tm : Option Int) (event : Event)
    (rest : List Event) (hsel : selectEvent s e = event :: rest) (hk : KeysUnique s)
    (hc : CapacityOk s)
    (hadm : ∀ ev ∈ s.events, ev.event_id = e → confirmedCount s e ≤ ev.current_participants) :
    KeysUnique (insertRegistration s now e pl tm (admissionStatus event)) ∧
    CapacityOk (insertRegistration s now e pl tm (admissionStatus event)) := by
  obtain ⟨h1, h2, h3⟩ := hk
  obtain ⟨hmem, hid⟩ := mem_selectEvent hsel
  refine ⟨⟨h1, ?_, ?_⟩, ?_⟩
  · simp only [insertRegistration, List.map_append, List.map_cons, List.map_nil]
    rw [List.nodup_append]
    refine ⟨h2, List.nodup_singleton _, ?_⟩
    intro x hx hx2
    obtain ⟨r, hr, rfl⟩ := List.mem_map.mp hx
    have := h3 r hr
    simp only [List.mem_singleton] at hx2
    omega
  · intro r hr
    simp only [insertRegistration, List.mem_append, List.mem_singleton] at hr ⊢
    rcases hr with hr | rfl
    · have := h3 r hr
      omega
    · simp
  · intro ev hev
    rw [confirmedCount_insert]
    by_cases h : e = ev.event_id ∧ admissionStatus event = "Confirmed"
    · have heq : ev = event := h1 ev hev event hmem (by rw [hid]; exact h.1.symm)
      subst heq
      have hlt := (admissionStatus_confirmed ev).mp h.2
      have hle := hadm ev hev hid
      rw [hid] at *
      simp only [h.2, and_self, if_true]
      omega
    · rw [if_neg h]
      exact hc ev hev

theorem cancel_preserves (fault : Nat → Bool) (tie : List Registration → Nat) (s : Store)
    (id : Int) (hk : KeysUnique s) (hc : CapacityOk s)
    (hadm : ∀ r ∈ s.registrations, r.registration_id = id →
      r.status = "Confirmed" ∨ r.status = "Cancelled") :
    KeysUnique (cancelRegistration fault tie s id).2 ∧
    CapacityOk (cancelRegistration fault tie s id).2 := by
  rcases cancelRegistration_store fault tie s id with
    hs | ⟨reg, rest, hsel, hnc, hs | ⟨w, hw, hs⟩⟩
  · rw [hs]; exact ⟨hk, hc⟩
  · obtain ⟨hreg, hrid⟩ := mem_selectRegistration hsel
    rw [hs]
    refine ⟨keysUnique_setStatus s _ id hk, ?_⟩
    intro ev hev
    have h := confirmedCount_setStatus s "Cancelled" reg hreg hk.2.1 ev.event_id
    rw [hrid] at h
    have hcap := hc ev hev
    simp only [show ¬ ("Cancelled" = "Confirmed") by decide, and_false, if_false] at h
    simp only at hev ⊢
    omega
  · obtain ⟨hreg, hrid⟩ := mem_selectRegistration hsel
    have hst : reg.status = "Confirmed" := by
      rcases hadm reg hreg hrid with h | h
      · exact h
      · exact absurd h hnc
    obtain ⟨hwmem, hwev, hwst⟩ := selectOldestWaitlisted_mem tie _ _ w hw
    have hk1 := keysUnique_setStatus s "Cancelled" id hk
    rw [hs]
    refine ⟨keysUnique_setStatus _ _ w.registration_id hk1, ?_⟩
    intro ev hev
    have h1 := confirmedCount_setStatus s "Cancelled" reg hreg hk.2.1 ev.event_id
    rw [hrid] at h1
    have h2 := confirmedCount_setStatus
      { s with registrations := setRegistrationStatus "Cancelled" id s.registrations }
      "Confirmed" w hwmem hk1.2.1 ev.event_id
    have hcap := hc ev hev
    simp only [show ¬ ("Cancelled" = "Confirmed") by decide, and_false, if_false, hst,
      and_true] at h1
    simp only [hwst, show ¬ ("Waitlisted" = "Confirmed") by decide, and_false, if_false,
      and_true, hwev] at h2
    simp only at hev h2 ⊢
    omega

theorem step_preserves (s : Store) (c : RegCall) (hk : KeysUnique s) (hc : CapacityOk s)
    (ha : c.admissible s) : KeysUnique (c.run s) ∧ CapacityOk (c.run s) := by
  cases c with
  | player fault now e p =>
    rcases registerPlayer_store fault now s e p with hs | ⟨event, rest, hsel, hs⟩
    · simp only [RegCall.run, hs]; exact ⟨hk, hc⟩
    · simp only [RegCall.run, hs]
      exact insert_preserves s now e _ _ event rest hsel hk hc ha
  | team fault now e p =>
    rcases registerTeam_store fault now s e p with hs | ⟨event, rest, hsel, hs⟩
    · simp only [RegCall.run, hs]; exact ⟨hk, hc⟩
    · simp only [RegCall.run, hs]
      exact insert_preserves s now e _ _ event rest hsel hk hc ha
  | cancel fault tie id => exact cancel_preserves fault tie s id hk hc ha

/-! ## Claims on the register handlers -/

/-- C10 fails on the code: event 1 has capacity 2 and already two Confirmed
registrations, so the number of Confirmed registrations is not below the
capacity; its stored counter `current_participants` is 0, and the third player
is inserted as Confirmed. -/
theorem register_status_counterexample :
    confirmedCount twoConfirmedStore 1 = 2 ∧
    twoConfirmedStore.events =
      [{ event_id := 1, is_team_based := false, registration_deadline := 100,
         current_participants := 0, max_participants := 2 }] ∧
    (registerPlayer noFault 5 twoConfirmedStore 1 3).1.status = 201 ∧
    (registerPlayer noFault 5 twoConfirmedStore 1 3).2.registrations =
      twoConfirmedStore.registrations ++
        [{ registration_id := 3, event_id := 1, player_id := some 3, team_id := none,
           status := "Confirmed", registration_date := 5 }] := by
  decide

/-- C10, amended. A register request that passes the existence, kind, deadline
and duplicate checks (and meets no store fault) is answered 201 and inserts
exactly one registration row, for the given event and participant; its status is
Confirmed if the `current_participants` column of the event row is less than
`max_participants`, and Waitlisted otherwise.  The handlers read that stored
counter; they do not count the Confirmed registrations. -/
theorem register_status (now : Int) (s : Store) (event_id pid : Int) (event : Event)
    (rest : List Event) (hev : selectEvent s event_id = event :: rest)
    (hdl : ¬ event.registration_deadline < now) :
    (event.is_team_based = false → existingPlayer s event_id pid = [] →
      (registerPlayer noFault now s event_id pid).1.status = 201 ∧
      (registerPlayer noFault now s event_id pid).2.registrations =
        s.registrations ++
          [{ registration_id := s.next_registration_id, event_id := event_id,
             player_id := some pid, team_id := none,
             status := if event.current_participants < event.max_participants
                       then "Confirmed" else "Waitlisted",
             registration_date := now }]) ∧
    (event.is_team_based = true → existingTeam s event_id pid = [] →
      (registerTeam noFault now s event_id pid).1.status = 201 ∧
      (registerTeam noFault now s event_id pid).2.registrations =
        s.registrations ++
          [{ registration_id := s.next_registration_id, event_id := event_id,
             player_id := none, team_id := some pid,
             status := if event.current_participants < event.max_participants
                       then "Confirmed" else "Waitlisted",
             registration_date := now }]) := by
  constructor
  · intro hkind hdup
    unfold registerPlayer
    simp [hev, hkind, hdl, hdup, noFault, insertRegistration, admissionStatus_eq]
  · intro hkind hdup
    unfold registerTeam
    simp [hev, hkind, hdl, hdup, noFault, insertRegistration, admissionStatus_eq]

/-- C10 amended, at event 1 (counter 2 of capacity 2, no registration stored):
player 7 is inserted as Waitlisted; and at team event 2 (counter 1 of capacity
4): team 9 is inserted as Confirmed. -/
theorem register_status_witness :
    ((registerPlayer noFault 5 countedEventStore 1 7).1.status = 201 ∧
      (registerPlayer noFault 5 countedEventStore 1 7).2.registrations =
        [{ registration_id := 1, event_id := 1, player_id := some 7, team_id := none,
           status := "Waitlisted", registration_date := 5 }]) ∧
    ((registerTeam noFault 5 teamEventStore 2 9).1.status = 201 ∧
      (registerTeam noFault 5 teamEventStore 2 9).2.registrations =
        [{ registration_id := 1, event_id := 2, player_id := none, team_id := some 9,
           status := "Confirmed", registration_date := 5 }]) :=
  ⟨(register_status 5 countedEventStore 1 7
      { event_id := 1, is_team_based := false, registration_deadline := 100,
        current_participants := 2, max_participants := 2 } [] (by decide) (by decide)).1
      (by decide) (by decide),
   (register_status 5 teamEventStore 2 9
      { event_id := 2, is_team_based := true, registration_deadline := 100,
        current_participants := 1, max_participants := 4 } [] (by decide) (by decide)).2
      (by decide) (by decide)⟩

/-! ## Claim on the capacity of events -/

/-- C9 fails on the code: event 1 has capacity 2, stored counter 0 and no
registration, so the capacity property holds; after players 1, 2 and 3 register
in turn all three registrations are Confirmed. -/
theorem capacity_counterexample :
    CapacityOk openEventStore ∧
    (runCalls openEventStore
        [.player noFault 5 1 1, .player noFault 5 1 2, .player noFault 5 1 3]).events =
      [{ event_id := 1, is_team_based := false, registration_deadline := 100,
         current_participants := 0, max_participants := 2 }] ∧
    confirmedCount
      (runCalls openEventStore
        [.player noFault 5 1 1, .player noFault 5 1 2, .player noFault 5 1 3]) 1 = 3 ∧
    ¬ CapacityOk
      (runCalls openEventStore
        [.player noFault 5 1 1, .player noFault 5 1 2, .player noFault 5 1 3]) := by
  decide

/-- C9, amended. Start from a store with unique keys in which every event has at
most `max_participants` Confirmed registrations, and run any finite sequence of
`registerPlayer`, `registerTeam` and `cancelRegistration` requests (with or
without store faults) such that every register request finds the stored
`current_participants` of its event not below the event's number of Confirmed
registrations, and every cancel request targets a registration that is Confirmed
(or already Cancelled, or absent).  Then every event still has at most
`max_participants` Confirmed registrations. -/
theorem capacity_invariant (s : Store) (calls : List RegCall) (hk : KeysUnique s)
    (hc : CapacityOk s) (ha : admissibleRun s calls) : CapacityOk (runCalls s calls) := by
  induction calls generalizing s with
  | nil => exact hc
  | cons c cs ih =>
    obtain ⟨hac, hacs⟩ := ha
    obtain ⟨hk2, hc2⟩ := step_preserves s c hk hc hac
    exact ih (c.run s) hk2 hc2 hacs

/-- C9 amended, at event 1 (capacity 3, stored counter 2): players 1 and 2
register, then registration 1 is cancelled. -/
theorem capacity_invariant_witness :
    CapacityOk
      (runCalls seededEventStore
        [.player noFault 5 1 1, .player noFault 6 1 2, .cancel noFault firstTie 1]) :=
  capacity_invariant seededEventStore
    [.player noFault 5 1 1, .player noFault 6 1 2, .cancel noFault firstTie 1]
    (by decide) (by decide) ⟨by decide, by decide, by decide, trivial⟩

/-! ## The checks of the register handlers -/

/-- A deadline rejection of `registerPlayer` comes from an event row whose
deadline is before the time of the request. -/
theorem registerPlayer_deadline_message (fault : Nat → Bool) (now : Int) (s : Store)
    (e p : Int)
    (h : (registerPlayer fault now s e p).1.message = "Registration deadline has passed") :
    ∃ event rest, selectEvent s e = event :: rest ∧ event.registration_deadline < now := by
  unfold registerPlayer at h
  cases hsel : selectEvent s e with
  | nil =>
    rw [hsel] at h
    split at h <;> simp [serverError] at h
  | cons event rest =>
    rw [hsel] at h
    refine ⟨event, rest, rfl, ?_⟩
    by_contra hdl
    simp only [hdl, if_false] at h
    split_ifs at h <;> simp [serverError] at h

theorem registerTeam_deadline_message (fault : Nat → Bool) (now : Int) (s : Store)
    (e p : Int)
    (h : (registerTeam fault now s e p).1.message = "Registration deadline has passed") :
    ∃ event rest, selectEvent s e = event :: rest ∧ event.registration_deadline < now := by
  unfold registerTeam at h
  cases hsel : selectEvent s e with
  | nil =>
    rw [hsel] at h
    split at h <;> simp [serverError] at h
  | cons event rest =>
    rw [hsel] at h
    refine ⟨event, rest, rfl, ?_⟩
    by_contra hdl
    simp only [hdl, if_false] at h
    split_ifs at h <;> simp [serverError] at h

/-- After the deadline `registerPlayer` answers 400 and writes nothing, whatever
the kind of the event. -/
theorem registerPlayer_late (fault : Nat → Bool) (now : Int) (s : Store) (e p : Int)
    (event : Event) (rest : List Event) (hev : selectEvent s e = event :: rest)
    (h0 : fault 0 = false) (hdl : event.registration_deadline < now) :
    (registerPlayer fault now s e p).1.status = 400 ∧ (registerPlayer fault now s e p).2 = s := by
  unfold registerPlayer
  cases hk : event.is_team_based <;> simp [hev, h0, hk, hdl]

theorem registerTeam_late (fault : Nat → Bool) (now : Int) (s : Store) (e p : Int)
    (event : Event) (rest : List Event) (hev : selectEvent s e = event :: rest)
    (h0 : fault 0 = false) (hdl : event.registration_deadline < now) :
    (registerTeam fault now s e p).1.status = 400 ∧ (registerTeam fault now s e p).2 = s := by
  unfold registerTeam
  cases hk : event.is_team_based <;> simp [hev, h0, hk, hdl]

theorem registerPlayer_wrong_kind (fault : Nat → Bool) (now : Int) (s : Store) (e p : Int)
    (event : Event) (rest : List Event) (hev : selectEvent s e = event :: rest)
    (h0 : fault 0 = false) (hk : event.is_team_based = true) :
    registerPlayer fault now s e p = (playerWrongKind, s) := by
  unfold registerPlayer
  simp [hev, h0, hk, playerWrongKind]

theorem registerTeam_wrong_kind (fault : Nat → Bool) (now : Int) (s : Store) (e p : Int)
    (event : Event) (rest : List Event) (hev : selectEvent s e = event :: rest)
    (h0 : fault 0 = false) (hk : event.is_team_based = false) :
    registerTeam fault now s e p = (teamWrongKind, s) := by
  unfold registerTeam
  simp [hev, h0, hk, teamWrongKind]

theorem registerPlayer_deadline (fault : Nat → Bool) (now : Int) (s : Store) (e p : Int)
    (event : Event) (rest : List Event) (hev : selectEvent s e = event :: rest)
    (h0 : fault 0 = false) (hk : event.is_team_based = false)
    (hdl : event.registration_deadline < now) :
    registerPlayer fault now s e p = (deadlinePassed, s) := by
  unfold registerPlayer
  simp [hev, h0, hk, hdl, deadlinePassed]

theorem registerTeam_deadline (fault : Nat → Bool) (now : Int) (s : Store) (e p : Int)
    (event : Event) (rest : List Event) (hev : selectEvent s e = event :: rest)
    (h0 : fault 0 = false) (hk : event.is_team_based = true)
    (hdl : event.registration_deadline < now) :
    registerTeam fault now s e p = (deadlinePassed, s) := by
  unfold registerTeam
  simp [hev, h0, hk, hdl, deadlinePassed]

/-- On an event for players `registerPlayer` never answers with the wrong-kind
rejection. -/
theorem registerPlayer_kind_ok (fault : Nat → Bool) (now : Int) (s : Store) (e p : Int)
    (event : Event) (rest : List Event) (hev : selectEvent s e = event :: rest)
    (hk : event.is_team_based = false) :
    (registerPlayer fault now s e p).1 ≠ playerWrongKind := by
  unfold registerPlayer
  simp only [hev, hk]
  split_ifs <;> simp_all [playerWrongKind, serverError]

theorem registerTeam_kind_ok (fault : Nat → Bool) (now : Int) (s : Store) (e p : Int)
    (event : Event) (rest : List Event) (hev : selectEvent s e = event :: rest)
    (hk : event.is_team_based = true) :
    (registerTeam fault now s e p).1 ≠ teamWrongKind := by
  unfold registerTeam
  simp only [hev, hk]
  split_ifs <;> simp_all [teamWrongKind, serverError]

/-! ## Claims on the deadline and kind checks -/

/-- C11 fails on the code: event 1 exists, is for players and has deadline 100;
`registerTeam` at time 200, after the deadline, is rejected with the wrong-kind
message, not with "Registration deadline has passed". -/
theorem register_deadline_counterexample :
    selectEvent openEventStore 1 =
      [{ event_id := 1, is_team_based := false, registration_deadline := 100,
         current_participants := 0, max_participants := 2 }] ∧
    (registerTeam noFault 200 openEventStore 1 9).1 = teamWrongKind ∧
    (registerTeam noFault 200 openEventStore 1 9).1.message ≠
      "Registration deadline has passed" := by
  decide

/-- C11, amended. For every existing event and every time `now` of the request:
when `now` is strictly after `registration_deadline` and the kind of the event
is the kind of the handler called (the kind check comes first), the request is
rejected with "Registration deadline has passed"; whenever `now` is after the
deadline no registration row is created, whatever the kind; when `now` is at or
before the deadline the request is never rejected for the deadline. -/
theorem register_deadline (fault : Nat → Bool) (now : Int) (s : Store) (e p : Int)
    (event : Event) (rest : List Event) (hev : selectEvent s e = event :: rest)
    (h0 : fault 0 = false) :
    (event.registration_deadline < now →
      (event.is_team_based = false → registerPlayer fault now s e p = (deadlinePassed, s)) ∧
      (event.is_team_based = true → registerTeam fault now s e p = (deadlinePassed, s)) ∧
      (registerPlayer fault now s e p).2 = s ∧ (registerTeam fault now s e p).2 = s) ∧
    (¬ event.registration_deadline < now →
      (registerPlayer fault now s e p).1.message ≠ "Registration deadline has passed" ∧
      (registerTeam fault now s e p).1.message ≠ "Registration deadline has passed") := by
  constructor
  · intro hdl
    exact ⟨fun hk => registerPlayer_deadline fault now s e p event rest hev h0 hk hdl,
      fun hk => registerTeam_deadline fault now s e p event rest hev h0 hk hdl,
      (registerPlayer_late fault now s e p event rest hev h0 hdl).2,
      (registerTeam_late fault now s e p event rest hev h0 hdl).2⟩
  · intro hdl
    constructor
    · intro hmsg
      obtain ⟨ev2, rest2, hsel, hlt⟩ := registerPlayer_deadline_message fault now s e p hmsg
      rw [hev] at hsel
      injection hsel with h1 _
      exact hdl (h1 ▸ hlt)
    · intro hmsg
      obtain ⟨ev2, rest2, hsel, hlt⟩ := registerTeam_deadline_message fault now s e p hmsg
      rw [hev] at hsel
      injection hsel with h1 _
      exact hdl (h1 ▸ hlt)

/-- C11 amended, at event 1 (for players, deadline 100): player 7 at time 200 is
rejected for the deadline and the store is unchanged. -/
theorem register_deadline_witness :
    registerPlayer noFault 200 openEventStore 1 7 = (deadlinePassed, openEventStore) :=
  ((register_deadline noFault 200 openEventStore 1 7
      { event_id := 1, is_team_based := false, registration_deadline := 100,
        current_participants := 0, max_participants := 2 } [] (by decide) (by decide)).1
    (by decide)).1 (by decide)

/-- C12 fails on the code: event 2 is team-based with deadline 100;
`registerPlayer` at time 200 fails with the wrong-kind reason, not with the
deadline-passed reason. -/
theorem register_order_counterexample :
    selectEvent teamEventStore 2 =
      [{ event_id := 2, is_team_based := true, registration_deadline := 100,
         current_participants := 1, max_participants := 4 }] ∧
    (registerPlayer noFault 200 teamEventStore 2 9).1 = playerWrongKind ∧
    (registerPlayer noFault 200 teamEventStore 2 9).1 ≠ deadlinePassed := by
  decide

/-- C12, amended. The handlers apply the participant kind check first, then the
deadline check (then the duplicate and capacity decisions): on an event whose
`is_team_based` flag does not match the handler the request fails with the
wrong-kind reason whatever `now` is, so also when the deadline has passed; the
deadline-passed reason is given when the kind matches and the deadline has
passed. -/
theorem register_order (fault : Nat → Bool) (now : Int) (s : Store) (e p : Int)
    (event : Event) (rest : List Event) (hev : selectEvent s e = event :: rest)
    (h0 : fault 0 = false) :
    (event.is_team_based = true → registerPlayer fault now s e p = (playerWrongKind, s)) ∧
    (event.is_team_based = false → registerTeam fault now s e p = (teamWrongKind, s)) ∧
    (event.is_team_based = false → event.registration_deadline < now →
      registerPlayer fault now s e p = (deadlinePassed, s)) ∧
    (event.is_team_based = true → event.registration_deadline < now →
      registerTeam fault now s e p = (deadlinePassed, s)) :=
  ⟨registerPlayer_wrong_kind fault now s e p event rest hev h0,
   registerTeam_wrong_kind fault now s e p event rest hev h0,
   registerPlayer_deadline fault now s e p event rest hev h0,
   registerTeam_deadline fault now s e p event rest hev h0⟩

/-- C12 amended, at team event 2 (deadline 100) and a player request at time 200. -/
theorem register_order_witness :
    registerPlayer noFault 200 teamEventStore 2 9 = (playerWrongKind, teamEventStore) :=
  (register_order noFault 200 teamEventStore 2 9
      { event_id := 2, is_team_based := true, registration_deadline := 100,
        current_participants := 1, max_participants := 4 } [] (by decide) (by decide)).1
    (by decide)

/-- C13. For every existing event, `registerPlayer` is rejected for the wrong
participant kind if and only if the event is team-based, and `registerTeam` if
and only if it is not; a wrong-kind rejection leaves the store as it was, so it
creates no registration row. -/
theorem register_kind (fault : Nat → Bool) (now : Int) (s : Store) (e p : Int)
    (event : Event) (rest : List Event) (hev : selectEvent s e = event :: rest)
    (h0 : fault 0 = false) :
    ((registerPlayer fault now s e p).1 = playerWrongKind ↔ event.is_team_based = true) ∧
    ((registerTeam fault now s e p).1 = teamWrongKind ↔ event.is_team_based = false) ∧
    ((registerPlayer fault now s e p).1 = playerWrongKind →
      (registerPlayer fault now s e p).2 = s) ∧
    ((registerTeam fault now s e p).1 = teamWrongKind →
      (registerTeam fault now s e p).2 = s) := by
  have hp : (registerPlayer fault now s e p).1 = playerWrongKind ↔
      event.is_team_based = true := by
    constructor
    · intro h
      by_contra hk
      exact registerPlayer_kind_ok fault now s e p event rest hev (by simpa using hk) h
    · intro hk
      rw [registerPlayer_wrong_kind fault now s e p event rest hev h0 hk]
  have ht : (registerTeam fault now s e p).1 = teamWrongKind ↔
      event.is_team_based = false := by
    constructor
    · intro h
      by_contra hk
      exact registerTeam_kind_ok fault now s e p event rest hev (by simpa using hk) h
    · intro hk
      rw [registerTeam_wrong_kind fault now s e p event rest hev h0 hk]
  refine ⟨hp, ht, ?_, ?_⟩
  · intro h
    rw [registerPlayer_wrong_kind fault now s e p event rest hev h0 (hp.mp h)]
  · intro h
    rw [registerTeam_wrong_kind fault now s e p event rest hev h0 (ht.mp h)]

/-- C13 at team event 2: a player request is rejected for the wrong kind. -/
theorem register_kind_witness :
    (registerPlayer noFault 5 teamEventStore 2 9).1 = playerWrongKind :=
  (register_kind noFault 5 teamEventStore 2 9
      { event_id := 2, is_team_based := true, registration_deadline := 100,
        current_participants := 1, max_participants := 4 } [] (by decide) (by decide)).1.mpr rfl

/-! ## The duplicate check and the failing requests -/

theorem existingPlayer_pos (s : Store) (e p : Int) :
    (existingPlayer s e p).length > 0 ↔
      ∃ r ∈ s.registrations, r.event_id = e ∧ r.player_id = some p ∧ r.status ≠ "Cancelled" := by
  show 0 < (existingPlayer s e p).length ↔ _
  rw [List.length_pos, Ne, List.eq_nil_iff_forall_not_mem]
  simp [existingPlayer]

theorem existingTeam_pos (s : Store) (e p : Int) :
    (existingTeam s e p).length > 0 ↔
      ∃ r ∈ s.registrations, r.event_id = e ∧ r.team_id = some p ∧ r.status ≠ "Cancelled" := by
  show 0 < (existingTeam s e p).length ↔ _
  rw [List.length_pos, Ne, List.eq_nil_iff_forall_not_mem]
  simp [existingTeam]

/-- A request answered 404 or 400 wrote nothing. -/
theorem registerPlayer_rejected_store (fault : Nat → Bool) (now : Int) (s : Store) (e p : Int)
    (h : (registerPlayer fault now s e p).1.status = 404 ∨
      (registerPlayer fault now s e p).1.status = 400) :
    (registerPlayer fault now s e p).2 = s := by
  unfold registerPlayer at h ⊢
  cases hsel : selectEvent s e with
  | nil => split <;> rfl
  | cons event rest =>
    rw [hsel] at h
    simp only at h ⊢
    split_ifs at h ⊢
    all_goals first
      | rfl
      | (simp [serverError] at h)

theorem registerTeam_rejected_store (fault : Nat → Bool) (now : Int) (s : Store) (e p : Int)
    (h : (registerTeam fault now s e p).1.status = 404 ∨
      (registerTeam fault now s e p).1.status = 400) :
    (registerTeam fault now s e p).2 = s := by
  unfold registerTeam at h ⊢
  cases hsel : selectEvent s e with
  | nil => split <;> rfl
  | cons event rest =>
    rw [hsel] at h
    simp only at h ⊢
    split_ifs at h ⊢
    all_goals first
      | rfl
      | (simp [serverError] at h)

/-- With a registration of the player that is not Cancelled the store is left
as it was: the request cannot get past the duplicate check. -/
theorem registerPlayer_dup_store (fault : Nat → Bool) (now : Int) (s : Store) (e p : Int)
    (hdup : (existingPlayer s e p).length > 0) :
    (registerPlayer fault now s e p).2 = s := by
  unfold registerPlayer
  cases hsel : selectEvent s e with
  | nil => split <;> rfl
  | cons event rest =>
    simp only [hdup, if_true]
    split_ifs <;> rfl

theorem registerTeam_dup_store (fault : Nat → Bool) (now : Int) (s : Store) (e p : Int)
    (hdup : (existingTeam s e p).length > 0) :
    (registerTeam fault now s e p).2 = s := by
  unfold registerTeam
  cases hsel : selectEvent s e with
  | nil => split <;> rfl
  | cons event rest =>
    simp only [hdup, if_true]
    split_ifs <;> rfl

/-- A duplicate rejection comes from a registration of the player that is not
Cancelled. -/
theorem registerPlayer_dup_message (fault : Nat → Bool) (now : Int) (s : Store) (e p : Int)
    (h : (registerPlayer fault now s e p).1.message =
      "Player already registered for this event") :
    (existingPlayer s e p).length > 0 := by
  unfold registerPlayer at h
  cases hsel : selectEvent s e with
  | nil =>
    rw [hsel] at h
    split at h <;> simp [serverError] at h
  | cons event rest =>
    rw [hsel] at h
    by_contra hdup
    simp only [hdup, if_false] at h
    split_ifs at h <;> simp [serverError] at h

theorem registerTeam_dup_message (fault : Nat → Bool) (now : Int) (s : Store) (e p : Int)
    (h : (registerTeam fault now s e p).1.message =
      "Team already registered for this event") :
    (existingTeam s e p).length > 0 := by
  unfold registerTeam at h
  cases hsel : selectEvent s e with
  | nil =>
    rw [hsel] at h
    split at h <;> simp [serverError] at h
  | cons event rest =>
    rw [hsel] at h
    by_contra hdup
    simp only [hdup, if_false] at h
    split_ifs at h <;> simp [serverError] at h

theorem selectEvent_nil (s : Store) (e : Int) (h : ∀ ev ∈ s.events, ev.event_id ≠ e) :
    selectEvent s e = [] := by
  rw [List.eq_nil_iff_forall_not_mem]
  intro ev hev
  simp only [selectEvent, List.mem_filter, decide_eq_true_eq] at hev
  exact h ev hev.1 hev.2

theorem registerPlayer_duplicate (fault : Nat → Bool) (now : Int) (s : Store) (e p : Int)
    (event : Event) (rest : List Event) (hev : selectEvent s e = event :: rest)
    (h0 : fault 0 = false) (h1 : fault 1 = false) (hk : event.is_team_based = false)
    (hdl : ¬ event.registration_deadline < now) (hdup : (existingPlayer s e p).length > 0) :
    registerPlayer fault now s e p = (playerDuplicate, s) := by
  unfold registerPlayer
  simp [hev, h0, h1, hk, hdl, hdup, playerDuplicate]

theorem registerTeam_duplicate (fault : Nat → Bool) (now : Int) (s : Store) (e p : Int)
    (event : Event) (rest : List Event) (hev : selectEvent s e = event :: rest)
    (h0 : fault 0 = false) (h1 : fault 1 = false) (hk : event.is_team_based = true)
    (hdl : ¬ event.registration_deadline < now) (hdup : (existingTeam s e p).length > 0) :
    registerTeam fault now s e p = (teamDuplicate, s) := by
  unfold registerTeam
  simp [hev, h0, h1, hk, hdl, hdup, teamDuplicate]

/-! ## Claims on the duplicate check and on failing requests -/

/-- C14 fails on the code: player 1 holds a Confirmed registration for event 1
(deadline 100); a second request of player 1 at time 200 fails with the
deadline reason, not with the duplicate reason. -/
theorem register_duplicate_counterexample :
    existingPlayer oneConfirmedStore 1 1 =
      [{ registration_id := 1, event_id := 1, player_id := some 1, team_id := none,
         status := "Confirmed", registration_date := 5 }] ∧
    (registerPlayer noFault 200 oneConfirmedStore 1 1).1 = deadlinePassed ∧
    (registerPlayer noFault 200 oneConfirmedStore 1 1).1 ≠ playerDuplicate := by
  decide

/-- C14, amended. The duplicate check comes after the existence, kind and
deadline checks.  For a request that passes those three: if a registration with
status other than Cancelled exists for the same event and participant, the
request fails with the duplicate reason.  For every request: if such a
registration exists nothing is inserted (the store is unchanged), and if the
only registrations of the pair are Cancelled the request is not rejected as a
duplicate. -/
theorem register_duplicate (fault : Nat → Bool) (now : Int) (s : Store) (e p : Int) :
    (∀ (event : Event) (rest : List Event), selectEvent s e = event :: rest →
      fault 0 = false → fault 1 = false → ¬ event.registration_deadline < now →
      (event.is_team_based = false →
        (∃ r ∈ s.registrations,
          r.event_id = e ∧ r.player_id = some p ∧ r.status ≠ "Cancelled") →
        registerPlayer fault now s e p = (playerDuplicate, s)) ∧
      (event.is_team_based = true →
        (∃ r ∈ s.registrations,
          r.event_id = e ∧ r.team_id = some p ∧ r.status ≠ "Cancelled") →
        registerTeam fault now s e p = (teamDuplicate, s))) ∧
    ((∃ r ∈ s.registrations, r.event_id = e ∧ r.player_id = some p ∧ r.status ≠ "Cancelled") →
      (registerPlayer fault now s e p).2 = s) ∧
    ((∃ r ∈ s.registrations, r.event_id = e ∧ r.team_id = some p ∧ r.status ≠ "Cancelled") →
      (registerTeam fault now s e p).2 = s) ∧
    ((∀ r ∈ s.registrations, r.event_id = e → r.player_id = some p → r.status = "Cancelled") →
      (registerPlayer fault now s e p).1.message ≠
        "Player already registered for this event") ∧
    ((∀ r ∈ s.registrations, r.event_id = e → r.team_id = some p → r.status = "Cancelled") →
      (registerTeam fault now s e p).1.message ≠
        "Team already registered for this event") := by
  refine ⟨?_, ?_, ?_, ?_, ?_⟩
  · intro event rest hev h0 h1 hdl
    exact ⟨fun hk hdup => registerPlayer_duplicate fault now s e p event rest hev h0 h1 hk hdl
        ((existingPlayer_pos s e p).mpr hdup),
      fun hk hdup => registerTeam_duplicate fault now s e p event rest hev h0 h1 hk hdl
        ((existingTeam_pos s e p).mpr hdup)⟩
  · intro hdup
    exact registerPlayer_dup_store fault now s e p ((existingPlayer_pos s e p).mpr hdup)
  · intro hdup
    exact registerTeam_dup_store fault now s e p ((existingTeam_pos s e p).mpr hdup)
  · intro hall hmsg
    obtain ⟨r, hr, he, hp, hst⟩ :=
      (existingPlayer_pos s e p).mp (registerPlayer_dup_message fault now s e p hmsg)
    exact hst (hall r hr he hp)
  · intro hall hmsg
    obtain ⟨r, hr, he, hp, hst⟩ :=
      (existingTeam_pos s e p).mp (registerTeam_dup_message fault now s e p hmsg)
    exact hst (hall r hr he hp)

/-- C14 amended, at event 1 where player 1 is Confirmed: a second request of
player 1 at time 6, before the deadline, is rejected as a duplicate. -/
theorem register_duplicate_witness :
    registerPlayer noFault 6 oneConfirmedStore 1 1 = (playerDuplicate, oneConfirmedStore) :=
  ((register_duplicate noFault 6 oneConfirmedStore 1 1).1
      { event_id := 1, is_team_based := false, registration_deadline := 100,
        current_participants := 0, max_participants := 2 } []
      (by decide) (by decide) (by decide) (by decide)).1 (by decide) (by decide)

/-- C16. A register request for an event id that has no event row is answered
404 "Event not found"; and every request that is rejected (answered 404 or 400:
event not found, wrong kind, deadline passed, duplicate) leaves the store, so
the registrations table, exactly as it was. -/
theorem register_failure (fault : Nat → Bool) (now : Int) (s : Store) (e p : Int) :
    ((∀ ev ∈ s.events, ev.event_id ≠ e) → fault 0 = false →
      registerPlayer fault now s e p = (eventNotFound, s) ∧
      registerTeam fault now s e p = (eventNotFound, s)) ∧
    ((registerPlayer fault now s e p).1.status = 404 ∨
        (registerPlayer fault now s e p).1.status = 400 →
      (registerPlayer fault now s e p).2 = s) ∧
    ((registerTeam fault now s e p).1.status = 404 ∨
        (registerTeam fault now s e p).1.status = 400 →
      (registerTeam fault now s e p).2 = s) := by
  refine ⟨?_, registerPlayer_rejected_store fault now s e p,
    registerTeam_rejected_store fault now s e p⟩
  intro hnone h0
  have hsel := selectEvent_nil s e hnone
  constructor
  · unfold registerPlayer
    simp [hsel, h0, eventNotFound]
  · unfold registerTeam
    simp [hsel, h0, eventNotFound]

/-- C16 at event id 5 of a store whose only event is event 1, and at the
deadline rejection of player 7 at time 200. -/
theorem register_failure_witness :
    (registerPlayer noFault 5 openEventStore 5 7 = (eventNotFound, openEventStore) ∧
      registerTeam noFault 5 openEventStore 5 7 = (eventNotFound, openEventStore)) ∧
    (registerPlayer noFault 200 openEventStore 1 7).2 = openEventStore :=
  ⟨(register_failure noFault 5 openEventStore 5 7).1 (by decide) (by decide),
   (register_failure noFault 200 openEventStore 1 7).2.1 (by decide)⟩

/-- C17. `cancelRegistration` answers 404 "Registration not found" when no
registration has the given id and 400 "Registration already cancelled" when the
registration of that id is Cancelled; in both cases the store is unchanged, so
no registration row is changed and no waitlisted registration is promoted. -/
theorem cancel_rejected (fault : Nat → Bool) (tie : List Registration → Nat) (s : Store)
    (id : Int) (h0 : fault 0 = false) :
    ((∀ r ∈ s.registrations, r.registration_id ≠ id) →
      cancelRegistration fault tie s id = (registrationNotFound, s)) ∧
    ((∃ r ∈ s.registrations, r.registration_id = id) →
      (∀ r ∈ s.registrations, r.registration_id = id → r.status = "Cancelled") →
      cancelRegistration fault tie s id = (alreadyCancelled, s)) := by
  constructor
  · intro hnone
    have hsel : selectRegistration s id = [] := by
      rw [List.eq_nil_iff_forall_not_mem]
      intro r hr
      simp only [selectRegistration, List.mem_filter, decide_eq_true_eq] at hr
      exact hnone r hr.1 hr.2
    unfold cancelRegistration
    simp [hsel, h0, registrationNotFound]
  · intro hex hall
    cases hsel : selectRegistration s id with
    | nil =>
      obtain ⟨r, hr, hid⟩ := hex
      have hmem : r ∈ selectRegistration s id := by
        simp only [selectRegistration, List.mem_filter, decide_eq_true_eq]
        exact ⟨hr, hid⟩
      rw [hsel] at hmem
      simp at hmem
    | cons reg rest =>
      obtain ⟨hreg, hrid⟩ := mem_selectRegistration hsel
      have hst := hall reg hreg hrid
      unfold cancelRegistration
      simp [hsel, h0, hst, alreadyCancelled]

/-- C17 at the store where registration 1 is Cancelled: cancelling id 9 is
answered 404 and cancelling id 1 again is answered 400. -/
theorem cancel_rejected_witness :
    cancelRegistration noFault firstTie cancelledStore 9 =
      (registrationNotFound, cancelledStore) ∧
    cancelRegistration noFault firstTie cancelledStore 1 = (alreadyCancelled, cancelledStore) :=
  ⟨(cancel_rejected noFault firstTie cancelledStore 9 (by decide)).1 (by decide),
   (cancel_rejected noFault firstTie cancelledStore 1 (by decide)).2 (by decide) (by decide)⟩

/-! ## The rows changed by a cancellation -/

/-- The select of the oldest waitlisted registration returns a waitlisted row of
the event whose creation instant is least among the waitlisted rows of the
event. -/
theorem selectOldestWaitlisted_least (tie : List Registration → Nat)
    (rows : List Registration) (e : Int) (w : Registration)
    (h : selectOldestWaitlisted tie rows e = some w) :
    ∀ x ∈ rows, x.event_id = e → x.status = "Waitlisted" →
      w.registration_date ≤ x.registration_date := by
  unfold selectOldestWaitlisted at h
  have hmem := List.get?_mem h
  have hall := (List.mem_filter.mp hmem).2
  intro x hx hxe hxs
  rw [List.all_eq_true] at hall
  have := hall x (List.mem_filter.mpr ⟨hx, by simp [hxe, hxs]⟩)
  simpa using this

/-- The select returns a row whenever the event has a waitlisted registration. -/
theorem selectOldestWaitlisted_some (tie : List Registration → Nat)
    (rows : List Registration) (e : Int)
    (h : ∃ x ∈ rows, x.event_id = e ∧ x.status = "Waitlisted") :
    ∃ w, selectOldestWaitlisted tie rows e = some w := by
  obtain ⟨x, hx, hxe, hxs⟩ := h
  have hxw : x ∈ rows.filter (fun r => r.event_id = e ∧ r.status = "Waitlisted") :=
    List.mem_filter.mpr ⟨hx, by simp [hxe, hxs]⟩
  have hne : (rows.filter (fun r => r.event_id = e ∧ r.status = "Waitlisted")).toFinset.Nonempty :=
    ⟨x, List.mem_toFinset.mpr hxw⟩
  obtain ⟨m, hm, hmin⟩ := Finset.exists_min_image _ (fun r => r.registration_date) hne
  have hmt : m ∈ (rows.filter (fun r => r.event_id = e ∧ r.status = "Waitlisted")).filter
      (fun r => (rows.filter (fun r => r.event_id = e ∧ r.status = "Waitlisted")).all
        (fun x => r.registration_date ≤ x.registration_date)) := by
    refine List.mem_filter.mpr ⟨List.mem_toFinset.mp hm, ?_⟩
    rw [List.all_eq_true]
    intro y hy
    simpa using hmin y (List.mem_toFinset.mpr hy)
  have hpos := List.length_pos_of_mem hmt
  unfold selectOldestWaitlisted
  simp only
  have hlt := Nat.mod_lt (tie ((rows.filter
    (fun r => r.event_id = e ∧ r.status = "Waitlisted")).filter
      (fun r => (rows.filter (fun r => r.event_id = e ∧ r.status = "Waitlisted")).all
        (fun x => r.registration_date ≤ x.registration_date)))) hpos
  exact ⟨_, List.get?_eq_get hlt⟩

theorem setStatus_cancel_rows (id : Int) (rows : List Registration) :
    setRegistrationStatus "Cancelled" id rows = rows.map (cancelRow id none) := by
  unfold setRegistrationStatus
  apply List.map_congr_left
  intro r _
  simp [cancelRow]

/-- With unique registration ids: a waitlisted row found after the cancellation
was there before it, is not the target, and confirming it changes that row
only. -/
theorem setStatus_promote_rows (id : Int) (rows : List Registration) (w : Registration)
    (hnd : (rows.map (fun r => r.registration_id)).Nodup)
    (hw : w ∈ setRegistrationStatus "Cancelled" id rows) (hws : w.status = "Waitlisted") :
    w ∈ rows ∧ w.registration_id ≠ id ∧
    setRegistrationStatus "Confirmed" w.registration_id
        (setRegistrationStatus "Cancelled" id rows) =
      rows.map (cancelRow id (some w)) := by
  have hw0 : w ∈ rows ∧ w.registration_id ≠ id := by
    simp only [setRegistrationStatus, List.mem_map] at hw
    obtain ⟨r0, hr0, hf⟩ := hw
    by_cases hid : r0.registration_id = id
    · rw [if_pos hid] at hf
      rw [← hf] at hws
      simp at hws
    · rw [if_neg hid] at hf
      subst hf
      exact ⟨hr0, hid⟩
  refine ⟨hw0.1, hw0.2, ?_⟩
  unfold setRegistrationStatus
  rw [List.map_map]
  apply List.map_congr_left
  intro r hr
  simp only [Function.comp, cancelRow]
  by_cases hid : r.registration_id = id
  · have hne : ¬ id = w.registration_id := fun h => hw0.2 h.symm
    simp [hid, hne]
  · have hiff : r.registration_id = w.registration_id ↔ some w = some r := by
      constructor
      · intro h
        rw [List.inj_on_of_nodup_map hnd hr hw0.1 h]
      · intro h
        injection h with h
        rw [h]
    simp only [if_neg hid]
    by_cases hrw : r.registration_id = w.registration_id
    · rw [if_pos hrw, if_pos (hiff.mp hrw)]
    · have hn : ¬ some w = some r := fun h => hrw (hiff.mpr h)
      rw [if_neg hrw, if_neg hn]

/-- A cancellation answered 200 found its target, which was not Cancelled, ran
the cancel and either found no waitlisted row or confirmed the one found. -/
theorem cancelRegistration_ok (fault : Nat → Bool) (tie : List Registration → Nat)
    (s : Store) (id : Int) (hok : (cancelRegistration fault tie s id).1.status = 200) :
    ∃ reg rest, selectRegistration s id = reg :: rest ∧ reg.status ≠ "Cancelled" ∧
      ((selectOldestWaitlisted tie (setRegistrationStatus "Cancelled" id s.registrations)
            reg.event_id = none ∧
          (cancelRegistration fault tie s id).2 =
            { s with registrations := setRegistrationStatus "Cancelled" id s.registrations }) ∨
       ∃ w, selectOldestWaitlisted tie (setRegistrationStatus "Cancelled" id s.registrations)
              reg.event_id = some w ∧
          (cancelRegistration fault tie s id).2 =
            { s with
              registrations :=
                setRegistrationStatus "Confirmed" w.registration_id
                  (setRegistrationStatus "Cancelled" id s.registrations) }) := by
  unfold cancelRegistration at hok ⊢
  cases hsel : selectRegistration s id with
  | nil =>
    rw [hsel] at hok
    split at hok <;> simp [serverError] at hok
  | cons reg rest =>
    rw [hsel] at hok
    simp only at hok ⊢
    by_cases h0 : fault 0 = true
    · simp [h0, serverError] at hok
    by_cases hc : reg.status = "Cancelled"
    · simp [h0, hc] at hok
    by_cases h1 : fault 1 = true
    · simp [h0, hc, h1, serverError] at hok
    by_cases h2 : fault 2 = true
    · simp [h0, hc, h1, h2, serverError] at hok
    refine ⟨reg, rest, rfl, hc, ?_⟩
    cases hw : selectOldestWaitlisted tie
        (setRegistrationStatus "Cancelled" id s.registrations) reg.event_id with
    | none => left; simp [h0, hc, h1, h2, hw]
    | some w =>
      by_cases h3 : fault 3 = true
      · simp [h0, hc, h1, h2, hw, h3, serverError] at hok
      · right; exact ⟨w, rfl, by simp [h0, hc, h1, h2, hw, h3]⟩

/-- The store after any `cancelRegistration`, with unique registration ids:
unchanged, or every row changed by `cancelRow` for some promoted row that was
Waitlisted. -/
theorem cancelRegistration_rows (fault : Nat → Bool) (tie : List Registration → Nat)
    (s : Store) (id : Int) (hk : KeysUnique s) :
    (cancelRegistration fault tie s id).2 = s ∨
    ∃ promoted : Option Registration,
      (∀ w, promoted = some w → w ∈ s.registrations ∧ w.status = "Waitlisted") ∧
      (cancelRegistration fault tie s id).2 =
        { s with registrations := s.registrations.map (cancelRow id promoted) } := by
  rcases cancelRegistration_store fault tie s id with
    hs | ⟨reg, rest, _, _, hs | ⟨w, hw, hs⟩⟩
  · exact Or.inl hs
  · right
    refine ⟨none, by simp, ?_⟩
    rw [hs, setStatus_cancel_rows]
  · right
    obtain ⟨hwmem, _, hwst⟩ := selectOldestWaitlisted_mem tie _ _ w hw
    obtain ⟨hw1, _, hrows⟩ := setStatus_promote_rows id s.registrations w hk.2.1 hwmem hwst
    refine ⟨some w, ?_, ?_⟩
    · intro w2 h2
      injection h2 with h2
      subst h2
      exact ⟨hw1, hwst⟩
    · rw [hs, hrows]

theorem keysUnique_map_cancelRow (s : Store) (id : Int) (promoted : Option Registration)
    (hk : KeysUnique s) :
    KeysUnique { s with registrations := s.registrations.map (cancelRow id promoted) } := by
  have hids : (s.registrations.map (cancelRow id promoted)).map (fun r => r.registration_id) =
      s.registrations.map (fun r => r.registration_id) := by
    rw [List.map_map]
    apply List.map_congr_left
    intro r _
    simp only [Function.comp, cancelRow]
    split_ifs <;> rfl
  obtain ⟨h1, h2, h3⟩ := hk
  refine ⟨h1, ?_, ?_⟩
  · simp only [hids]
    exact h2
  · intro r hr
    have hmem : r.registration_id ∈
        (s.registrations.map (cancelRow id promoted)).map (fun r => r.registration_id) :=
      List.mem_map.mpr ⟨r, hr, rfl⟩
    rw [hids] at hmem
    obtain ⟨r0, hr0, heq⟩ := List.mem_map.mp hmem
    have := h3 r0 hr0
    simp only at heq ⊢
    omega

theorem keysUnique_insert (s : Store) (now e : Int) (pl tm : Option Int) (st : String)
    (hk : KeysUnique s) : KeysUnique (insertRegistration s now e pl tm st) := by
  obtain ⟨h1, h2, h3⟩ := hk
  refine ⟨h1, ?_, ?_⟩
  · simp only [insertRegistration, List.map_append, List.map_cons, List.map_nil]
    rw [List.nodup_append]
    refine ⟨h2, List.nodup_singleton _, ?_⟩
    intro x hx hx2
    obtain ⟨r, hr, rfl⟩ := List.mem_map.mp hx
    have := h3 r hr
    simp only [List.mem_singleton] at hx2
    omega
  · intro r hr
    simp only [insertRegistration, List.mem_append, List.mem_singleton] at hr ⊢
    rcases hr with hr | rfl
    · have := h3 r hr
      omega
    · simp

/-- Every request keeps the keys unique. -/
theorem keysUnique_run (s : Store) (c : RegCall) (hk : KeysUnique s) : KeysUnique (c.run s) := by
  cases c with
  | player fault now e p =>
    rcases registerPlayer_store fault now s e p with hs | ⟨event, rest, _, hs⟩
    · simp only [RegCall.run, hs]; exact hk
    · simp only [RegCall.run, hs]; exact keysUnique_insert s now e _ _ _ hk
  | team fault now e p =>
    rcases registerTeam_store fault now s e p with hs | ⟨event, rest, _, hs⟩
    · simp only [RegCall.run, hs]; exact hk
    · simp only [RegCall.run, hs]; exact keysUnique_insert s now e _ _ _ hk
  | cancel fault tie id =>
    rcases cancelRegistration_rows fault tie s id hk with hs | ⟨promoted, _, hs⟩
    · simp only [RegCall.run, hs]; exact hk
    · simp only [RegCall.run, hs]; exact keysUnique_map_cancelRow s id promoted hk

theorem keysUnique_runCalls (s : Store) (calls : List RegCall) (hk : KeysUnique s) :
    KeysUnique (runCalls s calls) := by
  induction calls generalizing s with
  | nil => exact hk
  | cons c cs ih => exact ih (c.run s) (keysUnique_run s c hk)

/-- A row other than the target is the same row after the cancel statement. -/
theorem mem_setStatus_of_ne (st : String) (id : Int) (rows : List Registration)
    (x : Registration) (hx : x ∈ rows) (hne : x.registration_id ≠ id) :
    x ∈ setRegistrationStatus st id rows := by
  unfold setRegistrationStatus
  refine List.mem_map.mpr ⟨x, hx, ?_⟩
  rw [if_neg hne]

/-! ## Claims on `cancelRegistration` -/

/-- C18 fails on the code: registrations 2 and 3 of event 1 are Waitlisted with
the same creation instant 7.  The select orders by `registration_date` only;
when the database returns the last of the tied rows, cancelling registration 1
promotes registration 3, not registration 2 of smaller id. -/
theorem cancel_promotion_counterexample :
    tiedWaitlistStore.registrations =
      [{ registration_id := 1, event_id := 1, player_id := some 1, team_id := none,
         status := "Confirmed", registration_date := 5 },
       { registration_id := 2, event_id := 1, player_id := some 2, team_id := none,
         status := "Waitlisted", registration_date := 7 },
       { registration_id := 3, event_id := 1, player_id := some 3, team_id := none,
         status := "Waitlisted", registration_date := 7 }] ∧
    (cancelRegistration noFault lastTie tiedWaitlistStore 1).1.status = 200 ∧
    (cancelRegistration noFault lastTie tiedWaitlistStore 1).2.registrations =
      [{ registration_id := 1, event_id := 1, player_id := some 1, team_id := none,
         status := "Cancelled", registration_date := 5 },
       { registration_id := 2, event_id := 1, player_id := some 2, team_id := none,
         status := "Waitlisted", registration_date := 7 },
       { registration_id := 3, event_id := 1, player_id := some 3, team_id := none,
         status := "Confirmed", registration_date := 7 }] := by
  decide

/-- C18, amended. For every successful `cancelRegistration` (registration ids
unique) on an event that still has a Waitlisted registration after the target
is cancelled, the registration promoted to Confirmed is a Waitlisted
registration of the same event with the smallest creation instant.  The select
names no second sort key, so among several of that smallest instant any one may
be promoted.  A Waitlisted registration created strictly later than the
promoted one stays as it was: with W1 created earlier than W2, W2 is not
promoted. -/
theorem cancel_promotion (fault : Nat → Bool) (tie : List Registration → Nat) (s : Store)
    (id : Int) (hk : KeysUnique s)
    (hok : (cancelRegistration fault tie s id).1.status = 200) :
    ∃ reg ∈ s.registrations, reg.registration_id = id ∧
      ((∃ x ∈ s.registrations, x.registration_id ≠ id ∧ x.event_id = reg.event_id ∧
          x.status = "Waitlisted") →
        ∃ w ∈ s.registrations, w.registration_id ≠ id ∧ w.event_id = reg.event_id ∧
          w.status = "Waitlisted" ∧
          (∀ x ∈ s.registrations, x.registration_id ≠ id → x.event_id = reg.event_id →
            x.status = "Waitlisted" → w.registration_date ≤ x.registration_date) ∧
          (cancelRegistration fault tie s id).2.registrations =
            s.registrations.map (cancelRow id (some w)) ∧
          cancelRow id (some w) w = { w with status := "Confirmed" } ∧
          (∀ x ∈ s.registrations, x.registration_id ≠ id →
            w.registration_date < x.registration_date → cancelRow id (some w) x = x)) := by
  obtain ⟨reg, rest, hsel, _, hcase⟩ := cancelRegistration_ok fault tie s id hok
  obtain ⟨hreg, hrid⟩ := mem_selectRegistration hsel
  refine ⟨reg, hreg, hrid, ?_⟩
  rintro ⟨x, hx, hxid, hxe, hxs⟩
  have hx1 := mem_setStatus_of_ne "Cancelled" id s.registrations x hx hxid
  rcases hcase with ⟨hnone, _⟩ | ⟨w, hw, hs⟩
  · obtain ⟨w, hw⟩ := selectOldestWaitlisted_some tie _ reg.event_id ⟨x, hx1, hxe, hxs⟩
    rw [hnone] at hw
    simp at hw
  · obtain ⟨hwmem, hwe, hwst⟩ := selectOldestWaitlisted_mem tie _ _ w hw
    have hleast := selectOldestWaitlisted_least tie _ _ w hw
    obtain ⟨hw1, hwid, hrows⟩ := setStatus_promote_rows id s.registrations w hk.2.1 hwmem hwst
    refine ⟨w, hw1, hwid, hwe, hwst, ?_, ?_, ?_, ?_⟩
    · intro y hy hyid hye hys
      exact hleast y (mem_setStatus_of_ne "Cancelled" id s.registrations y hy hyid) hye hys
    · rw [hs, hrows]
    · simp [cancelRow, hwid]
    · intro y _ hyid hlt
      have hne : ¬ some w = some y := by
        intro h
        injection h with h
        rw [h] at hlt
        exact lt_irrefl _ hlt
      simp [cancelRow, hyid, hne]

/-- C18 amended, at event 1 with registration 2 waitlisted at instant 7 and
registration 3 at instant 9: cancelling registration 1 is answered 200. -/
theorem cancel_promotion_witness :
    ∃ reg ∈ orderedWaitlistStore.registrations, reg.registration_id = 1 ∧
      ((∃ x ∈ orderedWaitlistStore.registrations, x.registration_id ≠ 1 ∧
          x.event_id = reg.event_id ∧ x.status = "Waitlisted") →
        ∃ w ∈ orderedWaitlistStore.registrations, w.registration_id ≠ 1 ∧
          w.event_id = reg.event_id ∧ w.status = "Waitlisted" ∧
          (∀ x ∈ orderedWaitlistStore.registrations, x.registration_id ≠ 1 →
            x.event_id = reg.event_id → x.status = "Waitlisted" →
            w.registration_date ≤ x.registration_date) ∧
          (cancelRegistration noFault lastTie orderedWaitlistStore 1).2.registrations =
            orderedWaitlistStore.registrations.map (cancelRow 1 (some w)) ∧
          cancelRow 1 (some w) w = { w with status := "Confirmed" } ∧
          (∀ x ∈ orderedWaitlistStore.registrations, x.registration_id ≠ 1 →
            w.registration_date < x.registration_date → cancelRow 1 (some w) x = x)) :=
  cancel_promotion noFault lastTie orderedWaitlistStore 1 (by decide) (by decide)

/-- C19. A successful `cancelRegistration` (registration ids unique) changes the
status of the target registration to Cancelled and of at most one other
registration, which was Waitlisted in the same event as the target and becomes
Confirmed; every other registration row is unchanged and stays in its place, and
no row is inserted or deleted. -/
theorem cancel_frame (fault : Nat → Bool) (tie : List Registration → Nat) (s : Store)
    (id : Int) (hk : KeysUnique s)
    (hok : (cancelRegistration fault tie s id).1.status = 200) :
    ∃ reg ∈ s.registrations, reg.registration_id = id ∧ reg.status ≠ "Cancelled" ∧
      ∃ promoted : Option Registration,
        (∀ w, promoted = some w →
          w ∈ s.registrations ∧ w.registration_id ≠ id ∧ w.status = "Waitlisted" ∧
          w.event_id = reg.event_id) ∧
        (cancelRegistration fault tie s id).2.registrations =
          s.registrations.map (cancelRow id promoted) ∧
        cancelRow id promoted reg = { reg with status := "Cancelled" } ∧
        (∀ r ∈ s.registrations, r.registration_id ≠ id → promoted ≠ some r →
          cancelRow id promoted r = r) := by
  obtain ⟨reg, rest, hsel, hnc, hcase⟩ := cancelRegistration_ok fault tie s id hok
  obtain ⟨hreg, hrid⟩ := mem_selectRegistration hsel
  refine ⟨reg, hreg, hrid, hnc, ?_⟩
  rcases hcase with ⟨_, hs⟩ | ⟨w, hw, hs⟩
  · refine ⟨none, by simp, ?_, by simp [cancelRow, hrid], ?_⟩
    · rw [hs, setStatus_cancel_rows]
    · intro r _ hne _
      simp [cancelRow, hne]
  · obtain ⟨hwmem, hwe, hwst⟩ := selectOldestWaitlisted_mem tie _ _ w hw
    obtain ⟨hw1, hwid, hrows⟩ := setStatus_promote_rows id s.registrations w hk.2.1 hwmem hwst
    refine ⟨some w, ?_, ?_, by simp [cancelRow, hrid], ?_⟩
    · intro w2 h2
      injection h2 with h2
      subst h2
      exact ⟨hw1, hwid, hwst, hwe⟩
    · rw [hs, hrows]
    · intro r _ hne hnp
      simp [cancelRow, hne, hnp]

/-- C19 at event 1 with two waitlisted registrations: cancelling registration 1
is answered 200 and the table keeps its three rows. -/
theorem cancel_frame_witness :
    ∃ reg ∈ orderedWaitlistStore.registrations, reg.registration_id = 1 ∧
      reg.status ≠ "Cancelled" ∧
      ∃ promoted : Option Registration,
        (∀ w, promoted = some w →
          w ∈ orderedWaitlistStore.registrations ∧ w.registration_id ≠ 1 ∧
          w.status = "Waitlisted" ∧ w.event_id = reg.event_id) ∧
        (cancelRegistration noFault firstTie orderedWaitlistStore 1).2.registrations =
          orderedWaitlistStore.registrations.map (cancelRow 1 promoted) ∧
        cancelRow 1 promoted reg = { reg with status := "Cancelled" } ∧
        (∀ r ∈ orderedWaitlistStore.registrations, r.registration_id ≠ 1 →
          promoted ≠ some r → cancelRow 1 promoted r = r) :=
  cancel_frame noFault firstTie orderedWaitlistStore 1 (by decide) (by decide)

/-! ## The life cycle of a registration and the duplicate invariant -/

theorem statusStep_cancelRow (id : Int) (promoted : Option Registration)
    (hp : ∀ w, promoted = some w → w.status = "Waitlisted") (r : Registration) :
    StatusStep r (cancelRow id promoted r) := by
  unfold cancelRow
  by_cases hid : r.registration_id = id
  · rw [if_pos hid]
    by_cases hc : r.status = "Cancelled"
    · left
      rw [← hc]
    · exact Or.inr (Or.inr ⟨hc, rfl⟩)
  · rw [if_neg hid]
    by_cases hw : promoted = some r
    · rw [if_pos hw]
      exact Or.inr (Or.inl ⟨hp r hw, rfl⟩)
    · rw [if_neg hw]
      exact Or.inl rfl

theorem lifecycle_refl (s : Store) : Lifecycle s s :=
  ⟨s.registrations, [], by simp, List.forall₂_same.mpr (fun _ _ => Or.inl rfl), by simp⟩

theorem lifecycle_insert (s : Store) (now e : Int) (pl tm : Option Int) (event : Event) :
    Lifecycle s (insertRegistration s now e pl tm (admissionStatus event)) := by
  refine ⟨s.registrations, _, rfl, List.forall₂_same.mpr (fun _ _ => Or.inl rfl), ?_⟩
  intro r hr
  simp only [List.mem_singleton] at hr
  subst hr
  simp only [admissionStatus]
  split
  · exact Or.inr rfl
  · exact Or.inl rfl

theorem lifecycle_step (s : Store) (c : RegCall) (hk : KeysUnique s) :
    Lifecycle s (c.run s) := by
  cases c with
  | player fault now e p =>
    rcases registerPlayer_store fault now s e p with hs | ⟨event, rest, _, hs⟩
    · simp only [RegCall.run, hs]; exact lifecycle_refl s
    · simp only [RegCall.run, hs]; exact lifecycle_insert s now e _ _ event
  | team fault now e p =>
    rcases registerTeam_store fault now s e p with hs | ⟨event, rest, _, hs⟩
    · simp only [RegCall.run, hs]; exact lifecycle_refl s
    · simp only [RegCall.run, hs]; exact lifecycle_insert s now e _ _ event
  | cancel fault tie id =>
    rcases cancelRegistration_rows fault tie s id hk with hs | ⟨promoted, hp, hs⟩
    · simp only [RegCall.run, hs]; exact lifecycle_refl s
    · simp only [RegCall.run, hs]
      refine ⟨s.registrations.map (cancelRow id promoted), [], by simp, ?_, by simp⟩
      rw [List.forall₂_map_right_iff, List.forall₂_same]
      intro r _
      exact statusStep_cancelRow id promoted (fun w hw => (hp w hw).2) r

/-- C20. Across any sequence of `registerPlayer`, `registerTeam` and
`cancelRegistration` requests (registration ids unique at the start), each
further request keeps every registration row in its place and changes it by at
most one step: Waitlisted to Confirmed, or not-Cancelled to Cancelled; a row
that is Cancelled is never changed; and a row that is created has status
Confirmed or Waitlisted. -/
theorem registration_lifecycle (s : Store) (calls : List RegCall) (c : RegCall)
    (hk : KeysUnique s) :
    Lifecycle (runCalls s calls) (c.run (runCalls s calls)) ∧
    (∀ r r2 : Registration, StatusStep r r2 → r.status = "Cancelled" → r2 = r) := by
  refine ⟨lifecycle_step _ c (keysUnique_runCalls s calls hk), ?_⟩
  rintro r r2 (h | ⟨hw, _⟩ | ⟨hc, _⟩) hst
  · exact h
  · rw [hst] at hw
    simp at hw
  · exact absurd hst hc

/-- C20 at event 1 after players 1 and 2 registered: one more cancellation. -/
theorem registration_lifecycle_witness :
    Lifecycle (runCalls openEventStore [.player noFault 5 1 1, .player noFault 5 1 2])
      ((RegCall.cancel noFault firstTie 1).run
        (runCalls openEventStore [.player noFault 5 1 1, .player noFault 5 1 2])) :=
  (registration_lifecycle openEventStore [.player noFault 5 1 1, .player noFault 5 1 2]
    (.cancel noFault firstTie 1) (by decide)).1

/-- A row map that never turns a row failing `q` into one satisfying it does not
raise the number of rows satisfying `q`. -/
theorem filter_map_length_le (q : Registration → Bool) (g : Registration → Registration)
    (rows : List Registration) (h : ∀ r ∈ rows, q (g r) = true → q r = true) :
    ((rows.map g).filter q).length ≤ (rows.filter q).length := by
  induction rows with
  | nil => simp
  | cons a rows ih =>
    have ih2 := ih (fun r hr => h r (List.mem_cons_of_mem _ hr))
    have ha := h a (List.mem_cons_self _ _)
    rw [List.map_cons, List.filter_cons, List.filter_cons]
    by_cases hq : q (g a) = true
    · rw [if_pos hq, if_pos (ha hq)]
      simp only [List.length_cons]
      omega
    · rw [if_neg hq]
      split
      · simp only [List.length_cons]
        omega
      · exact ih2

/-- A row that is not Cancelled after `cancelRow` was not Cancelled before, and
its event and participant are the same. -/
theorem cancelRow_active (id : Int) (promoted : Option Registration)
    (hp : ∀ w, promoted = some w → w.status = "Waitlisted") (r : Registration) :
    (cancelRow id promoted r).event_id = r.event_id ∧
    (cancelRow id promoted r).player_id = r.player_id ∧
    (cancelRow id promoted r).team_id = r.team_id ∧
    ((cancelRow id promoted r).status ≠ "Cancelled" → r.status ≠ "Cancelled") := by
  unfold cancelRow
  by_cases hid : r.registration_id = id
  · rw [if_pos hid]
    simp
  · rw [if_neg hid]
    by_cases hw : promoted = some r
    · rw [if_pos hw]
      refine ⟨rfl, rfl, rfl, ?_⟩
      intro _
      rw [hp r hw]
      decide
    · rw [if_neg hw]
      exact ⟨rfl, rfl, rfl, fun h => h⟩

theorem uniqueActive_cancelRow (s : Store) (id : Int) (promoted : Option Registration)
    (hp : ∀ w, promoted = some w → w.status = "Waitlisted") (hu : UniqueActive s) :
    UniqueActive { s with registrations := s.registrations.map (cancelRow id promoted) } := by
  intro e p
  constructor
  · refine le_trans ?_ (hu e p).1
    unfold existingPlayer
    apply filter_map_length_le
    intro r _ hq
    obtain ⟨h1, h2, _, h4⟩ := cancelRow_active id promoted hp r
    simp only [decide_eq_true_eq] at hq ⊢
    exact ⟨h1 ▸ hq.1, h2 ▸ hq.2.1, h4 hq.2.2⟩
  · refine le_trans ?_ (hu e p).2
    unfold existingTeam
    apply filter_map_length_le
    intro r _ hq
    obtain ⟨h1, _, h3, h4⟩ := cancelRow_active id promoted hp r
    simp only [decide_eq_true_eq] at hq ⊢
    exact ⟨h1 ▸ hq.1, h3 ▸ hq.2.1, h4 hq.2.2⟩

theorem length_filter_snoc (q : Registration → Bool) (rows : List Registration)
    (x : Registration) :
    ((rows ++ [x]).filter q).length = (rows.filter q).length + (if q x = true then 1 else 0) := by
  rw [List.filter_append, List.length_append, List.filter_cons, List.filter_nil]
  split <;> rfl

theorem uniqueActive_insert_player (s : Store) (now e p : Int) (st : String)
    (hdup : (existingPlayer s e p).length = 0) (hu : UniqueActive s) :
    UniqueActive (insertRegistration s now e (some p) none st) := by
  intro e2 p2
  constructor
  · have hold := (hu e2 p2).1
    unfold existingPlayer at hold hdup ⊢
    unfold insertRegistration
    simp only [length_filter_snoc]
    split
    · rename_i hq
      simp only [decide_eq_true_eq, Option.some.injEq] at hq
      obtain ⟨h1, h2, _⟩ := hq
      subst h1 h2
      omega
    · omega
  · have hold := (hu e2 p2).2
    unfold existingTeam at hold ⊢
    unfold insertRegistration
    simp only [length_filter_snoc]
    split
    · rename_i hq
      simp at hq
    · omega

theorem uniqueActive_insert_team (s : Store) (now e p : Int) (st : String)
    (hdup : (existingTeam s e p).length = 0) (hu : UniqueActive s) :
    UniqueActive (insertRegistration s now e none (some p) st) := by
  intro e2 p2
  constructor
  · have hold := (hu e2 p2).1
    unfold existingPlayer at hold ⊢
    unfold insertRegistration
    simp only [length_filter_snoc]
    split
    · rename_i hq
      simp at hq
    · omega
  · have hold := (hu e2 p2).2
    unfold existingTeam at hold hdup ⊢
    unfold insertRegistration
    simp only [length_filter_snoc]
    split
    · rename_i hq
      simp only [decide_eq_true_eq, Option.some.injEq] at hq
      obtain ⟨h1, h2, _⟩ := hq
      subst h1 h2
      omega
    · omega

theorem uniqueActive_run (s : Store) (c : RegCall) (hk : KeysUnique s) (hu : UniqueActive s) :
    UniqueActive (c.run s) := by
  cases c with
  | player fault now e p =>
    by_cases hdup : (existingPlayer s e p).length > 0
    · simp only [RegCall.run, registerPlayer_dup_store fault now s e p hdup]; exact hu
    · rcases registerPlayer_store fault now s e p with hs | ⟨event, rest, _, hs⟩
      · simp only [RegCall.run, hs]; exact hu
      · simp only [RegCall.run, hs]
        exact uniqueActive_insert_player s now e p _ (by omega) hu
  | team fault now e p =>
    by_cases hdup : (existingTeam s e p).length > 0
    · simp only [RegCall.run, registerTeam_dup_store fault now s e p hdup]; exact hu
    · rcases registerTeam_store fault now s e p with hs | ⟨event, rest, _, hs⟩
      · simp only [RegCall.run, hs]; exact hu
      · simp only [RegCall.run, hs]
        exact uniqueActive_insert_team s now e p _ (by omega) hu
  | cancel fault tie id =>
    rcases cancelRegistration_rows fault tie s id hk with hs | ⟨promoted, hp, hs⟩
    · simp only [RegCall.run, hs]; exact hu
    · simp only [RegCall.run, hs]
      exact uniqueActive_cancelRow s id promoted (fun w hw => (hp w hw).2) hu

/-- C15. Starting from a store (registration ids unique) with at most one
registration that is not Cancelled per event and participant, after any finite
sequence of `registerPlayer`, `registerTeam` and `cancelRegistration` requests
there is still at most one such registration for every event and participant. -/
theorem unique_active_invariant (s : Store) (calls : List RegCall) (hk : KeysUnique s)
    (hu : UniqueActive s) : UniqueActive (runCalls s calls) := by
  induction calls generalizing s with
  | nil => exact hu
  | cons c cs ih => exact ih (c.run s) (keysUnique_run s c hk) (uniqueActive_run s c hk hu)

/-- C15 at event 1 where player 1 is Confirmed: player 1 asks again, player 2
registers, registration 1 is cancelled and player 1 registers once more. -/
theorem unique_active_invariant_witness :
    UniqueActive
      (runCalls oneConfirmedStore
        [.player noFault 6 1 1, .player noFault 6 1 2, .cancel noFault firstTie 1,
         .player noFault 7 1 1]) :=
  unique_active_invariant oneConfirmedStore
    [.player noFault 6 1 1, .player noFault 6 1 2, .cancel noFault firstTie 1,
     .player noFault 7 1 1]
    (by decide)
    (fun _ _ => ⟨List.length_filter_le _ _, List.length_filter_le _ _⟩)

/-! ## Claims on the other writers and on the answer of a cancellation -/

theorem updateRegistration_store (fault : Nat → Bool) (s : Store) (id : Int)
    (status payment_status : Option String) :
    (updateRegistration fault s id status payment_status).2 = s ∨
    (updateRegistration fault s id status payment_status).2 =
      { s with registrations := s.registrations.map (setFields status payment_status id) } := by
  unfold updateRegistration
  split_ifs
  all_goals first
    | (left; rfl)
    | (right; rfl)

theorem setFields_status_kept (payment_status : Option String) (status : Option String)
    (id : Int) (r : Registration) (h : truthyField status = false) :
    (setFields status payment_status id r).status = r.status := by
  unfold setFields
  split
  · simp [h]
  · rfl

/-- C21 fails on the code: registration 1 is Cancelled; `updateRegistration` with
status "Confirmed" in the body is answered 200 and the row is Confirmed again. -/
theorem update_status_counterexample :
    cancelledStore.registrations.map (fun r => (r.registration_id, r.status)) =
      [(1, "Cancelled")] ∧
    (updateRegistration noFault cancelledStore 1 (some "Confirmed") none).1.status = 200 ∧
    (updateRegistration noFault cancelledStore 1 (some "Confirmed") none).2.registrations.map
        (fun r => (r.registration_id, r.status)) =
      [(1, "Confirmed")] := by
  decide

/-- C21, amended. Register and cancel are not the only writers of `status`:
`updateRegistration`, answered 200 for a body with a non-empty `status`, sets the
status of the registration of the given id to that value, whatever the old and
the new value are, and leaves the status of every other row; with no `status`
in the body it leaves every status as it was.  `deleteRegistration` changes no
status: the rows it leaves are rows of the table before, unchanged. -/
theorem update_status (fault : Nat → Bool) (s : Store) (id : Int)
    (status payment_status : Option String) :
    (∀ v : String, status = some v → v ≠ "" →
      (updateRegistration fault s id status payment_status).1.status = 200 →
      (updateRegistration fault s id status payment_status).2.registrations.map
          (fun r => r.status) =
        s.registrations.map (fun r => if r.registration_id = id then v else r.status)) ∧
    (truthyField status = false →
      (updateRegistration fault s id status payment_status).2.registrations.map
          (fun r => r.status) =
        s.registrations.map (fun r => r.status)) ∧
    (∀ r ∈ (deleteRegistration fault s id).2.registrations, r ∈ s.registrations) := by
  refine ⟨?_, ?_, ?_⟩
  · intro v hv hne hok
    have hs : (updateRegistration fault s id status payment_status).2 =
        { s with registrations := s.registrations.map (setFields status payment_status id) } := by
      unfold updateRegistration at hok ⊢
      split_ifs at hok ⊢
      all_goals first
        | rfl
        | (simp [serverError] at hok)
    rw [hs]
    simp only [List.map_map]
    apply List.map_congr_left
    intro r _
    subst hv
    simp only [Function.comp, setFields]
    split
    · simp [truthyField, hne]
    · rfl
  · intro hf
    rcases updateRegistration_store fault s id status payment_status with hs | hs
    · rw [hs]
    · rw [hs]
      simp only [List.map_map]
      apply List.map_congr_left
      intro r _
      exact setFields_status_kept payment_status status id r hf
  · intro r hr
    unfold deleteRegistration at hr
    split_ifs at hr
    all_goals first
      | exact hr
      | exact (List.mem_filter.mp hr).1

/-- C21 amended, at the store where registration 1 is Cancelled and the body
carries status "Confirmed". -/
theorem update_status_witness :
    (updateRegistration noFault cancelledStore 1 (some "Confirmed") none).2.registrations.map
        (fun r => r.status) =
      cancelledStore.registrations.map
        (fun r => if r.registration_id = 1 then "Confirmed" else r.status) :=
  (update_status noFault cancelledStore 1 (some "Confirmed") none).1 "Confirmed" rfl
    (by decide) (by decide)

/-- C22 fails on the code: cancelling registration 1 of event 1 promotes
registration 2 in one store and promotes nothing in the other, and the two
answers are the same. -/
theorem cancel_answer_counterexample :
    (cancelRegistration noFault firstTie orderedWaitlistStore 1).2.registrations.map
        (fun r => (r.registration_id, r.status)) =
      [(1, "Cancelled"), (2, "Confirmed"), (3, "Waitlisted")] ∧
    (cancelRegistration noFault firstTie oneConfirmedStore 1).2.registrations.map
        (fun r => (r.registration_id, r.status)) =
      [(1, "Cancelled")] ∧
    (cancelRegistration noFault firstTie orderedWaitlistStore 1).1.status = 200 ∧
    (cancelRegistration noFault firstTie orderedWaitlistStore 1).1 =
      (cancelRegistration noFault firstTie oneConfirmedStore 1).1 := by
  decide

/-- C22, amended. The answer of a successful `cancelRegistration` is always the
same envelope: status 200, the fixed message "Registration cancelled
successfully. Waitlisted participant promoted if available." and no data.  It
neither names a promoted registration nor tells whether one was promoted. -/
theorem cancel_answer (fault : Nat → Bool) (tie : List Registration → Nat) (s : Store)
    (id : Int) (hok : (cancelRegistration fault tie s id).1.status = 200) :
    (cancelRegistration fault tie s id).1 = cancelSucceeded := by
  unfold cancelRegistration at hok ⊢
  cases hsel : selectRegistration s id with
  | nil =>
    rw [hsel] at hok
    split at hok <;> simp [serverError] at hok
  | cons reg rest =>
    rw [hsel] at hok
    simp only at hok ⊢
    by_cases h0 : fault 0 = true
    · simp [h0, serverError] at hok
    by_cases hc : reg.status = "Cancelled"
    · simp [h0, hc] at hok
    by_cases h1 : fault 1 = true
    · simp [h0, hc, h1, serverError] at hok
    by_cases h2 : fault 2 = true
    · simp [h0, hc, h1, h2, serverError] at hok
    cases hw : selectOldestWaitlisted tie
        (setRegistrationStatus "Cancelled" id s.registrations) reg.event_id with
    | none => simp [h0, hc, h1, h2, hw, cancelSucceeded]
    | some w =>
      by_cases h3 : fault 3 = true
      · simp [h0, hc, h1, h2, hw, h3, serverError] at hok
      · simp [h0, hc, h1, h2, hw, h3, cancelSucceeded]

/-- C22 amended, at the cancellation that promotes registration 2. -/
theorem cancel_answer_witness :
    (cancelRegistration noFault firstTie orderedWaitlistStore 1).1 = cancelSucceeded :=
  cancel_answer noFault firstTie orderedWaitlistStore 1 (by decide)

/-! ## Claims on scores given as strings and on the body rule -/

/-- C26, the code at the failing input: both scores arrive as the strings "10"
and "9", which the validator accepts and leaves as strings.  Their numeric
values are 10 and 9, yet the handler compares them as strings and makes the
second participant, 20, the winner. -/
theorem score_strings_evaluated :
    (JsValue.str "10").toNumber = some 10 ∧ (JsValue.str "9").toNumber = some 9 ∧
    (updateMatchScore noFault scheduledStore 1 10 (.str "10") 20 (.str "9") false).1.status = 200 ∧
    (updateMatchScore noFault scheduledStore 1 10 (.str "10") 20 (.str "9") false).2.match_rows =
      [{ match_id := 1, event_id := 1, match_status := "Completed", winner_id := some 20 }] ∧
    (updateMatchScore noFault scheduledStore 1 10 (.str "10") 20 (.str "9") false).2.match_participants =
      [{ match_id := 1, player_id := some 10, team_id := none,
         score := some (.str "10"), result := some "Loss" },
       { match_id := 1, player_id := some 20, team_id := none,
         score := some (.str "9"), result := some "Win" }] := by
  decide

/-- C27 fails on the code: a body whose only id is `player_id` 0 provides exactly
one of the two and is rejected as providing neither; a body with `player_id` 0
and `team_id` 5 provides both and is accepted. -/
theorem body_rule_counterexample :
    registerBodyRule (some (.num 0)) none = some "Either player_id or team_id is required" ∧
    registerBodyRule (some (.num 0)) (some (.num 5)) = none := by
  decide

/-- C27, amended. The custom body rule tests truthiness: it accepts a body if
and only if exactly one of `player_id` and `team_id` is truthy (present and
neither 0 nor the empty string); it fails with "Either player_id or team_id is
required" exactly when neither is truthy and with "Cannot provide both player_id
and team_id" exactly when both are. -/
theorem body_rule (player_id team_id : Option JsValue) :
    (registerBodyRule player_id team_id = none ↔
      truthyValue player_id ≠ truthyValue team_id) ∧
    (registerBodyRule player_id team_id = some "Either player_id or team_id is required" ↔
      truthyValue player_id = false ∧ truthyValue team_id = false) ∧
    (registerBodyRule player_id team_id = some "Cannot provide both player_id and team_id" ↔
      truthyValue player_id = true ∧ truthyValue team_id = true) := by
  unfold registerBodyRule
  cases truthyValue player_id <;> cases truthyValue team_id <;> simp

/-! ## Claim on the query texts -/

theorem placeholderCount_append (a b : String) :
    placeholderCount (a ++ b) = placeholderCount a + placeholderCount b := by
  simp [placeholderCount, String.data_append, List.count_append]

theorem placeholderCount_join {α : Type} (params : List α) :
    placeholderCount (joinWith "," (params.map (fun _ => "?"))) = params.length := by
  induction params with
  | nil => rfl
  | cons a rest ih =>
    cases rest with
    | nil => rfl
    | cons b rest =>
      simp only [List.map_cons, joinWith, placeholderCount_append, List.length_cons] at ih ⊢
      have h1 : placeholderCount "?" = 1 := by decide
      have h2 : placeholderCount "," = 0 := by decide
      rw [h1, h2]
      omega

/-- C30. For every combination of present and absent filters the text built by
`getAllRegistrations` has exactly as many `?` placeholders as its parameter
list has entries; the text is the fixed head, one clause per present filter in
the order event_id, player_id, team_id, status, and the fixed ORDER BY tail,
and the parameter list holds the values of those same filters in the same
order.  `callProcedure` builds a CALL statement with exactly one placeholder per
parameter (the count of `?` is that of the procedure name plus the number of
parameters, and the one name the code calls, `sp_get_player_stats`, has none). -/
theorem query_placeholders {α : Type} (event_id player_id team_id status : Option String)
    (procedureName : String) (params : List α) :
    placeholderCount (getAllRegistrationsQuery event_id player_id team_id status).1 =
      (getAllRegistrationsQuery event_id player_id team_id status).2.length ∧
    getAllRegistrationsQuery event_id player_id team_id status =
      ("SELECT * FROM registrations WHERE 1=1" ++
          String.join ((presentFilters event_id player_id team_id status).map filterClause) ++
          " ORDER BY registration_date DESC",
        (presentFilters event_id player_id team_id status).map (fun cv => cv.2)) ∧
    placeholderCount (callProcedureSql procedureName params) =
      placeholderCount procedureName + params.length ∧
    placeholderCount (callProcedureSql "sp_get_player_stats" params) = params.length := by
  have hcall : ∀ name : String, placeholderCount (callProcedureSql name params) =
      placeholderCount name + params.length := by
    intro name
    unfold callProcedureSql
    rw [placeholderCount_append, placeholderCount_append, placeholderCount_append,
      placeholderCount_append, placeholderCount_join]
    have h1 : placeholderCount "CALL " = 0 := by decide
    have h2 : placeholderCount "(" = 0 := by decide
    have h3 : placeholderCount ")" = 0 := by decide
    rw [h1, h2, h3]
    omega
  refine ⟨?_, ?_, hcall procedureName, ?_⟩
  · have h0 : placeholderCount "SELECT * FROM registrations WHERE 1=1" = 0 := by decide
    have h1 : placeholderCount " AND event_id = ?" = 1 := by decide
    have h2 : placeholderCount " AND player_id = ?" = 1 := by decide
    have h3 : placeholderCount " AND team_id = ?" = 1 := by decide
    have h4 : placeholderCount " AND status = ?" = 1 := by decide
    have h5 : placeholderCount " ORDER BY registration_date DESC" = 0 := by decide
    unfold getAllRegistrationsQuery
    cases truthyField event_id <;> cases truthyField player_id <;>
      cases truthyField team_id <;> cases truthyField status <;>
      simp only [if_true, if_false, Bool.false_eq_true, placeholderCount_append, h0, h1, h2, h3,
        h4, h5, List.length_append, List.length_nil, List.length_singleton]
  · unfold getAllRegistrationsQuery presentFilters
    cases hE : truthyField event_id <;> cases hP : truthyField player_id <;>
      cases hT : truthyField team_id <;> cases hS : truthyField status <;>
      simp [List.filterMap_cons, hE, hP, hT, hS, filterClause, String.join]
  · have hname : placeholderCount "sp_get_player_stats" = 0 := by decide
    rw [hcall "sp_get_player_stats", hname, Nat.zero_add]

/-! ## Claims on the rows created by a register request -/

/-- On a team-based event `registerPlayer` writes nothing. -/
theorem registerPlayer_kind_store (fault : Nat → Bool) (now : Int) (s : Store) (e p : Int)
    (event : Event) (rest : List Event) (hsel : selectEvent s e = event :: rest)
    (hk : event.is_team_based = true) : (registerPlayer fault now s e p).2 = s := by
  unfold registerPlayer
  simp only [hsel, hk, if_true]
  split <;> rfl

theorem registerTeam_kind_store (fault : Nat → Bool) (now : Int) (s : Store) (e p : Int)
    (event : Event) (rest : List Event) (hsel : selectEvent s e = event :: rest)
    (hk : event.is_team_based = false) : (registerTeam fault now s e p).2 = s := by
  unfold registerTeam
  simp only [hsel, hk, Bool.not_false, if_true]
  split <;> rfl

/-- The store after `registerPlayer`, with the kind of the event read: unchanged,
or one row inserted for an event that is not team-based. -/
theorem registerPlayer_store_kind (fault : Nat → Bool) (now : Int) (s : Store) (e p : Int) :
    (registerPlayer fault now s e p).2 = s ∨
    ∃ event rest, selectEvent s e = event :: rest ∧ event.is_team_based = false ∧
      (registerPlayer fault now s e p).2 =
        insertRegistration s now e (some p) none (admissionStatus event) := by
  rcases registerPlayer_store fault now s e p with hs | ⟨event, rest, hsel, hs⟩
  · exact Or.inl hs
  · cases hk : event.is_team_based
    · exact Or.inr ⟨event, rest, hsel, hk, hs⟩
    · exact Or.inl (registerPlayer_kind_store fault now s e p event rest hsel hk)

theorem registerTeam_store_kind (fault : Nat → Bool) (now : Int) (s : Store) (e p : Int) :
    (registerTeam fault now s e p).2 = s ∨
    ∃ event rest, selectEvent s e = event :: rest ∧ event.is_team_based = true ∧
      (registerTeam fault now s e p).2 =
        insertRegistration s now e none (some p) (admissionStatus event) := by
  rcases registerTeam_store fault now s e p with hs | ⟨event, rest, hsel, hs⟩
  · exact Or.inl hs
  · cases hk : event.is_team_based
    · exact Or.inl (registerTeam_kind_store fault now s e p event rest hsel hk)
    · exact Or.inr ⟨event, rest, hsel, hk, hs⟩

/-- Rows created on integer ids.  A `registerPlayer` request leaves the store
as it was or appends one registration row that references the player and no
team, for an event row that is not team-based; a `registerTeam` request whose
`team_id` is an integer leaves the store as it was or appends one row that
references the team and no player, for an event row that is team-based. -/
theorem register_reference (fault : Nat → Bool) (now : Int) (s : Store) (e p : Int) :
    ((registerPlayer fault now s e p).2 = s ∨
      ∃ event ∈ s.events, event.event_id = e ∧ event.is_team_based = false ∧
        ∃ st : String, (registerPlayer fault now s e p).2.registrations =
          s.registrations ++
            [{ registration_id := s.next_registration_id, event_id := e,
               player_id := some p, team_id := none, status := st,
               registration_date := now }]) ∧
    ((registerTeam fault now s e p).2 = s ∨
      ∃ event ∈ s.events, event.event_id = e ∧ event.is_team_based = true ∧
        ∃ st : String, (registerTeam fault now s e p).2.registrations =
          s.registrations ++
            [{ registration_id := s.next_registration_id, event_id := e,
               player_id := none, team_id := some p, status := st,
               registration_date := now }]) := by
  constructor
  · rcases registerPlayer_store_kind fault now s e p with hs | ⟨event, rest, hsel, hk, hs⟩
    · exact Or.inl hs
    · obtain ⟨hmem, hid⟩ := mem_selectEvent hsel
      exact Or.inr ⟨event, hmem, hid, hk, admissionStatus event, by rw [hs]; rfl⟩
  · rcases registerTeam_store_kind fault now s e p with hs | ⟨event, rest, hsel, hk, hs⟩
    · exact Or.inl hs
    · obtain ⟨hmem, hid⟩ := mem_selectEvent hsel
      exact Or.inr ⟨event, hmem, hid, hk, admissionStatus event, by rw [hs]; rfl⟩

/-! ## Claims on the stored counter and on the promotion after any cancellation -/

/-- No request of the registration controller writes the events table. -/
theorem events_run (s : Store) (c : RegCall) : (c.run s).events = s.events := by
  cases c with
  | player fault now e p =>
    rcases registerPlayer_store fault now s e p with hs | ⟨event, rest, _, hs⟩
    · simp only [RegCall.run, hs]
    · simp only [RegCall.run, hs]; rfl
  | team fault now e p =>
    rcases registerTeam_store fault now s e p with hs | ⟨event, rest, _, hs⟩
    · simp only [RegCall.run, hs]
    · simp only [RegCall.run, hs]; rfl
  | cancel fault tie id =>
    rcases cancelRegistration_store fault tie s id with
      hs | ⟨reg, rest, _, _, hs | ⟨w, _, hs⟩⟩
    · simp only [RegCall.run, hs]
    · simp only [RegCall.run, hs]
    · simp only [RegCall.run, hs]

/-- A fault-free `registerPlayer` that passes the four checks inserts the row. -/
theorem registerPlayer_pass (now : Int) (s : Store) (e p : Int) (event : Event)
    (rest : List Event) (hev : selectEvent s e = event :: rest)
    (hk : event.is_team_based = false) (hdl : ¬ event.registration_deadline < now)
    (hdup : existingPlayer s e p = []) :
    (registerPlayer noFault now s e p).1.status = 201 ∧
    (registerPlayer noFault now s e p).2 =
      insertRegistration s now e (some p) none (admissionStatus event) := by
  unfold registerPlayer
  simp [hev, hk, hdl, hdup, noFault]

theorem registerTeam_pass (now : Int) (s : Store) (e p : Int) (event : Event)
    (rest : List Event) (hev : selectEvent s e = event :: rest)
    (hk : event.is_team_based = true) (hdl : ¬ event.registration_deadline < now)
    (hdup : existingTeam s e p = []) :
    (registerTeam noFault now s e p).1.status = 201 ∧
    (registerTeam noFault now s e p).2 =
      insertRegistration s now e none (some p) (admissionStatus event) := by
  unfold registerTeam
  simp [hev, hk, hdl, hdup, noFault]

theorem existingPlayer_insert_other (s : Store) (now e p q : Int) (st : String)
    (hpq : p ≠ q) (hdup : existingPlayer s e q = []) :
    existingPlayer (insertRegistration s now e (some p) none st) e q = [] := by
  unfold existingPlayer at hdup ⊢
  unfold insertRegistration
  simp only [List.filter_append, hdup, List.nil_append]
  rw [List.filter_cons, List.filter_nil, if_neg]
  simp [hpq]

theorem existingTeam_insert_other (s : Store) (now e p q : Int) (st : String)
    (hpq : p ≠ q) (hdup : existingTeam s e q = []) :
    existingTeam (insertRegistration s now e none (some p) st) e q = [] := by
  unfold existingTeam at hdup ⊢
  unfold insertRegistration
  simp only [List.filter_append, hdup, List.nil_append]
  rw [List.filter_cons, List.filter_nil, if_neg]
  simp [hpq]

/-- C29. `registerPlayer`, `registerTeam` and `cancelRegistration` never write
the events table, so `current_participants` is the same after any of them; and
for an event and two distinct participants that each pass the checks, two
register requests in a row (no store fault) insert their rows with the same
status, the one decided by the stored counter: Confirmed if
`current_participants` is below `max_participants`, Waitlisted otherwise. -/
theorem register_same_status (s : Store) (now1 now2 e p q : Int) (event : Event)
    (rest : List Event) (hev : selectEvent s e = event :: rest)
    (hd1 : ¬ event.registration_deadline < now1) (hd2 : ¬ event.registration_deadline < now2)
    (hpq : p ≠ q) :
    (∀ c : RegCall, (c.run s).events = s.events) ∧
    (event.is_team_based = false → existingPlayer s e p = [] → existingPlayer s e q = [] →
      (registerPlayer noFault now2 (registerPlayer noFault now1 s e p).2 e q).2.registrations =
        s.registrations ++
          [{ registration_id := s.next_registration_id, event_id := e,
             player_id := some p, team_id := none,
             status := if event.current_participants < event.max_participants
                       then "Confirmed" else "Waitlisted",
             registration_date := now1 },
           { registration_id := s.next_registration_id + 1, event_id := e,
             player_id := some q, team_id := none,
             status := if event.current_participants < event.max_participants
                       then "Confirmed" else "Waitlisted",
             registration_date := now2 }]) ∧
    (event.is_team_based = true → existingTeam s e p = [] → existingTeam s e q = [] →
      (registerTeam noFault now2 (registerTeam noFault now1 s e p).2 e q).2.registrations =
        s.registrations ++
          [{ registration_id := s.next_registration_id, event_id := e,
             player_id := none, team_id := some p,
             status := if event.current_participants < event.max_participants
                       then "Confirmed" else "Waitlisted",
             registration_date := now1 },
           { registration_id := s.next_registration_id + 1, event_id := e,
             player_id := none, team_id := some q,
             status := if event.current_participants < event.max_participants
                       then "Confirmed" else "Waitlisted",
             registration_date := now2 }]) := by
  refine ⟨events_run s, ?_, ?_⟩
  · intro hk hp hq
    rw [(registerPlayer_pass now1 s e p event rest hev hk hd1 hp).2]
    have hev2 : selectEvent (insertRegistration s now1 e (some p) none (admissionStatus event)) e =
        event :: rest := hev
    rw [(registerPlayer_pass now2 _ e q event rest hev2 hk hd2
      (existingPlayer_insert_other s now1 e p q _ hpq hq)).2]
    simp [insertRegistration, admissionStatus_eq]
  · intro hk hp hq
    rw [(registerTeam_pass now1 s e p event rest hev hk hd1 hp).2]
    have hev2 : selectEvent (insertRegistration s now1 e none (some p) (admissionStatus event)) e =
        event :: rest := hev
    rw [(registerTeam_pass now2 _ e q event rest hev2 hk hd2
      (existingTeam_insert_other s now1 e p q _ hpq hq)).2]
    simp [insertRegistration, admissionStatus_eq]

/-- C29 at event 1 (counter 0 of capacity 2) with one Confirmed registration:
players 2 and 3 register in a row and both are inserted as Confirmed. -/
theorem register_same_status_witness :
    (registerPlayer noFault 7 (registerPlayer noFault 6 oneConfirmedStore 1 2).2 1 3).2.registrations =
      oneConfirmedStore.registrations ++
        [{ registration_id := 2, event_id := 1, player_id := some 2, team_id := none,
           status := "Confirmed", registration_date := 6 },
         { registration_id := 3, event_id := 1, player_id := some 3, team_id := none,
           status := "Confirmed", registration_date := 7 }] :=
  (register_same_status oneConfirmedStore 6 7 1 2 3
      { event_id := 1, is_team_based := false, registration_deadline := 100,
        current_participants := 0, max_participants := 2 } []
      (by decide) (by decide) (by decide) (by decide)).2.1 (by decide) (by decide) (by decide)

/-- C28. A successful `cancelRegistration` (registration ids unique) whose event
still has a Waitlisted registration after the target is cancelled promotes a
Waitlisted registration of that event with the least creation instant, whatever
the status of the cancelled registration was.  The Confirmed count of the event
afterwards is the count before, plus one, minus one when the target itself was
Confirmed: cancelling a registration that was Waitlisted raises the Confirmed
count of the event by one. -/
theorem cancel_any_promotes (fault : Nat → Bool) (tie : List Registration → Nat) (s : Store)
    (id : Int) (hk : KeysUnique s)
    (hok : (cancelRegistration fault tie s id).1.status = 200) :
    ∃ reg ∈ s.registrations, reg.registration_id = id ∧
      ((∃ x ∈ s.registrations, x.registration_id ≠ id ∧ x.event_id = reg.event_id ∧
          x.status = "Waitlisted") →
        (∃ w ∈ s.registrations, w.registration_id ≠ id ∧ w.event_id = reg.event_id ∧
          w.status = "Waitlisted" ∧
          (∀ x ∈ s.registrations, x.registration_id ≠ id → x.event_id = reg.event_id →
            x.status = "Waitlisted" → w.registration_date ≤ x.registration_date) ∧
          { w with status := "Confirmed" } ∈
            (cancelRegistration fault tie s id).2.registrations) ∧
        confirmedCount (cancelRegistration fault tie s id).2 reg.event_id +
            (if reg.status = "Confirmed" then 1 else 0) =
          confirmedCount s reg.event_id + 1 ∧
        (reg.status = "Waitlisted" →
          confirmedCount (cancelRegistration fault tie s id).2 reg.event_id =
            confirmedCount s reg.event_id + 1)) := by
  obtain ⟨reg, rest, hsel, _, hcase⟩ := cancelRegistration_ok fault tie s id hok
  obtain ⟨hreg, hrid⟩ := mem_selectRegistration hsel
  refine ⟨reg, hreg, hrid, ?_⟩
  rintro ⟨x, hx, hxid, hxe, hxs⟩
  have hx1 := mem_setStatus_of_ne "Cancelled" id s.registrations x hx hxid
  rcases hcase with ⟨hnone, _⟩ | ⟨w, hw, hs⟩
  · obtain ⟨w, hw⟩ := selectOldestWaitlisted_some tie _ reg.event_id ⟨x, hx1, hxe, hxs⟩
    rw [hnone] at hw
    simp at hw
  · obtain ⟨hwmem, hwe, hwst⟩ := selectOldestWaitlisted_mem tie _ _ w hw
    have hleast := selectOldestWaitlisted_least tie _ _ w hw
    obtain ⟨hw1, hwid, hrows⟩ := setStatus_promote_rows id s.registrations w hk.2.1 hwmem hwst
    have hk1 := keysUnique_setStatus s "Cancelled" id hk
    have h1 := confirmedCount_setStatus s "Cancelled" reg hreg hk.2.1 reg.event_id
    rw [hrid] at h1
    have h2 := confirmedCount_setStatus
      { s with registrations := setRegistrationStatus "Cancelled" id s.registrations }
      "Confirmed" w hwmem hk1.2.1 reg.event_id
    simp only [show ¬ ("Cancelled" = "Confirmed") by decide, and_false, if_false,
      true_and] at h1
    simp only [hwst, show ¬ ("Waitlisted" = "Confirmed") by decide, and_false, if_false,
      and_true, hwe, if_true] at h2
    have hcount : confirmedCount (cancelRegistration fault tie s id).2 reg.event_id +
        (if reg.status = "Confirmed" then 1 else 0) = confirmedCount s reg.event_id + 1 := by
      rw [hs]
      omega
    refine ⟨⟨w, hw1, hwid, hwe, hwst, ?_, ?_⟩, hcount, ?_⟩
    · intro y hy hyid hye hys
      exact hleast y (mem_setStatus_of_ne "Cancelled" id s.registrations y hy hyid) hye hys
    · rw [hs, hrows]
      refine List.mem_map.mpr ⟨w, hw1, ?_⟩
      simp [cancelRow, hwid]
    · intro hwl
      rw [hwl] at hcount
      simpa using hcount

/-- C28 at event 1 with registrations 2 and 3 Waitlisted: cancelling the
Waitlisted registration 3 is answered 200. -/
theorem cancel_any_promotes_witness :
    ∃ reg ∈ orderedWaitlistStore.registrations, reg.registration_id = 3 ∧
      ((∃ x ∈ orderedWaitlistStore.registrations, x.registration_id ≠ 3 ∧
          x.event_id = reg.event_id ∧ x.status = "Waitlisted") →
        (∃ w ∈ orderedWaitlistStore.registrations, w.registration_id ≠ 3 ∧
          w.event_id = reg.event_id ∧ w.status = "Waitlisted" ∧
          (∀ x ∈ orderedWaitlistStore.registrations, x.registration_id ≠ 3 →
            x.event_id = reg.event_id → x.status = "Waitlisted" →
            w.registration_date ≤ x.registration_date) ∧
          { w with status := "Confirmed" } ∈
            (cancelRegistration noFault firstTie orderedWaitlistStore 3).2.registrations) ∧
        confirmedCount (cancelRegistration noFault firstTie orderedWaitlistStore 3).2
              reg.event_id +
            (if reg.status = "Confirmed" then 1 else 0) =
          confirmedCount orderedWaitlistStore reg.event_id + 1 ∧
        (reg.status = "Waitlisted" →
          confirmedCount (cancelRegistration noFault firstTie orderedWaitlistStore 3).2
              reg.event_id =
            confirmedCount orderedWaitlistStore reg.event_id + 1)) :=
  cancel_any_promotes noFault firstTie orderedWaitlistStore 3 (by decide) (by decide)


/-! ## Claim on the two participants of a match -/

/-- A `scheduleMatch` answered 201 ran its three statements. -/
theorem scheduleMatch_ok (fault : Nat → Bool) (s : Store) (event_id p1 p2 : Int) (t : Bool)
    (hok : (scheduleMatch fault s event_id p1 p2 t).1.status = 201) :
    (scheduleMatch fault s event_id p1 p2 t).2 =
      { s with
        match_rows := s.match_rows ++
          [{ match_id := s.next_match_id, event_id := event_id, match_status := "Scheduled",
             winner_id := none }],
        next_match_id := s.next_match_id + 1,
        match_participants := s.match_participants ++
          [newParticipant t s.next_match_id p1, newParticipant t s.next_match_id p2] } := by
  unfold scheduleMatch at hok ⊢
  split_ifs at hok ⊢
  all_goals first
    | rfl
    | (simp [serverError] at hok)

theorem setScore_identity (t : Bool) (v : JsValue) (res : String) (id pid : Int)
    (r : MatchParticipant) :
    participantIdentity (setScore t v res id pid r) = participantIdentity r := by
  unfold participantIdentity
  rw [setScore_match_id, setScore_player_id, setScore_team_id]

theorem updateParticipant_identity (t : Bool) (v : JsValue) (res : String) (id pid : Int)
    (rows : List MatchParticipant) :
    (updateParticipant t v res id pid rows).map participantIdentity =
      rows.map participantIdentity := by
  unfold updateParticipant
  rw [List.map_map]
  apply List.map_congr_left
  intro r _
  exact setScore_identity t v res id pid r

theorem updateMatchRow_ids (st : String) (w : Option Int) (id : Int) (rows : List Match) :
    (updateMatchRow st w id rows).map (fun m => m.match_id) =
      rows.map (fun m => m.match_id) := by
  unfold updateMatchRow
  rw [List.map_map]
  apply List.map_congr_left
  intro m _
  simp only [Function.comp]
  split <;> rfl

/-- Whatever statement throws, `updateMatchScore` keeps the participant rows in
place with their identities, the match ids and the match counter. -/
theorem updateMatchScore_frame (fault : Nat → Bool) (s : Store) (id p1 p2 : Int)
    (v1 v2 : JsValue) (t : Bool) :
    (updateMatchScore fault s id p1 v1 p2 v2 t).2.match_participants.map participantIdentity =
      s.match_participants.map participantIdentity ∧
    (updateMatchScore fault s id p1 v1 p2 v2 t).2.match_rows.map (fun m => m.match_id) =
      s.match_rows.map (fun m => m.match_id) ∧
    (updateMatchScore fault s id p1 v1 p2 v2 t).2.next_match_id = s.next_match_id := by
  unfold updateMatchScore
  split_ifs <;>
    simp only [updateParticipant_identity, updateMatchRow_ids, and_self]

theorem filter_match_length (rows : List MatchParticipant) (k : Int) :
    (rows.filter (fun r => r.match_id = k)).length =
      ((rows.map participantIdentity).filter (fun i => i.1 = k)).length := by
  rw [List.filter_map, List.length_map]
  rfl

theorem twoParticipants_score (fault : Nat → Bool) (s : Store) (id p1 p2 : Int)
    (v1 v2 : JsValue) (t : Bool) (h : MatchIdsBelow s ∧ TwoParticipants s) :
    MatchIdsBelow (updateMatchScore fault s id p1 v1 p2 v2 t).2 ∧
    TwoParticipants (updateMatchScore fault s id p1 v1 p2 v2 t).2 := by
  obtain ⟨hp, hm, hn⟩ := updateMatchScore_frame fault s id p1 p2 v1 v2 t
  obtain ⟨⟨hb1, hb2⟩, htwo⟩ := h
  have hrow : ∀ m ∈ (updateMatchScore fault s id p1 v1 p2 v2 t).2.match_rows,
      ∃ m0 ∈ s.match_rows, m0.match_id = m.match_id := by
    intro m hmem
    have : m.match_id ∈ (updateMatchScore fault s id p1 v1 p2 v2 t).2.match_rows.map
        (fun m => m.match_id) := List.mem_map.mpr ⟨m, hmem, rfl⟩
    rw [hm] at this
    obtain ⟨m0, hm0, h0⟩ := List.mem_map.mp this
    exact ⟨m0, hm0, h0⟩
  refine ⟨⟨?_, ?_⟩, ?_⟩
  · intro m hmem
    obtain ⟨m0, hm0, h0⟩ := hrow m hmem
    have := hb1 m0 hm0
    rw [hn]
    omega
  · intro r hr
    have : participantIdentity r ∈
        (updateMatchScore fault s id p1 v1 p2 v2 t).2.match_participants.map
          participantIdentity := List.mem_map.mpr ⟨r, hr, rfl⟩
    rw [hp] at this
    obtain ⟨r0, hr0, h0⟩ := List.mem_map.mp this
    have hid : r0.match_id = r.match_id := congrArg Prod.fst h0
    have := hb2 r0 hr0
    rw [hn]
    omega
  · intro m hmem
    obtain ⟨m0, hm0, h0⟩ := hrow m hmem
    rw [filter_match_length, hp, ← filter_match_length, ← h0]
    exact htwo m0 hm0

theorem twoParticipants_schedule (fault : Nat → Bool) (s : Store) (event_id p1 p2 : Int)
    (t : Bool) (hok : (scheduleMatch fault s event_id p1 p2 t).1.status = 201)
    (h : MatchIdsBelow s ∧ TwoParticipants s) :
    MatchIdsBelow (scheduleMatch fault s event_id p1 p2 t).2 ∧
    TwoParticipants (scheduleMatch fault s event_id p1 p2 t).2 := by
  rw [scheduleMatch_ok fault s event_id p1 p2 t hok]
  obtain ⟨⟨hb1, hb2⟩, htwo⟩ := h
  have hold : (s.match_participants.filter
      (fun r => decide (r.match_id = s.next_match_id))) = [] := by
    rw [List.filter_eq_nil_iff]
    intro r hr
    have := hb2 r hr
    simp only [decide_eq_true_eq]
    omega
  refine ⟨⟨?_, ?_⟩, ?_⟩
  · intro m hm
    simp only [List.mem_append, List.mem_singleton] at hm
    rcases hm with hm | rfl
    · have := hb1 m hm
      simp only
      omega
    · simp
  · intro r hr
    simp only [List.mem_append, List.mem_cons, List.mem_singleton, List.not_mem_nil,
      or_false] at hr
    rcases hr with hr | rfl | rfl
    · have := hb2 r hr
      simp only
      omega
    · rw [newParticipant_match_id]; simp
    · rw [newParticipant_match_id]; simp
  · intro m hm
    simp only [List.mem_append, List.mem_singleton] at hm
    simp only [List.filter_append, List.length_append]
    rcases hm with hm | rfl
    · have hlt := hb1 m hm
      have hne : ¬ s.next_match_id = m.match_id := by omega
      rw [htwo m hm]
      simp [List.filter_cons, newParticipant_match_id, hne]
    · simp only
      rw [hold]
      simp [List.filter_cons, newParticipant_match_id]

theorem twoParticipants_reachable (s : Store) (h : ReachableScheduled s) :
    MatchIdsBelow s ∧ TwoParticipants s := by
  induction h with
  | init => simp [MatchIdsBelow, TwoParticipants, emptyStore]
  | schedule fault s event_id p1 p2 t _ hok ih =>
    exact twoParticipants_schedule fault s event_id p1 p2 t hok ih
  | score fault s id p1 v1 p2 v2 t _ ih =>
    exact twoParticipants_score fault s id p1 p2 v1 v2 t ih

/-- C24. Every successful `scheduleMatch` appends one match row with status
Scheduled and exactly two participant rows for it, both referencing a team when
`is_team` is set and both referencing a player otherwise, holding
`participant1_id` and `participant2_id`.  `updateMatchScore` never inserts or
deletes a participant row: whatever statement throws, the rows stay in place
with their match and their player or team.  So in every store reached from the
empty database by successful `scheduleMatch` requests and by `updateMatchScore`
requests every match has exactly two participant rows. -/
theorem match_two_participants (s : Store) :
    (∀ (fault : Nat → Bool) (event_id p1 p2 : Int) (is_team : Bool),
      (scheduleMatch fault s event_id p1 p2 is_team).1.status = 201 →
      (scheduleMatch fault s event_id p1 p2 is_team).2.match_rows =
        s.match_rows ++
          [{ match_id := s.next_match_id, event_id := event_id, match_status := "Scheduled",
             winner_id := none }] ∧
      (scheduleMatch fault s event_id p1 p2 is_team).2.match_participants =
        s.match_participants ++
          (if is_team then
            [{ match_id := s.next_match_id, player_id := none, team_id := some p1,
               score := none, result := none },
             { match_id := s.next_match_id, player_id := none, team_id := some p2,
               score := none, result := none }]
          else
            [{ match_id := s.next_match_id, player_id := some p1, team_id := none,
               score := none, result := none },
             { match_id := s.next_match_id, player_id := some p2, team_id := none,
               score := none, result := none }])) ∧
    (∀ (fault : Nat → Bool) (id p1 : Int) (v1 : JsValue) (p2 : Int) (v2 : JsValue)
        (is_team : Bool),
      (updateMatchScore fault s id p1 v1 p2 v2 is_team).2.match_participants.map
          participantIdentity =
        s.match_participants.map participantIdentity) ∧
    (ReachableScheduled s → TwoParticipants s) := by
  refine ⟨?_, ?_, ?_⟩
  · intro fault event_id p1 p2 is_team hok
    rw [scheduleMatch_ok fault s event_id p1 p2 is_team hok]
    cases is_team <;> simp [newParticipant]
  · intro fault id p1 v1 p2 v2 is_team
    exact (updateMatchScore_frame fault s id p1 p2 v1 v2 is_team).1
  · intro h
    exact (twoParticipants_reachable s h).2

/-- C24 at the empty database, where a first match is scheduled, and at the
store reached by scheduling match 1 and scoring it. -/
theorem match_two_participants_witness :
    (scheduleMatch noFault emptyStore 1 10 20 false).2.match_rows =
      emptyStore.match_rows ++
        [{ match_id := emptyStore.next_match_id, event_id := 1, match_status := "Scheduled",
           winner_id := none }] ∧
    TwoParticipants scoredStore :=
  ⟨((match_two_participants emptyStore).1 noFault 1 10 20 false (by decide)).1,
   (match_two_participants scoredStore).2.2
    (ReachableScheduled.score noFault _ 1 10 (.num 3) 20 (.num 1) false
      (ReachableScheduled.schedule noFault _ 1 10 20 false ReachableScheduled.init
        (by decide)))⟩

/-! ## Claim on two register requests in flight -/

/-- The statements of `registerPlayerStep`, run one after the other without
another request in between, are the handler `registerPlayer`. -/
theorem registerPlayerSteps_alone (now : Int) (s : Store) (e p : Int) :
    registerPlayerSteps now e p 4 (.start, s) =
      (.finished (registerPlayer noFault now s e p).1, (registerPlayer noFault now s e p).2) := by
  unfold registerPlayer
  simp only [registerPlayerSteps, registerPlayerStep, noFault]
  cases hsel : selectEvent s e with
  | nil => simp [registerPlayerStep, eventNotFound]
  | cons event rest =>
    simp only
    by_cases hk : event.is_team_based = true
    · simp [hk, registerPlayerStep, playerWrongKind]
    by_cases hdl : event.registration_deadline < now
    · simp [hk, hdl, registerPlayerStep, deadlinePassed]
    by_cases hdup : (existingPlayer s e p).length > 0
    · simp [hk, hdl, hdup, registerPlayerStep, playerDuplicate]
    · simp [hk, hdl, hdup, registerPlayerStep]

theorem length_two_kinds (ins : List Registration) (p q : Int) (hpq : p ≠ q)
    (h : ∀ r ∈ ins, r.player_id = some p ∨ r.player_id = some q) :
    ins.length = (ins.filter (fun r => r.player_id = some p)).length +
      (ins.filter (fun r => r.player_id = some q)).length := by
  induction ins with
  | nil => rfl
  | cons a rest ih =>
    have ih2 := ih (fun r hr => h r (List.mem_cons_of_mem _ hr))
    rw [List.filter_cons, List.filter_cons]
    rcases h a (List.mem_cons_self _ _) with ha | ha
    · have hq : ¬ a.player_id = some q := by
        rw [ha]; intro hh; injection hh with hh; exact hpq hh
      rw [if_pos (by simpa using ha), if_neg (by simpa using hq)]
      simp only [List.length_cons]
      omega
    · have hp : ¬ a.player_id = some p := by
        rw [ha]; intro hh; injection hh with hh; exact hpq hh.symm
      rw [if_neg (by simpa using hp), if_pos (by simpa using ha)]
      simp only [List.length_cons]
      omega

theorem raceInv_swap (s : Store) (e p q : Int) (event : Event) (a b : RegPhase) (st : Store)
    (h : RaceInv s e p q event (a, b, st)) : RaceInv s e q p event (b, a, st) := by
  obtain ⟨hev, ins, hreg, hall, ha, hb, hp, hq⟩ := h
  exact ⟨hev, ins, hreg, fun r hr => ⟨(hall r hr).1, (hall r hr).2.1, (hall r hr).2.2.symm⟩,
    hb, ha, hq, hp⟩

/-- One statement of the first request keeps `RaceInv`. -/
theorem raceInv_step (s : Store) (now e p q : Int) (event : Event) (rest : List Event)
    (hsel : selectEvent s e = event :: rest) (hk : event.is_team_based = false)
    (hdl : ¬ event.registration_deadline < now) (hpq : p ≠ q)
    (hdup : existingPlayer s e p = [])
    (hfree : event.current_participants < event.max_participants)
    (a b : RegPhase) (st : Store) (h : RaceInv s e p q event (a, b, st))
    (hrank : phaseRank a < 4) :
    RaceInv s e p q event
      ((registerPlayerStep now e p a st).1, b, (registerPlayerStep now e p a st).2) ∧
    phaseRank (registerPlayerStep now e p a st).1 = phaseRank a + 1 := by
  obtain ⟨hev, ins, hreg, hall, ha, hb, hp, hq⟩ := h
  simp only at hev hreg ha hb hp hq
  have hconf : admissionStatus event = "Confirmed" := (admissionStatus_confirmed event).mpr hfree
  cases a with
  | start =>
    have hsel2 : selectEvent st e = event :: rest := by
      unfold selectEvent at hsel ⊢
      rw [hev]; exact hsel
    simp only [registerPlayerStep, hsel2, hk, hdl, if_false, Bool.false_eq_true]
    exact ⟨⟨hev, ins, hreg, hall, rfl, hb, hp, hq⟩, rfl⟩
  | eventRead ev =>
    have hnone : (existingPlayer st e p).length = 0 := by
      unfold existingPlayer at hdup ⊢
      rw [hreg, List.filter_append, hdup, List.nil_append]
      have hle : (ins.filter (fun r => decide (r.event_id = e ∧ r.player_id = some p ∧
          r.status ≠ "Cancelled"))).length ≤
          (ins.filter (fun r => decide (r.player_id = some p))).length := by
        apply List.Sublist.length_le
        apply List.monotone_filter_right
        intro r hr
        simp only [decide_eq_true_eq] at hr ⊢
        exact hr.2.1
      simp only [hasInserted, Bool.false_eq_true, if_false] at hp
      omega
    have hnot : ¬ (existingPlayer st e p).length > 0 := by omega
    simp only [registerPlayerStep, hnot, if_false]
    exact ⟨⟨hev, ins, hreg, hall, ha, hb, hp, hq⟩, rfl⟩
  | checked ev =>
    simp only [PhaseOk] at ha
    subst ha
    have hrow : ∃ row : Registration, row.event_id = e ∧ row.status = "Confirmed" ∧
        row.player_id = some p ∧
        (insertRegistration st now e (some p) none "Confirmed").registrations =
          st.registrations ++ [row] := ⟨_, rfl, rfl, rfl, rfl⟩
    obtain ⟨row, hr1, hr2, hr3, hr4⟩ := hrow
    simp only [registerPlayerStep, hconf]
    refine ⟨⟨hev, ins ++ [row], ?_, ?_, rfl, hb, ?_, ?_⟩, rfl⟩
    · simp only [hr4, hreg, List.append_assoc]
    · intro r hr
      simp only [List.mem_append, List.mem_singleton] at hr
      rcases hr with hr | rfl
      · exact hall r hr
      · exact ⟨hr1, hr2, Or.inl hr3⟩
    · simp only [hasInserted, Bool.false_eq_true, if_false, if_true] at hp ⊢
      rw [List.filter_append, List.length_append, hp]
      simp [hr3]
    · rw [List.filter_append, List.length_append, hq]
      have hne : ¬ p = q := hpq
      simp [hr3, hne]
  | inserted ev insertId =>
    simp only [registerPlayerStep]
    exact ⟨⟨hev, ins, hreg, hall, rfl, hb, hp, hq⟩, rfl⟩
  | finished answer =>
    simp only [phaseRank] at hrank
    omega

/-- A finished request stays finished, with the store untouched. -/
theorem registerPlayerStep_finished (now e p : Int) (a : RegPhase) (st : Store)
    (h : phaseRank a = 4) : registerPlayerStep now e p a st = (a, st) := by
  cases a <;> simp only [phaseRank] at h <;> first | omega | rfl

theorem phaseRank_le (a : RegPhase) : phaseRank a ≤ 4 := by
  cases a <;> simp only [phaseRank] <;> omega

theorem phaseRank_finished (a : RegPhase) (h : phaseRank a = 4) :
    ∃ answer, a = .finished answer := by
  cases a <;> simp only [phaseRank] at h <;> first | omega | exact ⟨_, rfl⟩

/-- One statement of either request keeps `RaceInv` and moves that request one
statement on, unless it has finished. -/
theorem raceInv_turn (s : Store) (now e p q : Int) (event : Event) (rest : List Event)
    (hsel : selectEvent s e = event :: rest) (hk : event.is_team_based = false)
    (hdl : ¬ event.registration_deadline < now) (hpq : p ≠ q)
    (hdup : existingPlayer s e p = [])
    (hfree : event.current_participants < event.max_participants)
    (a b : RegPhase) (st : Store) (h : RaceInv s e p q event (a, b, st)) :
    RaceInv s e p q event
      ((registerPlayerStep now e p a st).1, b, (registerPlayerStep now e p a st).2) ∧
    phaseRank (registerPlayerStep now e p a st).1 = min 4 (phaseRank a + 1) := by
  by_cases hrank : phaseRank a < 4
  · have hstep := raceInv_step s now e p q event rest hsel hk hdl hpq hdup hfree a b st h hrank
    refine ⟨hstep.1, ?_⟩
    rw [hstep.2]
    omega
  · have hle := phaseRank_le a
    have h4 : phaseRank a = 4 := by omega
    rw [registerPlayerStep_finished now e p a st h4]
    refine ⟨h, ?_⟩
    simp only
    omega

/-- Every schedule keeps `RaceInv`; each request is as many statements on as
the schedule gave it turns, up to its fourth. -/
theorem raceInv_run (s : Store) (now1 now2 e p q : Int) (event : Event) (rest : List Event)
    (hsel : selectEvent s e = event :: rest) (hk : event.is_team_based = false)
    (hdl1 : ¬ event.registration_deadline < now1)
    (hdl2 : ¬ event.registration_deadline < now2) (hpq : p ≠ q)
    (hdup1 : existingPlayer s e p = []) (hdup2 : existingPlayer s e q = [])
    (hfree : event.current_participants < event.max_participants) :
    ∀ (sched : List Bool) (a b : RegPhase) (st : Store), RaceInv s e p q event (a, b, st) →
      RaceInv s e p q event (interleave now1 now2 e p q sched (a, b, st)) ∧
      phaseRank (interleave now1 now2 e p q sched (a, b, st)).1 =
        min 4 (phaseRank a + sched.count true) ∧
      phaseRank (interleave now1 now2 e p q sched (a, b, st)).2.1 =
        min 4 (phaseRank b + sched.count false) := by
  intro sched
  induction sched with
  | nil =>
    intro a b st h
    have ha := phaseRank_le a
    have hb := phaseRank_le b
    simp only [interleave, List.count_nil]
    refine ⟨h, ?_, ?_⟩ <;> omega
  | cons turn more ih =>
    intro a b st h
    cases turn with
    | true =>
      have hstep := raceInv_turn s now1 e p q event rest hsel hk hdl1 hpq hdup1 hfree a b st h
      have hrun := ih _ _ _ hstep.1
      simp only [interleave]
      refine ⟨hrun.1, ?_, ?_⟩
      · rw [hrun.2.1, hstep.2]
        simp only [List.count_cons_self]
        omega
      · rw [hrun.2.2]
        simp
    | false =>
      have hstep := raceInv_turn s now2 e q p event rest hsel hk hdl2 hpq.symm hdup2 hfree
        b a st (raceInv_swap s e p q event a b st h)
      have hback := raceInv_swap s e q p event _ _ _ hstep.1
      have hrun := ih _ _ _ hback
      simp only [interleave]
      refine ⟨hrun.1, ?_, ?_⟩
      · rw [hrun.2.1]
        simp
      · rw [hrun.2.2, hstep.2]
        simp only [List.count_cons_self]
        omega

theorem raceInv_start (s : Store) (e p q : Int) (event : Event) :
    RaceInv s e p q event (.start, .start, s) :=
  ⟨rfl, [], (List.append_nil _).symm, fun _ h => absurd h (List.not_mem_nil _),
    trivial, trivial, rfl, rfl⟩

theorem exists_of_filter_length_one {α : Type} (l : List α) (f : α → Bool)
    (h : (l.filter f).length = 1) : ∃ r ∈ l, f r = true := by
  cases hf : l.filter f with
  | nil => rw [hf] at h; simp at h
  | cons r more =>
    have hr : r ∈ l.filter f := by rw [hf]; exact List.mem_cons_self _ _
    exact ⟨r, (List.mem_filter.mp hr).1, (List.mem_filter.mp hr).2⟩

theorem confirmedCount_append_confirmed (s st : Store) (e : Int) (ins : List Registration)
    (hreg : st.registrations = s.registrations ++ ins)
    (hall : ∀ r ∈ ins, r.event_id = e ∧ r.status = "Confirmed") :
    confirmedCount st e = confirmedCount s e + ins.length := by
  unfold confirmedCount
  rw [hreg, List.filter_append, List.length_append]
  congr 1
  congr 1
  rw [List.filter_eq_self]
  intro r hr
  simpa using hall r hr

/-- C25 fails on the code: event 1 has capacity 2, stored counter 1 and one
Confirmed registration, and two requests taking turns are both admitted:
three Confirmed registrations for a capacity of two. -/
theorem concurrent_register_counterexample :
    confirmedCount oneFreeSlotStore 1 = 1 ∧
    oneFreeSlotStore.events.map (fun ev => (ev.current_participants, ev.max_participants)) =
      [(1, 2)] ∧
    (interleave 6 7 1 2 3 alternating (.start, .start, oneFreeSlotStore)).2.2.registrations.map
      (fun r => (r.player_id, r.status)) =
      [(some 1, "Confirmed"), (some 2, "Confirmed"), (some 3, "Confirmed")] ∧
    confirmedCount
      (interleave 6 7 1 2 3 alternating (.start, .start, oneFreeSlotStore)).2.2 1 = 3 := by
  decide

/-- C25, amended. Two `registerPlayer` requests in flight for the same event
that is not team-based, before its deadline, with the stored counter below the
maximum, for two distinct players without a registration there: under every
schedule that lets each request run its four statements, both requests are
answered 201, and the store holds the old registrations followed by exactly
two new ones, both Confirmed rows of the event, one for each player; the
Confirmed count of the event has grown by two. -/
theorem concurrent_register (s : Store) (now1 now2 e p q : Int) (event : Event)
    (rest : List Event)
    (hsel : selectEvent s e = event :: rest) (hk : event.is_team_based = false)
    (hdl1 : ¬ event.registration_deadline < now1)
    (hdl2 : ¬ event.registration_deadline < now2) (hpq : p ≠ q)
    (hdup1 : existingPlayer s e p = []) (hdup2 : existingPlayer s e q = [])
    (hfree : event.current_participants < event.max_participants)
    (sched : List Bool) (h1 : 4 ≤ sched.count true) (h2 : 4 ≤ sched.count false) :
    ∃ (a1 a2 : Response Registration) (st : Store) (ins : List Registration),
      interleave now1 now2 e p q sched (.start, .start, s) = (.finished a1, .finished a2, st) ∧
      a1.status = 201 ∧ a2.status = 201 ∧
      st.registrations = s.registrations ++ ins ∧ ins.length = 2 ∧
      (∀ r ∈ ins, r.event_id = e ∧ r.status = "Confirmed") ∧
      (∃ r ∈ ins, r.player_id = some p) ∧ (∃ r ∈ ins, r.player_id = some q) ∧
      confirmedCount st e = confirmedCount s e + 2 := by
  have hrun := raceInv_run s now1 now2 e p q event rest hsel hk hdl1 hdl2 hpq hdup1 hdup2 hfree
    sched .start .start s (raceInv_start s e p q event)
  obtain ⟨hinv, hr1, hr2⟩ := hrun
  generalize interleave now1 now2 e p q sched (.start, .start, s) = c at hinv hr1 hr2
  obtain ⟨a, b, st⟩ := c
  have hr1b : phaseRank a = min 4 (0 + sched.count true) := hr1
  have hr2b : phaseRank b = min 4 (0 + sched.count false) := hr2
  have ha4 : phaseRank a = 4 := by omega
  have hb4 : phaseRank b = 4 := by omega
  obtain ⟨a1, rfl⟩ := phaseRank_finished a ha4
  obtain ⟨a2, rfl⟩ := phaseRank_finished b hb4
  obtain ⟨_, ins, hreg, hall, hs1, hs2, hp, hq⟩ := hinv
  simp only [hasInserted, if_true] at hp hq
  have hlen : ins.length = 2 := by
    rw [length_two_kinds ins p q hpq (fun r hr => (hall r hr).2.2), hp, hq]
  have hall2 : ∀ r ∈ ins, r.event_id = e ∧ r.status = "Confirmed" :=
    fun r hr => ⟨(hall r hr).1, (hall r hr).2.1⟩
  obtain ⟨r1, hr1m, hr1p⟩ := exists_of_filter_length_one ins _ hp
  obtain ⟨r2, hr2m, hr2p⟩ := exists_of_filter_length_one ins _ hq
  refine ⟨a1, a2, st, ins, rfl, hs1, hs2, hreg, hlen, hall2,
    ⟨r1, hr1m, by simpa using hr1p⟩, ⟨r2, hr2m, by simpa using hr2p⟩, ?_⟩
  rw [confirmedCount_append_confirmed s st e ins hreg hall2, hlen]

theorem concurrent_register_witness :
    ∃ (a1 a2 : Response Registration) (st : Store) (ins : List Registration),
      interleave 6 7 1 2 3 alternating (.start, .start, oneFreeSlotStore) =
        (.finished a1, .finished a2, st) ∧
      a1.status = 201 ∧ a2.status = 201 ∧
      st.registrations = oneFreeSlotStore.registrations ++ ins ∧ ins.length = 2 ∧
      (∀ r ∈ ins, r.event_id = 1 ∧ r.status = "Confirmed") ∧
      (∃ r ∈ ins, r.player_id = some 2) ∧ (∃ r ∈ ins, r.player_id = some 3) ∧
      confirmedCount st 1 = confirmedCount oneFreeSlotStore 1 + 2 :=
  concurrent_register oneFreeSlotStore 6 7 1 2 3
    { event_id := 1, is_team_based := false, registration_deadline := 100,
      current_participants := 1, max_participants := 2 } []
    (by decide) rfl (by decide) (by decide) (by decide) (by decide) (by decide) (by decide)
    alternating (by decide) (by decide)

/-! ## registerTeam with a null team id -/

/-- With an integer bound, the duplicate query is `existingTeam`. -/
theorem existingTeamBody_some (s : Store) (e t : Int) :
    existingTeamBody s e (some t) = existingTeam s e t := by
  unfold existingTeamBody existingTeam
  apply List.filter_congr
  intro r _
  cases h : r.team_id <;> simp [sqlEq]

/-- With NULL bound, the duplicate query selects nothing. -/
theorem existingTeamBody_none (s : Store) (e : Int) : existingTeamBody s e none = [] := by
  unfold existingTeamBody
  rw [List.filter_eq_nil_iff]
  intro r _
  cases h : r.team_id <;> simp [sqlEq]

/-- On an integer team id the handler on the raw body is `registerTeam`. -/
theorem registerTeamBody_some (fault : Nat → Bool) (now : Int) (s : Store) (e t : Int) :
    registerTeamBody fault now s e (some t) = registerTeam fault now s e t := by
  unfold registerTeamBody registerTeam
  rw [existingTeamBody_some]

/-- C23, the code at the failing input: event 2 is team-based, before its
deadline, with no registration.  `registerTeam` called with `team_id` null is
answered 201 "Team registered successfully" and appends a registration row
whose `player_id` and `team_id` are both NULL: a created row that references
neither a player nor a team.  The duplicate query never matches NULL, so a
second such request is admitted as well. -/
theorem register_team_null :
    teamEventStore.events.map (fun ev => (ev.event_id, ev.is_team_based)) = [(2, true)] ∧
    teamEventStore.registrations = [] ∧
    (registerTeamBody noFault 6 teamEventStore 2 none).1.status = 201 ∧
    (registerTeamBody noFault 6 teamEventStore 2 none).1.message =
      "Team registered successfully" ∧
    (registerTeamBody noFault 6 teamEventStore 2 none).2.registrations =
      [{ registration_id := 1, event_id := 2, player_id := none, team_id := none,
         status := "Confirmed", registration_date := 6 }] ∧
    (registerTeamBody noFault 7 (registerTeamBody noFault 6 teamEventStore 2 none).2
        2 none).2.registrations.map (fun r => (r.registration_id, r.player_id, r.team_id)) =
      [(1, none, none), (2, none, none)] := by
  decide

end Tournament
